import Mathlib

/-! # coldbrew-cli: ELB provisioning (`commands/deploy/aws_elb.go`)

A shallow embedding of the load balancer reconciliation code of the deploy
command, and theorems about it.

Conventions of the embedding.

* Go pointer fields that the source only ever reads through `conv.S`,
  `conv.U16` or `conv.I64` are record fields holding the value those helpers
  return; the one pointer the source tests against `nil` itself
  (`elbTargetGroup.Matcher`) is an `Option`.
* `uint16` configuration values are `Nat`; the conversions `uint16(x)` and
  `int64(x)` of a parsed time expression are written out with explicit
  moduli.
* A Go `(value, error)` result is an `Except GoError value`.
* The AWS client wrappers (`aws/elb`, `aws/ec2`), `globalFlags` and the
  `core` helpers are not part of the embedded file: they are parameters of
  `Command`.  Every call to the client is recorded, with its arguments and
  its result, in the trace of the `World`.
-/

namespace Coldbrew

/-! ## Data model -/

/-- A Go `error`; `code` is the AWS error code when the error is an AWS one. -/
structure GoError where
  code : String
  message : String
deriving DecidableEq, Repr

/-- The text `err.Error()` yields. -/
def GoError.Error (e : GoError) : String := e.message

/-- The error `fmt.Errorf` builds: it carries no AWS error code. -/
def Errorf (msg : String) : GoError := ⟨"", msg⟩

deriving instance DecidableEq for Except

/-- Load balancer description returned by the ELB client. -/
structure LoadBalancer where
  LoadBalancerArn : String
  LoadBalancerName : String
deriving DecidableEq, Repr

/-- Default action of a listener. -/
structure Action where
  TargetGroupArn : String
deriving DecidableEq, Repr

/-- Listener description returned by the ELB client. -/
structure Listener where
  DefaultActions : List Action
deriving DecidableEq, Repr

/-- Status code matcher of a target group. -/
structure Matcher where
  HttpCode : String
deriving DecidableEq, Repr

/-- Target group description returned by the ELB client. -/
structure TargetGroup where
  TargetGroupArn : String
  TargetGroupName : String
  HealthCheckIntervalSeconds : Int
  HealthCheckTimeoutSeconds : Int
  HealthCheckPath : String
  HealthyThresholdCount : Int
  UnhealthyThresholdCount : Int
  Matcher : Option Matcher
deriving DecidableEq, Repr

/-- Security group description returned by the EC2 client. -/
structure SecurityGroup where
  GroupId : String
  GroupName : String
deriving DecidableEq, Repr

/-- The health check parameters handed to the ELB client (`elb.HealthCheckParams`). -/
structure HealthCheckParams where
  CheckIntervalSeconds : Nat
  CheckPath : String
  Protocol : String
  ExpectedHTTPStatusCodes : String
  CheckTimeoutSeconds : Nat
  HealthyThresholdCount : Nat
  UnhealthyThresholdCount : Nat
deriving DecidableEq, Repr

/-- A tag set (`map[string]string`). -/
abbrev Tags := List (String × String)

/-- The value handed to the ECS service step (`ecs.LoadBalancer`). -/
structure ECSLoadBalancer where
  ELBTargetGroupARN : String
  TaskContainerName : String
  TaskContainerPort : Nat
deriving DecidableEq, Repr

/-- Configuration section `conf.AWS`. -/
structure ConfigAWS where
  ELBLoadBalancerName : String
  ELBTargetGroupName : String
  ELBSecurityGroupName : String
  ELBCertificateARN : String
deriving DecidableEq, Repr

/-- Configuration section `conf.LoadBalancer.HealthCheck`. -/
structure ConfigHealthCheck where
  Interval : String
  Timeout : String
  Path : String
  Status : String
  HealthyLimit : Nat
  UnhealthyLimit : Nat
deriving DecidableEq, Repr

/-- Configuration section `conf.LoadBalancer`. -/
structure ConfigLoadBalancer where
  Port : Nat
  HTTPSPort : Nat
  HealthCheck : ConfigHealthCheck
deriving DecidableEq, Repr

/-- The configuration read by the deploy command (`c.conf`). -/
structure Config where
  ClusterName : String
  AWS : ConfigAWS
  LoadBalancer : ConfigLoadBalancer
deriving DecidableEq, Repr

/-- The `core` helpers used by the file; their code is not part of it. -/
structure Core where
  ParseTimeExpression : String → Except GoError Nat
  DefaultTagsForAWSResources : String → Tags
  DefaultInstanceSecurityGroupName : String → String

/-- The constant `ec2.SecurityGroupProtocolTCP`. -/
def SecurityGroupProtocolTCP : String := "tcp"

/-- Go conversion `uint16(x)` of an unsigned value. -/
def uint16 (x : Nat) : Nat := x % 2 ^ 16

/-- Go conversion `int64(x)` of an unsigned 64 bit value. -/
def int64 (x : Nat) : Int :=
  if x % 2 ^ 64 < 2 ^ 63 then ((x % 2 ^ 64 : Nat) : Int) else ((x % 2 ^ 64 : Nat) : Int) - 2 ^ 64

/-! ## Client calls and their trace -/

/-- One call to a collaborator, with its arguments and the result it gave. -/
inductive Event where
  | GetAWSRegionAndVPCID (res : Except GoError (String × String))
  | RetrieveLoadBalancerByName (name : String) (res : Except GoError (Option LoadBalancer))
  | RetrieveTargetGroupByName (name : String) (res : Except GoError (Option TargetGroup))
  | RetrieveTargetGroup (arn : String) (res : Except GoError (Option TargetGroup))
  | RetrieveLoadBalancerListeners (lbARN : String) (res : Except GoError (List Listener))
  | CreateListener (lbARN tgARN : String) (port : Nat) (protocol certificateARN : String)
      (res : Except GoError Unit)
  | CreateTargetGroup (name : String) (port : Nat) (protocol vpcID : String)
      (healthCheck : HealthCheckParams) (res : Except GoError TargetGroup)
  | UpdateTargetGroupHealthCheck (arn : String) (healthCheck : HealthCheckParams)
      (res : Except GoError Unit)
  | CreateLoadBalancer (name : String) (internetFacing : Bool) (securityGroupIDs subnetIDs : List String)
      (res : Except GoError LoadBalancer)
  | ELBCreateTags (arn : String) (tags : Tags) (res : Except GoError Unit)
  | ListVPCSubnets (vpcID : String) (res : Except GoError (List String))
  | RetrieveSecurityGroupByNameOrID (nameOrID : String) (res : Except GoError (Option SecurityGroup))
  | RetrieveSecurityGroupByName (name : String) (res : Except GoError (Option SecurityGroup))
  | CreateSecurityGroup (name description vpcID : String) (res : Except GoError String)
  | EC2CreateTags (resourceID : String) (tags : Tags) (res : Except GoError Unit)
  | AddInboundToSecurityGroup (groupID protocol : String) (portFrom portTo : Nat) (source : String)
      (res : Except GoError Unit)
deriving DecidableEq

/-- Calls that create or change a cloud resource. -/
def Event.isMutating : Event → Bool
  | .CreateListener .. => true
  | .CreateTargetGroup .. => true
  | .UpdateTargetGroupHealthCheck .. => true
  | .CreateLoadBalancer .. => true
  | .ELBCreateTags .. => true
  | .CreateSecurityGroup .. => true
  | .EC2CreateTags .. => true
  | .AddInboundToSecurityGroup .. => true
  | _ => false

/-- The call is a `CreateListener` call. -/
def Event.isCreateListener : Event → Bool
  | .CreateListener .. => true
  | _ => false

/-- The call is a `CreateTargetGroup` call. -/
def Event.isCreateTargetGroup : Event → Bool
  | .CreateTargetGroup .. => true
  | _ => false

/-- The call is a `CreateSecurityGroup` call. -/
def Event.isCreateSecurityGroup : Event → Bool
  | .CreateSecurityGroup .. => true
  | _ => false

/-- The call is a `RetrieveTargetGroupByName` call. -/
def Event.isTargetGroupLookup : Event → Bool
  | .RetrieveTargetGroupByName .. => true
  | _ => false

/-- The call creates, tags or opens a security group. -/
def Event.isSecurityGroupChange : Event → Bool
  | .CreateSecurityGroup .. => true
  | .EC2CreateTags .. => true
  | .AddInboundToSecurityGroup .. => true
  | _ => false

/-- The call is an `UpdateTargetGroupHealthCheck` call. -/
def Event.isUpdateTargetGroupHealthCheck : Event → Bool
  | .UpdateTargetGroupHealthCheck .. => true
  | _ => false

/-- The lookups by which `prepareELBLoadBalancer` chooses its path: load
balancer by name, target group by name, listeners of the load balancer. -/
def Event.isPathLookup : Event → Bool
  | .RetrieveLoadBalancerByName .. => true
  | .RetrieveTargetGroupByName .. => true
  | .RetrieveLoadBalancerListeners .. => true
  | _ => false

/-- The call is a `RetrieveLoadBalancerByName` call. -/
def Event.isLoadBalancerLookup : Event → Bool
  | .RetrieveLoadBalancerByName .. => true
  | _ => false

/-- The call returned without error; a lookup of the instances security group
by name counts as successful only when it found the group. -/
def Event.succeeded : Event → Bool
  | .GetAWSRegionAndVPCID r => r.toBool
  | .RetrieveLoadBalancerByName _ r => r.toBool
  | .RetrieveTargetGroupByName _ r => r.toBool
  | .RetrieveTargetGroup _ r => r.toBool
  | .RetrieveLoadBalancerListeners _ r => r.toBool
  | .CreateListener _ _ _ _ _ r => r.toBool
  | .CreateTargetGroup _ _ _ _ _ r => r.toBool
  | .UpdateTargetGroupHealthCheck _ _ r => r.toBool
  | .CreateLoadBalancer _ _ _ _ r => r.toBool
  | .ELBCreateTags _ _ r => r.toBool
  | .ListVPCSubnets _ r => r.toBool
  | .RetrieveSecurityGroupByNameOrID _ r => r.toBool
  | .RetrieveSecurityGroupByName _ r =>
      match r with
      | .ok (some _) => true
      | _ => false
  | .CreateSecurityGroup _ _ _ r => r.toBool
  | .EC2CreateTags _ _ r => r.toBool
  | .AddInboundToSecurityGroup _ _ _ _ _ r => r.toBool

/-- The ELB part of the AWS client, as functions on a client state `σ`. -/
structure ELBClient (σ : Type) where
  RetrieveLoadBalancerByName : String → σ → Except GoError (Option LoadBalancer) × σ
  RetrieveTargetGroupByName : String → σ → Except GoError (Option TargetGroup) × σ
  RetrieveTargetGroup : String → σ → Except GoError (Option TargetGroup) × σ
  RetrieveLoadBalancerListeners : String → σ → Except GoError (List Listener) × σ
  CreateListener : String → String → Nat → String → String → σ → Except GoError Unit × σ
  CreateTargetGroup : String → Nat → String → String → HealthCheckParams → σ →
    Except GoError TargetGroup × σ
  UpdateTargetGroupHealthCheck : String → HealthCheckParams → σ → Except GoError Unit × σ
  CreateLoadBalancer : String → Bool → List String → List String → σ →
    Except GoError LoadBalancer × σ
  CreateTags : String → Tags → σ → Except GoError Unit × σ

/-- The EC2 part of the AWS client, as functions on a client state `σ`. -/
structure EC2Client (σ : Type) where
  ListVPCSubnets : String → σ → Except GoError (List String) × σ
  RetrieveSecurityGroupByNameOrID : String → σ → Except GoError (Option SecurityGroup) × σ
  RetrieveSecurityGroupByName : String → σ → Except GoError (Option SecurityGroup) × σ
  CreateSecurityGroup : String → String → String → σ → Except GoError String × σ
  CreateTags : String → Tags → σ → Except GoError Unit × σ
  AddInboundToSecurityGroup : String → String → Nat → Nat → String → σ → Except GoError Unit × σ

/-- The AWS client (`c.awsClient`). -/
structure AWSClient (σ : Type) where
  ELB : ELBClient σ
  EC2 : EC2Client σ

/-- The receiver of the methods: configuration, flags, client and helpers. -/
structure Command (σ : Type) where
  conf : Config
  core : Core
  GetAWSRegionAndVPCID : σ → Except GoError (String × String) × σ
  awsClient : AWSClient σ

/-- The state a run works on: the collaborators and the calls made so far. -/
structure World (σ : Type) where
  cloud : σ
  trace : List Event

/-- A computation that may fail with a Go error and keeps the world it reached. -/
structure M (σ α : Type) where
  run : World σ → Except GoError α × World σ

instance (σ : Type) : Monad (M σ) where
  pure a := ⟨fun w => (.ok a, w)⟩
  bind m f := ⟨fun w =>
    match m.run w with
    | (.ok a, w1) => (f a).run w1
    | (.error e, w1) => (.error e, w1)⟩

/-- Return with an error. -/
def fail {σ α : Type} (e : GoError) : M σ α := ⟨fun w => (.error e, w)⟩

/-- Perform one client call and record it. -/
def call {σ α : Type} (f : σ → Except GoError α × σ) (ev : Except GoError α → Event) :
    M σ (Except GoError α) :=
  ⟨fun w => (.ok (f w.cloud).1, ⟨(f w.cloud).2, w.trace ++ [ev (f w.cloud).1]⟩)⟩

/-- Run a computation from a client state, with an empty trace. -/
def exec {σ α : Type} (m : M σ α) (s : σ) : Except GoError α × World σ := m.run ⟨s, []⟩

/-- Modelled from the spec: `utils.RetryOnAWSErrorCode` is not part of the file.
The spec (RetryExecutor) says: invoke `op`; if it fails with an error whose
code is retryable, sleep the poll interval and retry until the maximum
duration has elapsed, then surface the last error; any other error is
surfaced at once.  Time is counted in polls: `n` retries are left. -/
def retryAttempts {σ : Type} (op : M σ (Except GoError Unit)) (retryableErrorCodes : List String) :
    Nat → M σ (Except GoError Unit)
  | 0 => op
  | n + 1 => do
      match ← op with
      | .ok u => pure (.ok u)
      | .error e =>
          if retryableErrorCodes.contains e.code then retryAttempts op retryableErrorCodes n
          else pure (.error e)

/-- Modelled from the spec: `utils.RetryOnAWSErrorCode`, with the poll interval
and the maximum duration in seconds. -/
def RetryOnAWSErrorCode {σ : Type} (op : M σ (Except GoError Unit)) (retryableErrorCodes : List String)
    (pollInterval maxDuration : Nat) : M σ (Except GoError Unit) :=
  retryAttempts op retryableErrorCodes (maxDuration / pollInterval)

/-! ## The embedded functions -/

section Program

variable {σ : Type}

/-- The health check parameters built from the configuration, given the two
parsed time expressions (the struct literal of `createELBTargetGroup` and of
`checkLoadBalancerHealthCheckChanges`). -/
def healthCheckParams (conf : Config) (checkInterval timeout : Nat) : HealthCheckParams :=
  { CheckIntervalSeconds := uint16 checkInterval
    CheckPath := conf.LoadBalancer.HealthCheck.Path
    Protocol := "HTTP"
    ExpectedHTTPStatusCodes := conf.LoadBalancer.HealthCheck.Status
    CheckTimeoutSeconds := uint16 timeout
    HealthyThresholdCount := conf.LoadBalancer.HealthCheck.HealthyLimit
    UnhealthyThresholdCount := conf.LoadBalancer.HealthCheck.UnhealthyLimit }

/-- Source: `createELBTargetGroup`. -/
def createELBTargetGroup (c : Command σ) (targetGroupName : String) : M σ String := do
  match ← call c.GetAWSRegionAndVPCID Event.GetAWSRegionAndVPCID with
  | .error err => fail err
  | .ok (_, vpcID) =>
  match c.core.ParseTimeExpression c.conf.LoadBalancer.HealthCheck.Interval with
  | .error _ => pure ""
  | .ok checkInterval =>
  match c.core.ParseTimeExpression c.conf.LoadBalancer.HealthCheck.Timeout with
  | .error _ => pure ""
  | .ok timeout =>
  let healthCheck := healthCheckParams c.conf checkInterval timeout
  match ← call (c.awsClient.ELB.CreateTargetGroup targetGroupName 80 "HTTP" vpcID healthCheck)
      (Event.CreateTargetGroup targetGroupName 80 "HTTP" vpcID healthCheck) with
  | .error err =>
      fail (Errorf ("Failed to create ELB Target Group [" ++ targetGroupName ++ "]: " ++ err.Error))
  | .ok targetGroup =>
  match ← call (c.awsClient.ELB.CreateTags targetGroup.TargetGroupArn
        (c.core.DefaultTagsForAWSResources targetGroupName))
      (Event.ELBCreateTags targetGroup.TargetGroupArn
        (c.core.DefaultTagsForAWSResources targetGroupName)) with
  | .error err =>
      fail (Errorf ("Failed to tag ELB Target Group [" ++ targetGroupName ++ "]: " ++ err.Error))
  | .ok _ => pure targetGroup.TargetGroupArn

/-- Source: `createELBLoadBalancer`. -/
def createELBLoadBalancer (c : Command σ) (name vpcID securityGroupID : String) : M σ String := do
  match ← call (c.awsClient.EC2.ListVPCSubnets vpcID) (Event.ListVPCSubnets vpcID) with
  | .error err => fail (Errorf ("Failed to list subnets: " ++ err.Error))
  | .ok subnetIDs =>
  match ← call (c.awsClient.ELB.CreateLoadBalancer name true [securityGroupID] subnetIDs)
      (Event.CreateLoadBalancer name true [securityGroupID] subnetIDs) with
  | .error err =>
      fail (Errorf ("Failed to create ELB Load Balancer [" ++ name ++ "]: " ++ err.Error))
  | .ok lb =>
  match ← call (c.awsClient.ELB.CreateTags lb.LoadBalancerArn (c.core.DefaultTagsForAWSResources name))
      (Event.ELBCreateTags lb.LoadBalancerArn (c.core.DefaultTagsForAWSResources name)) with
  | .error err =>
      fail (Errorf ("Failed to tag ELB Load Balancer [" ++ name ++ "]: " ++ err.Error))
  | .ok _ => pure lb.LoadBalancerArn

/-- Source: `createLoadBalancerSecurityGroup`. -/
def createLoadBalancerSecurityGroup (c : Command σ) (vpcID : String) (httpPort httpsPort : Nat)
    (securityGroupName : String) : M σ String := do
  match ← call (c.awsClient.EC2.CreateSecurityGroup securityGroupName securityGroupName vpcID)
      (Event.CreateSecurityGroup securityGroupName securityGroupName vpcID) with
  | .error err =>
      fail (Errorf ("Failed to create EC2 Security Group [" ++ securityGroupName ++ "]: " ++ err.Error))
  | .ok securityGroupID =>
  match ← RetryOnAWSErrorCode
      (call (c.awsClient.EC2.CreateTags securityGroupID
          (c.core.DefaultTagsForAWSResources securityGroupName))
        (Event.EC2CreateTags securityGroupID (c.core.DefaultTagsForAWSResources securityGroupName)))
      ["InvalidGroup.NotFound"] 1 (5 * 60) with
  | .error err =>
      fail (Errorf ("Failed to tag EC2 Security Group [" ++ securityGroupName ++ "]: " ++ err.Error))
  | .ok _ =>
  -- add load balancer inbound rule (HTTP)
  if httpPort > 0 then
    match ← call (c.awsClient.EC2.AddInboundToSecurityGroup securityGroupID SecurityGroupProtocolTCP
          httpPort httpPort "0.0.0.0/0")
        (Event.AddInboundToSecurityGroup securityGroupID SecurityGroupProtocolTCP
          httpPort httpPort "0.0.0.0/0") with
    | .error err =>
        fail (Errorf ("Failed to add inbound rule to EC2 Security Group [" ++ securityGroupName
          ++ "]: " ++ err.Error))
    | .ok _ => pure ()
  -- add load balancer inbound rule (HTTPS)
  if httpsPort > 0 then
    match ← call (c.awsClient.EC2.AddInboundToSecurityGroup securityGroupID SecurityGroupProtocolTCP
          httpsPort httpsPort "0.0.0.0/0")
        (Event.AddInboundToSecurityGroup securityGroupID SecurityGroupProtocolTCP
          httpsPort httpsPort "0.0.0.0/0") with
    | .error err =>
        fail (Errorf ("Failed to add inbound rule to EC2 Security Group [" ++ securityGroupName
          ++ "]: " ++ err.Error))
    | .ok _ => pure ()
  -- add inbound rule to ECS instance security group
  let ecsInstancesSecurityGroupName := c.core.DefaultInstanceSecurityGroupName c.conf.ClusterName
  match ← call (c.awsClient.EC2.RetrieveSecurityGroupByName ecsInstancesSecurityGroupName)
      (Event.RetrieveSecurityGroupByName ecsInstancesSecurityGroupName) with
  | .error err =>
      fail (Errorf ("Failed to retrieve EC2 Security Group [" ++ ecsInstancesSecurityGroupName
        ++ "]: " ++ err.Error))
  | .ok none =>
      fail (Errorf ("EC2 Security Group [" ++ ecsInstancesSecurityGroupName
        ++ "] for ECS Container Instances was not found."))
  | .ok (some ecsInstancesSecurityGroup) =>
  match ← call (c.awsClient.EC2.AddInboundToSecurityGroup ecsInstancesSecurityGroup.GroupId
        SecurityGroupProtocolTCP 0 65535 securityGroupID)
      (Event.AddInboundToSecurityGroup ecsInstancesSecurityGroup.GroupId
        SecurityGroupProtocolTCP 0 65535 securityGroupID) with
  | .error err =>
      fail (Errorf ("Failed to add inbound rule to EC2 Security Group ["
        ++ ecsInstancesSecurityGroupName ++ "]: " ++ err.Error))
  | .ok _ => pure securityGroupID

/-- Source: `prepareLoadBalancerSecurityGroup`. -/
def prepareLoadBalancerSecurityGroup (c : Command σ) (vpcID : String) : M σ String := do
  let elbSecurityGroupName := c.conf.AWS.ELBSecurityGroupName
  let httpPort := c.conf.LoadBalancer.Port
  let httpsPort := c.conf.LoadBalancer.HTTPSPort
  match ← call (c.awsClient.EC2.RetrieveSecurityGroupByNameOrID elbSecurityGroupName)
      (Event.RetrieveSecurityGroupByNameOrID elbSecurityGroupName) with
  | .error err =>
      fail (Errorf ("Failed to retrieve EC2 Security Group [" ++ elbSecurityGroupName ++ "]: "
        ++ err.Error))
  | .ok none =>
      -- create a new one if specified security group does not exists
      createLoadBalancerSecurityGroup c vpcID httpPort httpsPort elbSecurityGroupName
  | .ok (some securityGroup) => pure securityGroup.GroupId

/-- The inner loop of the listener search: some default action targets the group. -/
def actionsTarget (targetGroupArn : String) : List Action → Bool
  | [] => false
  | a :: rest => if a.TargetGroupArn = targetGroupArn then true else actionsTarget targetGroupArn rest

/-- The outer loop of the listener search (`loop1`), leaving at the first match. -/
def listenerExists (targetGroupArn : String) : List Listener → Bool
  | [] => false
  | l :: rest =>
      if actionsTarget targetGroupArn l.DefaultActions then true
      else listenerExists targetGroupArn rest

/-- Source: `prepareELBLoadBalancer`. -/
def prepareELBLoadBalancer (c : Command σ) (ecsServiceRoleName ecsTaskContainerName : String)
    (ecsTaskContainerPort : Nat) : M σ ECSLoadBalancer := do
  let elbLoadBalancerName := c.conf.AWS.ELBLoadBalancerName
  let elbTargetGroupName := c.conf.AWS.ELBTargetGroupName
  let elbPort := c.conf.LoadBalancer.Port
  match ← call c.GetAWSRegionAndVPCID Event.GetAWSRegionAndVPCID with
  | .error err => fail err
  | .ok (_, vpcID) =>
  -- Check if specified ELB Load Balancer exists or not.
  match ← call (c.awsClient.ELB.RetrieveLoadBalancerByName elbLoadBalancerName)
      (Event.RetrieveLoadBalancerByName elbLoadBalancerName) with
  | .error err =>
      fail (Errorf ("Failed to retrieve ELB Load Balancer [" ++ elbLoadBalancerName ++ "]: "
        ++ err.Error))
  | .ok (some elbLoadBalancer) =>
      -- ELB Load Balancer exists
      match ← call (c.awsClient.ELB.RetrieveTargetGroupByName elbTargetGroupName)
          (Event.RetrieveTargetGroupByName elbTargetGroupName) with
      | .error err =>
          fail (Errorf ("Failed to retrieve ELB Target Group [" ++ elbTargetGroupName ++ "]: "
            ++ err.Error))
      | .ok (some elbTargetGroup) =>
          -- ELB Target Group also exists.
          match ← call (c.awsClient.ELB.RetrieveLoadBalancerListeners elbLoadBalancer.LoadBalancerArn)
              (Event.RetrieveLoadBalancerListeners elbLoadBalancer.LoadBalancerArn) with
          | .error err =>
              fail (Errorf ("Failed to retrieve listeners for ELB Load Balancer ["
                ++ elbLoadBalancerName ++ "]: " ++ err.Error))
          | .ok listeners =>
          if !listenerExists elbTargetGroup.TargetGroupArn listeners then
            fail (Errorf ("ELB Load Balancer [" ++ elbLoadBalancerName
              ++ "] does not have a listener to ELB Target Group [" ++ elbTargetGroupName ++ "]."))
          else
            pure { ELBTargetGroupARN := elbTargetGroup.TargetGroupArn
                   TaskContainerName := ecsTaskContainerName
                   TaskContainerPort := ecsTaskContainerPort }
      | .ok none =>
          -- ELB Target Group does not exist; Create a new one.
          let elbTargetGroupARN ← createELBTargetGroup c elbTargetGroupName
          -- create HTTP listener
          if elbPort > 0 then
            match ← call (c.awsClient.ELB.CreateListener elbLoadBalancer.LoadBalancerArn
                  elbTargetGroupARN elbPort "HTTP" "")
                (Event.CreateListener elbLoadBalancer.LoadBalancerArn
                  elbTargetGroupARN elbPort "HTTP" "") with
            | .error err => fail (Errorf ("Failed to create ELB Listener: " ++ err.Error))
            | .ok _ => pure ()
          -- create HTTPS listener
          let httpsPort := c.conf.LoadBalancer.HTTPSPort
          if httpsPort > 0 then
            let certificateARN := c.conf.AWS.ELBCertificateARN
            match ← call (c.awsClient.ELB.CreateListener elbLoadBalancer.LoadBalancerArn
                  elbTargetGroupARN httpsPort "HTTPS" certificateARN)
                (Event.CreateListener elbLoadBalancer.LoadBalancerArn
                  elbTargetGroupARN httpsPort "HTTPS" certificateARN) with
            | .error err => fail (Errorf ("Failed to create ELB Listener (HTTPS): " ++ err.Error))
            | .ok _ => pure ()
          pure { ELBTargetGroupARN := elbTargetGroupARN
                 TaskContainerName := ecsTaskContainerName
                 TaskContainerPort := ecsTaskContainerPort }
  | .ok none =>
      -- ELB Load Balancer does not exist.
      -- create ELB target group
      let elbTargetGroupARN ← createELBTargetGroup c elbTargetGroupName
      -- create security group for ELB (if needed)
      let elbSecurityGroupID ← prepareLoadBalancerSecurityGroup c vpcID
      -- create ELB load balancer
      let elbLoadBalancerARN ← createELBLoadBalancer c elbLoadBalancerName vpcID elbSecurityGroupID
      -- create HTTP listener
      if elbPort > 0 then
        match ← call (c.awsClient.ELB.CreateListener elbLoadBalancerARN elbTargetGroupARN
              elbPort "HTTP" "")
            (Event.CreateListener elbLoadBalancerARN elbTargetGroupARN elbPort "HTTP" "") with
        | .error err => fail (Errorf ("Failed to create ELB Listener: " ++ err.Error))
        | .ok _ => pure ()
      -- create HTTPS listener
      let httpsPort := c.conf.LoadBalancer.HTTPSPort
      if httpsPort > 0 then
        let certificateARN := c.conf.AWS.ELBCertificateARN
        match ← call (c.awsClient.ELB.CreateListener elbLoadBalancerARN elbTargetGroupARN
              httpsPort "HTTPS" certificateARN)
            (Event.CreateListener elbLoadBalancerARN elbTargetGroupARN
              httpsPort "HTTPS" certificateARN) with
        | .error err => fail (Errorf ("Failed to create ELB Listener (HTTPS): " ++ err.Error))
        | .ok _ => pure ()
      pure { ELBTargetGroupARN := elbTargetGroupARN
             TaskContainerName := ecsTaskContainerName
             TaskContainerPort := ecsTaskContainerPort }

/-- Source: `checkLoadBalancerHealthCheckChanges`. -/
def checkLoadBalancerHealthCheckChanges (c : Command σ) (elbTargetGroupARN : String) : M σ Unit := do
  -- retrieve ELB Target Group
  match ← call (c.awsClient.ELB.RetrieveTargetGroup elbTargetGroupARN)
      (Event.RetrieveTargetGroup elbTargetGroupARN) with
  | .error err =>
      fail (Errorf ("Failed to retrieve ELB Target Group [" ++ elbTargetGroupARN ++ "]: "
        ++ err.Error))
  | .ok none => fail (Errorf ("ELB Target Group [" ++ elbTargetGroupARN ++ "] was not found."))
  | .ok (some elbTargetGroup) =>
  -- compare health check configurations
  match c.core.ParseTimeExpression c.conf.LoadBalancer.HealthCheck.Interval with
  | .error _ => pure ()
  | .ok checkInterval =>
  match c.core.ParseTimeExpression c.conf.LoadBalancer.HealthCheck.Timeout with
  | .error _ => pure ()
  | .ok timeout =>
  let currentStatusMatcher :=
    match elbTargetGroup.Matcher with
    | some m => m.HttpCode
    | none => ""
  if elbTargetGroup.HealthCheckIntervalSeconds ≠ int64 checkInterval ∨
      elbTargetGroup.HealthCheckTimeoutSeconds ≠ int64 timeout ∨
      elbTargetGroup.HealthCheckPath ≠ c.conf.LoadBalancer.HealthCheck.Path ∨
      elbTargetGroup.HealthyThresholdCount ≠ (c.conf.LoadBalancer.HealthCheck.HealthyLimit : Int) ∨
      elbTargetGroup.UnhealthyThresholdCount ≠ (c.conf.LoadBalancer.HealthCheck.UnhealthyLimit : Int) ∨
      currentStatusMatcher ≠ c.conf.LoadBalancer.HealthCheck.Status then
    -- need to update Target Group health check settings
    let healthCheckParams := healthCheckParams c.conf checkInterval timeout
    match ← call (c.awsClient.ELB.UpdateTargetGroupHealthCheck elbTargetGroupARN healthCheckParams)
        (Event.UpdateTargetGroupHealthCheck elbTargetGroupARN healthCheckParams) with
    | .error err =>
        fail (Errorf ("Failed to update ELB Target Group [" ++ elbTargetGroupARN ++ "]: "
          ++ err.Error))
    | .ok _ => pure ()
  pure ()

end Program

/-! ## An account in which what was created is found again

The client packages (`aws/elb`, `aws/ec2`) and the AWS account behind them
are not part of the embedded file.  This section models them from the
external interfaces section of the spec, as far as the functions above use
them: every call answers from the resources present, a lookup that finds
nothing returns absent without error, and every successful create call adds
the resource, so that later lookups find it. -/

/-- Modelled from the spec: an inbound rule of a security group. -/
structure InboundRule where
  protocol : String
  portFrom : Nat
  portTo : Nat
  source : String
deriving DecidableEq, Repr

/-- Modelled from the spec: a security group of the account, with its inbound rules. -/
structure CloudSecurityGroup where
  GroupId : String
  GroupName : String
  VpcId : String
  inbound : List InboundRule
deriving DecidableEq, Repr

/-- Modelled from the spec: a target group of the account. -/
structure CloudTargetGroup where
  TargetGroupArn : String
  TargetGroupName : String
  port : Nat
  protocol : String
  vpcID : String
  healthCheck : HealthCheckParams
deriving DecidableEq, Repr

/-- Modelled from the spec: a load balancer of the account. -/
structure CloudLoadBalancer where
  LoadBalancerArn : String
  LoadBalancerName : String
  internetFacing : Bool
  securityGroupIDs : List String
  subnetIDs : List String
deriving DecidableEq, Repr

/-- Modelled from the spec: a listener of the account. -/
structure CloudListener where
  LoadBalancerArn : String
  port : Nat
  protocol : String
  certificateARN : String
  DefaultActions : List Action
deriving DecidableEq, Repr

/-- Modelled from the spec: the resources of the account. -/
structure Cloud where
  region : String
  vpcID : String
  subnets : List (String × String)
  loadBalancers : List CloudLoadBalancer
  targetGroups : List CloudTargetGroup
  listeners : List CloudListener
  securityGroups : List CloudSecurityGroup
  tags : List (String × Tags)
deriving DecidableEq, Repr

/-- Modelled from the spec: the description the client returns for a target
group of the account. -/
def CloudTargetGroup.describe (t : CloudTargetGroup) : TargetGroup :=
  { TargetGroupArn := t.TargetGroupArn
    TargetGroupName := t.TargetGroupName
    HealthCheckIntervalSeconds := (t.healthCheck.CheckIntervalSeconds : Int)
    HealthCheckTimeoutSeconds := (t.healthCheck.CheckTimeoutSeconds : Int)
    HealthCheckPath := t.healthCheck.CheckPath
    HealthyThresholdCount := (t.healthCheck.HealthyThresholdCount : Int)
    UnhealthyThresholdCount := (t.healthCheck.UnhealthyThresholdCount : Int)
    Matcher := some ⟨t.healthCheck.ExpectedHTTPStatusCodes⟩ }

/-- Modelled from the spec: the description the client returns for a load
balancer of the account. -/
def CloudLoadBalancer.describe (l : CloudLoadBalancer) : LoadBalancer :=
  { LoadBalancerArn := l.LoadBalancerArn, LoadBalancerName := l.LoadBalancerName }

/-- Modelled from the spec: the description the client returns for a security
group of the account. -/
def CloudSecurityGroup.describe (g : CloudSecurityGroup) : SecurityGroup :=
  { GroupId := g.GroupId, GroupName := g.GroupName }

/-- Modelled from the spec: the description the client returns for a listener
of the account. -/
def CloudListener.describe (l : CloudListener) : Listener :=
  { DefaultActions := l.DefaultActions }

namespace Cloud

/-- Modelled from the spec: region and VPC of the account. -/
def GetAWSRegionAndVPCID (s : Cloud) : Except GoError (String × String) × Cloud :=
  (.ok (s.region, s.vpcID), s)

/-- Modelled from the spec: look a load balancer up by name. -/
def RetrieveLoadBalancerByName (name : String) (s : Cloud) :
    Except GoError (Option LoadBalancer) × Cloud :=
  (.ok ((s.loadBalancers.find? (fun l => l.LoadBalancerName == name)).map
    CloudLoadBalancer.describe), s)

/-- Modelled from the spec: look a target group up by name. -/
def RetrieveTargetGroupByName (name : String) (s : Cloud) :
    Except GoError (Option TargetGroup) × Cloud :=
  (.ok ((s.targetGroups.find? (fun t => t.TargetGroupName == name)).map
    CloudTargetGroup.describe), s)

/-- Modelled from the spec: look a target group up by ARN. -/
def RetrieveTargetGroup (arn : String) (s : Cloud) :
    Except GoError (Option TargetGroup) × Cloud :=
  (.ok ((s.targetGroups.find? (fun t => t.TargetGroupArn == arn)).map
    CloudTargetGroup.describe), s)

/-- Modelled from the spec: the listeners of a load balancer. -/
def RetrieveLoadBalancerListeners (lbARN : String) (s : Cloud) :
    Except GoError (List Listener) × Cloud :=
  (.ok ((s.listeners.filter (fun l => l.LoadBalancerArn == lbARN)).map CloudListener.describe), s)

/-- Modelled from the spec: `CreateListener` of the load balancer client, which
is not under src/.  The listener made forwards to the target group.  The spec
only says that the call may fail; here, as on AWS, an HTTPS listener without a
certificate is refused and every other call succeeds. -/
def CreateListener (lbARN tgARN : String) (port : Nat) (protocol certificateARN : String)
    (s : Cloud) : Except GoError Unit × Cloud :=
  if protocol = "HTTPS" ∧ certificateARN = "" then
    (.error ⟨"ValidationError", "A certificate must be specified for HTTPS listeners"⟩, s)
  else
    (.ok (), { s with listeners := s.listeners ++
      [{ LoadBalancerArn := lbARN, port := port, protocol := protocol
         certificateARN := certificateARN, DefaultActions := [⟨tgARN⟩] }] })

/-- Modelled from the spec: `Create` of the target group client, which is not
under src/.  The spec leaves open what the call does when the name is taken;
here, as on AWS, a group of that name with the same settings is returned as it
is, and with other settings the call fails. -/
def CreateTargetGroup (name : String) (port : Nat) (protocol vpcID : String)
    (healthCheck : HealthCheckParams) (s : Cloud) : Except GoError TargetGroup × Cloud :=
  match s.targetGroups.find? (fun t => t.TargetGroupName == name) with
  | some t =>
      if t.port = port ∧ t.protocol = protocol ∧ t.vpcID = vpcID ∧ t.healthCheck = healthCheck then
        (.ok t.describe, s)
      else
        (.error ⟨"DuplicateTargetGroupName", "A target group with the same name exists"⟩, s)
  | none =>
      let t : CloudTargetGroup :=
        { TargetGroupArn := "arn:aws:elasticloadbalancing:targetgroup/" ++ name
          TargetGroupName := name, port := port, protocol := protocol, vpcID := vpcID
          healthCheck := healthCheck }
      (.ok t.describe, { s with targetGroups := s.targetGroups ++ [t] })

/-- Modelled from the spec: overwrite the health check settings of a target group. -/
def UpdateTargetGroupHealthCheck (arn : String) (healthCheck : HealthCheckParams) (s : Cloud) :
    Except GoError Unit × Cloud :=
  if s.targetGroups.any (fun t => t.TargetGroupArn == arn) then
    (.ok (), { s with targetGroups := s.targetGroups.map (fun t =>
      if t.TargetGroupArn = arn then { t with healthCheck := healthCheck } else t) })
  else
    (.error ⟨"TargetGroupNotFound", "The target group does not exist"⟩, s)

/-- Modelled from the spec: `Create` of the load balancer client, which is not
under src/; a second load balancer of the same name is refused. -/
def CreateLoadBalancer (name : String) (internetFacing : Bool)
    (securityGroupIDs subnetIDs : List String) (s : Cloud) : Except GoError LoadBalancer × Cloud :=
  if s.loadBalancers.any (fun l => l.LoadBalancerName == name) then
    (.error ⟨"DuplicateLoadBalancerName", "A load balancer with the same name exists"⟩, s)
  else
    let l : CloudLoadBalancer :=
      { LoadBalancerArn := "arn:aws:elasticloadbalancing:loadbalancer/" ++ name
        LoadBalancerName := name, internetFacing := internetFacing
        securityGroupIDs := securityGroupIDs, subnetIDs := subnetIDs }
    (.ok l.describe, { s with loadBalancers := s.loadBalancers ++ [l] })

/-- Modelled from the spec: tag a resource. -/
def CreateTags (resource : String) (tags : Tags) (s : Cloud) : Except GoError Unit × Cloud :=
  (.ok (), { s with tags := s.tags ++ [(resource, tags)] })

/-- Modelled from the spec: the subnets of a VPC. -/
def ListVPCSubnets (vpcID : String) (s : Cloud) : Except GoError (List String) × Cloud :=
  (.ok ((s.subnets.filter (fun p => p.1 == vpcID)).map (fun p => p.2)), s)

/-- Modelled from the spec: look a security group up by name or id. -/
def RetrieveSecurityGroupByNameOrID (nameOrID : String) (s : Cloud) :
    Except GoError (Option SecurityGroup) × Cloud :=
  (.ok ((s.securityGroups.find? (fun g => g.GroupName == nameOrID || g.GroupId == nameOrID)).map
    CloudSecurityGroup.describe), s)

/-- Modelled from the spec: look a security group up by name. -/
def RetrieveSecurityGroupByName (name : String) (s : Cloud) :
    Except GoError (Option SecurityGroup) × Cloud :=
  (.ok ((s.securityGroups.find? (fun g => g.GroupName == name)).map
    CloudSecurityGroup.describe), s)

/-- Modelled from the spec: `Create` of the security group client, which is not
under src/; a second group of the same name is refused. -/
def CreateSecurityGroup (name _description vpcID : String) (s : Cloud) :
    Except GoError String × Cloud :=
  if s.securityGroups.any (fun g => g.GroupName == name) then
    (.error ⟨"InvalidGroup.Duplicate", "The security group already exists"⟩, s)
  else
    (.ok ("sg-" ++ name), { s with securityGroups := s.securityGroups ++
      [{ GroupId := "sg-" ++ name, GroupName := name, VpcId := vpcID, inbound := [] }] })

/-- Modelled from the spec: `AddInbound` of the security group client, which is
not under src/; adding a rule the group has already changes nothing. -/
def AddInboundToSecurityGroup (groupID protocol : String) (portFrom portTo : Nat) (source : String)
    (s : Cloud) : Except GoError Unit × Cloud :=
  if s.securityGroups.any (fun g => g.GroupId == groupID) then
    (.ok (), { s with securityGroups := s.securityGroups.map (fun g =>
      if g.GroupId = groupID then
        if (⟨protocol, portFrom, portTo, source⟩ : InboundRule) ∈ g.inbound then g
        else { g with inbound := g.inbound ++ [⟨protocol, portFrom, portTo, source⟩] }
      else g) })
  else
    (.error ⟨"InvalidGroup.NotFound", "The security group does not exist"⟩, s)

/-- Modelled from the spec: the client of the account, standing for the
packages `aws/elb` and `aws/ec2`, which are not under src/. -/
def client : AWSClient Cloud :=
  { ELB :=
      { RetrieveLoadBalancerByName := RetrieveLoadBalancerByName
        RetrieveTargetGroupByName := RetrieveTargetGroupByName
        RetrieveTargetGroup := RetrieveTargetGroup
        RetrieveLoadBalancerListeners := RetrieveLoadBalancerListeners
        CreateListener := CreateListener
        CreateTargetGroup := CreateTargetGroup
        UpdateTargetGroupHealthCheck := UpdateTargetGroupHealthCheck
        CreateLoadBalancer := CreateLoadBalancer
        CreateTags := CreateTags }
    EC2 :=
      { ListVPCSubnets := ListVPCSubnets
        RetrieveSecurityGroupByNameOrID := RetrieveSecurityGroupByNameOrID
        RetrieveSecurityGroupByName := RetrieveSecurityGroupByName
        CreateSecurityGroup := CreateSecurityGroup
        CreateTags := CreateTags
        AddInboundToSecurityGroup := AddInboundToSecurityGroup } }

/-- Modelled from the spec: the deploy command working on the account. -/
def command (conf : Config) (core : Core) : Command Cloud :=
  { conf := conf, core := core, GetAWSRegionAndVPCID := GetAWSRegionAndVPCID, awsClient := client }

end Cloud

/-- A computation started in a client state satisfying `P` ends with a result
and a client state satisfying `Q`. -/
def Triple {σ α : Type} (P : σ → Prop) (m : M σ α) (Q : Except GoError α → σ → Prop) : Prop :=
  ∀ w : World σ, P w.cloud → Q (m.run w).1 (m.run w).2.cloud

/-- The load balancing resources of the account are `L`, `T` and `Ls`. -/
def Cloud.Balancing (L : List CloudLoadBalancer) (T : List CloudTargetGroup)
    (Ls : List CloudListener) (s : Cloud) : Prop :=
  s.loadBalancers = L ∧ s.targetGroups = T ∧ s.listeners = Ls

/-- Some listener of the account joins the load balancer to the target group. -/
def Cloud.Joined (lbARN tgARN : String) (s : Cloud) : Prop :=
  ∃ l ∈ s.listeners, l.LoadBalancerArn = lbARN ∧ (⟨tgARN⟩ : Action) ∈ l.DefaultActions

/-- The account holds what the binding `b` names: the load balancer and the
target group of the configuration are found by name, the target group has the
ARN of the binding, and a listener joins the two. -/
def Cloud.Settled (conf : Config) (b : ECSLoadBalancer) (s : Cloud) : Prop :=
  ∃ lb tg,
    s.loadBalancers.find? (fun l => l.LoadBalancerName == conf.AWS.ELBLoadBalancerName) = some lb ∧
    s.targetGroups.find? (fun t => t.TargetGroupName == conf.AWS.ELBTargetGroupName) = some tg ∧
    tg.TargetGroupArn = b.ELBTargetGroupARN ∧
    Cloud.Joined lb.LoadBalancerArn tg.TargetGroupArn s

/-! ## Concrete inputs -/

/-- Decimal value of a string of digits, most significant first. -/
def decimalValue : List Char → Nat → Option Nat
  | [], acc => some acc
  | ch :: rest, acc =>
      if 48 ≤ ch.toNat ∧ ch.toNat ≤ 57 then decimalValue rest (10 * acc + (ch.toNat - 48)) else none

/-- Modelled from the spec: the `core` helpers for the concrete runs.  As in
the end-to-end scenario of the spec (interval 30, timeout 5) a time expression
is a number of seconds in decimal digits; anything else is refused.  The tag
set and the derived name of the instances security group are fixed functions
of the name given. -/
def exampleCore : Core :=
  { ParseTimeExpression := fun s =>
      match s.toList with
      | [] => .error (Errorf ("Invalid time expression [" ++ s ++ "]"))
      | ch :: rest =>
          match decimalValue (ch :: rest) 0 with
          | some n => .ok n
          | none => .error (Errorf ("Invalid time expression [" ++ s ++ "]"))
    DefaultTagsForAWSResources := fun name => [("Name", name)]
    DefaultInstanceSecurityGroupName := fun cluster => cluster ++ "-instances" }

/-- The desired state of the end-to-end scenario: HTTP on port 80, no HTTPS. -/
def exampleConfig : Config :=
  { ClusterName := "cluster1"
    AWS :=
      { ELBLoadBalancerName := "svc-lb", ELBTargetGroupName := "svc-tg"
        ELBSecurityGroupName := "svc-sg", ELBCertificateARN := "arn:aws:acm:cert/1" }
    LoadBalancer :=
      { Port := 80, HTTPSPort := 0
        HealthCheck :=
          { Interval := "30", Timeout := "5", Path := "/health", Status := "200"
            HealthyLimit := 2, UnhealthyLimit := 3 } } }

/-- An account with a VPC of two subnets and the security group of the
cluster instances, and no load balancing resource yet. -/
def exampleCloud : Cloud :=
  { region := "us-west-2", vpcID := "vpc-1"
    subnets := [("vpc-1", "subnet-a"), ("vpc-1", "subnet-b")]
    loadBalancers := [], targetGroups := [], listeners := []
    securityGroups :=
      [{ GroupId := "sg-0001", GroupName := "cluster1-instances", VpcId := "vpc-1", inbound := [] }]
    tags := [] }

/-! ## The runs of each function, as calls and result

For each embedded function, the possible sequences of calls it makes together
with the result it returns.  The theorems `*_runs` below show that every run
has one of these forms. -/

section Runs

variable {σ : Type}

/-- The tagging calls of a new security group under the retry wrapper:
attempts that failed, then the last attempt. -/
def tagAttempts (id : String) (tags : Tags) (failed : List GoError) (last : Except GoError Unit) :
    List Event :=
  failed.map (fun e => Event.EC2CreateTags id tags (.error e)) ++ [Event.EC2CreateTags id tags last]

/-- The `CreateListener` call for HTTP, present when the HTTP port is set. -/
def httpListenerCall (c : Command σ) (lbARN tgARN : String) (r : Except GoError Unit) : List Event :=
  if c.conf.LoadBalancer.Port > 0 then
    [Event.CreateListener lbARN tgARN c.conf.LoadBalancer.Port "HTTP" "" r]
  else []

/-- The `CreateListener` call for HTTPS, present when the HTTPS port is set. -/
def httpsListenerCall (c : Command σ) (lbARN tgARN : String) (r : Except GoError Unit) : List Event :=
  if c.conf.LoadBalancer.HTTPSPort > 0 then
    [Event.CreateListener lbARN tgARN c.conf.LoadBalancer.HTTPSPort "HTTPS"
      c.conf.AWS.ELBCertificateARN r]
  else []

/-- The inbound rule call for a port of a new security group, present when the port is set. -/
def inboundCall (groupID : String) (port : Nat) (r : Except GoError Unit) : List Event :=
  if port > 0 then
    [Event.AddInboundToSecurityGroup groupID SecurityGroupProtocolTCP port port "0.0.0.0/0" r]
  else []

/-- What `prepareELBLoadBalancer` has looked up before it makes the call `e`,
`pre` being the calls made before `e`: a security group is created after the
lookup of its name returned absent, a load balancer is created after the
lookup of its name returned absent, and a target group is created after the
lookup of its name returned absent or, on the path that makes no such lookup,
after the lookup of the load balancer returned absent.  Nothing is asked of
the other calls. -/
def LookedUpBefore (c : Command σ) (pre : List Event) : Event → Prop
  | .CreateSecurityGroup name _ _ _ =>
      Event.RetrieveSecurityGroupByNameOrID name (.ok none) ∈ pre
  | .CreateLoadBalancer name _ _ _ _ =>
      Event.RetrieveLoadBalancerByName name (.ok none) ∈ pre
  | .CreateTargetGroup name _ _ _ _ _ =>
      Event.RetrieveTargetGroupByName name (.ok none) ∈ pre ∨
        Event.RetrieveLoadBalancerByName c.conf.AWS.ELBLoadBalancerName (.ok none) ∈ pre
  | _ => True

/-- Every call of `tr` satisfies `ok`, given the calls `seen` made before `tr`
and those of `tr` before it. -/
def PrecededAll (ok : List Event → Event → Prop) (seen tr : List Event) : Prop :=
  ∀ pre e post, tr = pre ++ e :: post → ok (seen ++ pre) e

/-- Every run of `m` extends the trace by calls `evs` such that `P result evs`. -/
def Runs {α : Type} (m : M σ α) (P : Except GoError α → List Event → Prop) : Prop :=
  ∀ w : World σ, ∃ evs, (m.run w).2.trace = w.trace ++ evs ∧ P (m.run w).1 evs

/-- Runs of `createELBTargetGroup`. -/
inductive CreateTargetGroupRun (c : Command σ) (name : String) :
    Except GoError String → List Event → Prop
  | vpcError (e : GoError) :
      CreateTargetGroupRun c name (.error e) [.GetAWSRegionAndVPCID (.error e)]
  | intervalRefused (region vpc : String) (e : GoError)
      (hi : c.core.ParseTimeExpression c.conf.LoadBalancer.HealthCheck.Interval = .error e) :
      CreateTargetGroupRun c name (.ok "") [.GetAWSRegionAndVPCID (.ok (region, vpc))]
  | timeoutRefused (region vpc : String) (i : Nat) (e : GoError)
      (hi : c.core.ParseTimeExpression c.conf.LoadBalancer.HealthCheck.Interval = .ok i)
      (ht : c.core.ParseTimeExpression c.conf.LoadBalancer.HealthCheck.Timeout = .error e) :
      CreateTargetGroupRun c name (.ok "") [.GetAWSRegionAndVPCID (.ok (region, vpc))]
  | createError (region vpc : String) (i t : Nat) (e msg : GoError)
      (hi : c.core.ParseTimeExpression c.conf.LoadBalancer.HealthCheck.Interval = .ok i)
      (ht : c.core.ParseTimeExpression c.conf.LoadBalancer.HealthCheck.Timeout = .ok t) :
      CreateTargetGroupRun c name (.error msg)
        [.GetAWSRegionAndVPCID (.ok (region, vpc)),
         .CreateTargetGroup name 80 "HTTP" vpc (healthCheckParams c.conf i t) (.error e)]
  | tagError (region vpc : String) (i t : Nat) (tg : TargetGroup) (e msg : GoError)
      (hi : c.core.ParseTimeExpression c.conf.LoadBalancer.HealthCheck.Interval = .ok i)
      (ht : c.core.ParseTimeExpression c.conf.LoadBalancer.HealthCheck.Timeout = .ok t) :
      CreateTargetGroupRun c name (.error msg)
        [.GetAWSRegionAndVPCID (.ok (region, vpc)),
         .CreateTargetGroup name 80 "HTTP" vpc (healthCheckParams c.conf i t) (.ok tg),
         .ELBCreateTags tg.TargetGroupArn (c.core.DefaultTagsForAWSResources name) (.error e)]
  | created (region vpc : String) (i t : Nat) (tg : TargetGroup)
      (hi : c.core.ParseTimeExpression c.conf.LoadBalancer.HealthCheck.Interval = .ok i)
      (ht : c.core.ParseTimeExpression c.conf.LoadBalancer.HealthCheck.Timeout = .ok t) :
      CreateTargetGroupRun c name (.ok tg.TargetGroupArn)
        [.GetAWSRegionAndVPCID (.ok (region, vpc)),
         .CreateTargetGroup name 80 "HTTP" vpc (healthCheckParams c.conf i t) (.ok tg),
         .ELBCreateTags tg.TargetGroupArn (c.core.DefaultTagsForAWSResources name) (.ok ())]

/-- Runs of `createELBLoadBalancer`. -/
inductive CreateLoadBalancerRun (c : Command σ) (name vpcID securityGroupID : String) :
    Except GoError String → List Event → Prop
  | subnetsError (e msg : GoError) :
      CreateLoadBalancerRun c name vpcID securityGroupID (.error msg)
        [.ListVPCSubnets vpcID (.error e)]
  | createError (subnetIDs : List String) (e msg : GoError) :
      CreateLoadBalancerRun c name vpcID securityGroupID (.error msg)
        [.ListVPCSubnets vpcID (.ok subnetIDs),
         .CreateLoadBalancer name true [securityGroupID] subnetIDs (.error e)]
  | tagError (subnetIDs : List String) (lb : LoadBalancer) (e msg : GoError) :
      CreateLoadBalancerRun c name vpcID securityGroupID (.error msg)
        [.ListVPCSubnets vpcID (.ok subnetIDs),
         .CreateLoadBalancer name true [securityGroupID] subnetIDs (.ok lb),
         .ELBCreateTags lb.LoadBalancerArn (c.core.DefaultTagsForAWSResources name) (.error e)]
  | created (subnetIDs : List String) (lb : LoadBalancer) :
      CreateLoadBalancerRun c name vpcID securityGroupID (.ok lb.LoadBalancerArn)
        [.ListVPCSubnets vpcID (.ok subnetIDs),
         .CreateLoadBalancer name true [securityGroupID] subnetIDs (.ok lb),
         .ELBCreateTags lb.LoadBalancerArn (c.core.DefaultTagsForAWSResources name) (.ok ())]

/-- Runs of `createLoadBalancerSecurityGroup`. -/
inductive CreateSecurityGroupRun (c : Command σ) (vpcID : String) (httpPort httpsPort : Nat)
    (name : String) : Except GoError String → List Event → Prop
  | createError (e msg : GoError) :
      CreateSecurityGroupRun c vpcID httpPort httpsPort name (.error msg)
        [.CreateSecurityGroup name name vpcID (.error e)]
  | tagError (id : String) (failed : List GoError) (e msg : GoError) :
      CreateSecurityGroupRun c vpcID httpPort httpsPort name (.error msg)
        (.CreateSecurityGroup name name vpcID (.ok id) ::
          tagAttempts id (c.core.DefaultTagsForAWSResources name) failed (.error e))
  | httpRuleError (id : String) (failed : List GoError) (e msg : GoError) (hp : httpPort > 0) :
      CreateSecurityGroupRun c vpcID httpPort httpsPort name (.error msg)
        (.CreateSecurityGroup name name vpcID (.ok id) ::
          (tagAttempts id (c.core.DefaultTagsForAWSResources name) failed (.ok ()) ++
          [.AddInboundToSecurityGroup id SecurityGroupProtocolTCP httpPort httpPort "0.0.0.0/0"
            (.error e)]))
  | httpsRuleError (id : String) (failed : List GoError) (e msg : GoError) (hp : httpsPort > 0) :
      CreateSecurityGroupRun c vpcID httpPort httpsPort name (.error msg)
        (.CreateSecurityGroup name name vpcID (.ok id) ::
          (tagAttempts id (c.core.DefaultTagsForAWSResources name) failed (.ok ()) ++
          (inboundCall id httpPort (.ok ()) ++
          [.AddInboundToSecurityGroup id SecurityGroupProtocolTCP httpsPort httpsPort "0.0.0.0/0"
            (.error e)])))
  | instancesLookupError (id : String) (failed : List GoError) (e msg : GoError) :
      CreateSecurityGroupRun c vpcID httpPort httpsPort name (.error msg)
        (.CreateSecurityGroup name name vpcID (.ok id) ::
          (tagAttempts id (c.core.DefaultTagsForAWSResources name) failed (.ok ()) ++
          (inboundCall id httpPort (.ok ()) ++ (inboundCall id httpsPort (.ok ()) ++
          [.RetrieveSecurityGroupByName (c.core.DefaultInstanceSecurityGroupName c.conf.ClusterName)
            (.error e)]))))
  | instancesMissing (id : String) (failed : List GoError) (msg : GoError) :
      CreateSecurityGroupRun c vpcID httpPort httpsPort name (.error msg)
        (.CreateSecurityGroup name name vpcID (.ok id) ::
          (tagAttempts id (c.core.DefaultTagsForAWSResources name) failed (.ok ()) ++
          (inboundCall id httpPort (.ok ()) ++ (inboundCall id httpsPort (.ok ()) ++
          [.RetrieveSecurityGroupByName (c.core.DefaultInstanceSecurityGroupName c.conf.ClusterName)
            (.ok none)]))))
  | instancesRuleError (id : String) (failed : List GoError) (g : SecurityGroup) (e msg : GoError) :
      CreateSecurityGroupRun c vpcID httpPort httpsPort name (.error msg)
        (.CreateSecurityGroup name name vpcID (.ok id) ::
          (tagAttempts id (c.core.DefaultTagsForAWSResources name) failed (.ok ()) ++
          (inboundCall id httpPort (.ok ()) ++ (inboundCall id httpsPort (.ok ()) ++
          [.RetrieveSecurityGroupByName (c.core.DefaultInstanceSecurityGroupName c.conf.ClusterName)
            (.ok (some g)),
           .AddInboundToSecurityGroup g.GroupId SecurityGroupProtocolTCP 0 65535 id (.error e)]))))
  | created (id : String) (failed : List GoError) (g : SecurityGroup) :
      CreateSecurityGroupRun c vpcID httpPort httpsPort name (.ok id)
        (.CreateSecurityGroup name name vpcID (.ok id) ::
          (tagAttempts id (c.core.DefaultTagsForAWSResources name) failed (.ok ()) ++
          (inboundCall id httpPort (.ok ()) ++ (inboundCall id httpsPort (.ok ()) ++
          [.RetrieveSecurityGroupByName (c.core.DefaultInstanceSecurityGroupName c.conf.ClusterName)
            (.ok (some g)),
           .AddInboundToSecurityGroup g.GroupId SecurityGroupProtocolTCP 0 65535 id (.ok ())]))))

/-- Runs of `prepareLoadBalancerSecurityGroup`. -/
inductive PrepareSecurityGroupRun (c : Command σ) (vpcID : String) :
    Except GoError String → List Event → Prop
  | lookupError (e msg : GoError) :
      PrepareSecurityGroupRun c vpcID (.error msg)
        [.RetrieveSecurityGroupByNameOrID c.conf.AWS.ELBSecurityGroupName (.error e)]
  | found (g : SecurityGroup) :
      PrepareSecurityGroupRun c vpcID (.ok g.GroupId)
        [.RetrieveSecurityGroupByNameOrID c.conf.AWS.ELBSecurityGroupName (.ok (some g))]
  | absent (r : Except GoError String) (evs : List Event)
      (h : CreateSecurityGroupRun c vpcID c.conf.LoadBalancer.Port c.conf.LoadBalancer.HTTPSPort
        c.conf.AWS.ELBSecurityGroupName r evs) :
      PrepareSecurityGroupRun c vpcID r
        (.RetrieveSecurityGroupByNameOrID c.conf.AWS.ELBSecurityGroupName (.ok none) :: evs)

/-- Runs of the two listener steps of `prepareELBLoadBalancer`. -/
inductive ListenersRun (c : Command σ) (lbARN tgARN : String) :
    Except GoError Unit → List Event → Prop
  | httpError (e msg : GoError) (hp : c.conf.LoadBalancer.Port > 0) :
      ListenersRun c lbARN tgARN (.error msg)
        [.CreateListener lbARN tgARN c.conf.LoadBalancer.Port "HTTP" "" (.error e)]
  | httpsError (e msg : GoError) (hp : c.conf.LoadBalancer.HTTPSPort > 0) :
      ListenersRun c lbARN tgARN (.error msg)
        (httpListenerCall c lbARN tgARN (.ok ()) ++
          [.CreateListener lbARN tgARN c.conf.LoadBalancer.HTTPSPort "HTTPS"
            c.conf.AWS.ELBCertificateARN (.error e)])
  | done :
      ListenersRun c lbARN tgARN (.ok ())
        (httpListenerCall c lbARN tgARN (.ok ()) ++ httpsListenerCall c lbARN tgARN (.ok ()))

/-- The error of the conflict case of `prepareELBLoadBalancer`. -/
def conflictError (c : Command σ) : GoError :=
  Errorf ("ELB Load Balancer [" ++ c.conf.AWS.ELBLoadBalancerName
    ++ "] does not have a listener to ELB Target Group [" ++ c.conf.AWS.ELBTargetGroupName ++ "].")

/-- Runs of `prepareELBLoadBalancer` after the load balancer `lb` was found. -/
inductive AttachRun (c : Command σ) (lb : LoadBalancer) (containerName : String)
    (containerPort : Nat) : Except GoError ECSLoadBalancer → List Event → Prop
  | targetGroupLookupError (e msg : GoError) :
      AttachRun c lb containerName containerPort (.error msg)
        [.RetrieveTargetGroupByName c.conf.AWS.ELBTargetGroupName (.error e)]
  | listenersError (tg : TargetGroup) (e msg : GoError) :
      AttachRun c lb containerName containerPort (.error msg)
        [.RetrieveTargetGroupByName c.conf.AWS.ELBTargetGroupName (.ok (some tg)),
         .RetrieveLoadBalancerListeners lb.LoadBalancerArn (.error e)]
  | conflict (tg : TargetGroup) (ls : List Listener)
      (h : listenerExists tg.TargetGroupArn ls = false) :
      AttachRun c lb containerName containerPort (.error (conflictError c))
        [.RetrieveTargetGroupByName c.conf.AWS.ELBTargetGroupName (.ok (some tg)),
         .RetrieveLoadBalancerListeners lb.LoadBalancerArn (.ok ls)]
  | bound (tg : TargetGroup) (ls : List Listener)
      (h : listenerExists tg.TargetGroupArn ls = true) :
      AttachRun c lb containerName containerPort
        (.ok ⟨tg.TargetGroupArn, containerName, containerPort⟩)
        [.RetrieveTargetGroupByName c.conf.AWS.ELBTargetGroupName (.ok (some tg)),
         .RetrieveLoadBalancerListeners lb.LoadBalancerArn (.ok ls)]
  | targetGroupFailed (e : GoError) (evs : List Event)
      (h : CreateTargetGroupRun c c.conf.AWS.ELBTargetGroupName (.error e) evs) :
      AttachRun c lb containerName containerPort (.error e)
        (.RetrieveTargetGroupByName c.conf.AWS.ELBTargetGroupName (.ok none) :: evs)
  | listeners (arn : String) (evs1 evs2 : List Event) (r : Except GoError Unit)
      (h1 : CreateTargetGroupRun c c.conf.AWS.ELBTargetGroupName (.ok arn) evs1)
      (h2 : ListenersRun c lb.LoadBalancerArn arn r evs2) :
      AttachRun c lb containerName containerPort
        (r.map (fun _ => ⟨arn, containerName, containerPort⟩))
        (.RetrieveTargetGroupByName c.conf.AWS.ELBTargetGroupName (.ok none) :: (evs1 ++ evs2))

/-- Runs of `prepareELBLoadBalancer` after the load balancer was found absent. -/
inductive BootRun (c : Command σ) (vpc : String) (containerName : String)
    (containerPort : Nat) : Except GoError ECSLoadBalancer → List Event → Prop
  | targetGroupFailed (e : GoError) (evs : List Event)
      (h : CreateTargetGroupRun c c.conf.AWS.ELBTargetGroupName (.error e) evs) :
      BootRun c vpc containerName containerPort (.error e) evs
  | securityGroupFailed (arn : String) (e : GoError) (evs1 evs2 : List Event)
      (h1 : CreateTargetGroupRun c c.conf.AWS.ELBTargetGroupName (.ok arn) evs1)
      (h2 : PrepareSecurityGroupRun c vpc (.error e) evs2) :
      BootRun c vpc containerName containerPort (.error e) (evs1 ++ evs2)
  | loadBalancerFailed (arn sgID : String) (e : GoError) (evs1 evs2 evs3 : List Event)
      (h1 : CreateTargetGroupRun c c.conf.AWS.ELBTargetGroupName (.ok arn) evs1)
      (h2 : PrepareSecurityGroupRun c vpc (.ok sgID) evs2)
      (h3 : CreateLoadBalancerRun c c.conf.AWS.ELBLoadBalancerName vpc sgID (.error e) evs3) :
      BootRun c vpc containerName containerPort (.error e) (evs1 ++ (evs2 ++ evs3))
  | listeners (arn sgID lbARN : String) (evs1 evs2 evs3 evs4 : List Event)
      (r : Except GoError Unit)
      (h1 : CreateTargetGroupRun c c.conf.AWS.ELBTargetGroupName (.ok arn) evs1)
      (h2 : PrepareSecurityGroupRun c vpc (.ok sgID) evs2)
      (h3 : CreateLoadBalancerRun c c.conf.AWS.ELBLoadBalancerName vpc sgID (.ok lbARN) evs3)
      (h4 : ListenersRun c lbARN arn r evs4) :
      BootRun c vpc containerName containerPort
        (r.map (fun _ => ⟨arn, containerName, containerPort⟩))
        (evs1 ++ (evs2 ++ (evs3 ++ evs4)))

/-- Runs of `prepareELBLoadBalancer`. -/
inductive PrepareRun (c : Command σ) (containerName : String) (containerPort : Nat) :
    Except GoError ECSLoadBalancer → List Event → Prop
  | vpcError (e : GoError) :
      PrepareRun c containerName containerPort (.error e) [.GetAWSRegionAndVPCID (.error e)]
  | lookupError (region vpc : String) (e msg : GoError) :
      PrepareRun c containerName containerPort (.error msg)
        [.GetAWSRegionAndVPCID (.ok (region, vpc)),
         .RetrieveLoadBalancerByName c.conf.AWS.ELBLoadBalancerName (.error e)]
  | found (region vpc : String) (lb : LoadBalancer) (res : Except GoError ECSLoadBalancer)
      (evs : List Event) (h : AttachRun c lb containerName containerPort res evs) :
      PrepareRun c containerName containerPort res
        (.GetAWSRegionAndVPCID (.ok (region, vpc)) ::
          .RetrieveLoadBalancerByName c.conf.AWS.ELBLoadBalancerName (.ok (some lb)) :: evs)
  | absent (region vpc : String) (res : Except GoError ECSLoadBalancer) (evs : List Event)
      (h : BootRun c vpc containerName containerPort res evs) :
      PrepareRun c containerName containerPort res
        (.GetAWSRegionAndVPCID (.ok (region, vpc)) ::
          .RetrieveLoadBalancerByName c.conf.AWS.ELBLoadBalancerName (.ok none) :: evs)

end Runs

/-- The load balancer of the scenario, as the client describes it. -/
def exampleLoadBalancer : LoadBalancer :=
  { LoadBalancerArn := "arn:aws:elasticloadbalancing:loadbalancer/svc-lb"
    LoadBalancerName := "svc-lb" }

/-- The target group of the scenario, as the client describes it. -/
def exampleTargetGroup : TargetGroup :=
  { TargetGroupArn := "arn:aws:elasticloadbalancing:targetgroup/svc-tg"
    TargetGroupName := "svc-tg"
    HealthCheckIntervalSeconds := 30
    HealthCheckTimeoutSeconds := 5
    HealthCheckPath := "/health"
    HealthyThresholdCount := 2
    UnhealthyThresholdCount := 3
    Matcher := some ⟨"200"⟩ }

/-- An account in which the load balancer and the target group of the
scenario exist and no listener joins them. -/
def unboundCloud : Cloud :=
  { exampleCloud with
    loadBalancers :=
      [{ LoadBalancerArn := "arn:aws:elasticloadbalancing:loadbalancer/svc-lb"
         LoadBalancerName := "svc-lb", internetFacing := true
         securityGroupIDs := ["sg-svc-sg"], subnetIDs := ["subnet-a", "subnet-b"] }]
    targetGroups :=
      [{ TargetGroupArn := "arn:aws:elasticloadbalancing:targetgroup/svc-tg"
         TargetGroupName := "svc-tg", port := 80, protocol := "HTTP", vpcID := "vpc-1"
         healthCheck := healthCheckParams exampleConfig 30 5 }] }

/-- The listener of the scenario, as the client describes it. -/
def exampleListener : Listener :=
  { DefaultActions := [⟨"arn:aws:elasticloadbalancing:targetgroup/svc-tg"⟩] }

/-- The account of `unboundCloud` with an HTTP listener from the load
balancer to the target group. -/
def boundCloud : Cloud :=
  { unboundCloud with
    listeners :=
      [{ LoadBalancerArn := "arn:aws:elasticloadbalancing:loadbalancer/svc-lb"
         port := 80, protocol := "HTTP", certificateARN := ""
         DefaultActions := [⟨"arn:aws:elasticloadbalancing:targetgroup/svc-tg"⟩] }] }

/-- The security group of the load balancer, once created. -/
def exampleSecurityGroup : SecurityGroup := { GroupId := "sg-svc-sg", GroupName := "svc-sg" }

/-- An account holding the security group of the load balancer already. -/
def securedCloud : Cloud :=
  { exampleCloud with
    securityGroups := exampleCloud.securityGroups ++
      [{ GroupId := "sg-svc-sg", GroupName := "svc-sg", VpcId := "vpc-1", inbound := [] }] }

/-- The scenario with a health check interval that is no time expression. -/
def badIntervalConfig : Config :=
  { exampleConfig with
    LoadBalancer :=
      { exampleConfig.LoadBalancer with
        HealthCheck := { exampleConfig.LoadBalancer.HealthCheck with Interval := "bogus" } } }

/-- The scenario with a health check timeout that is no time expression. -/
def badTimeoutConfig : Config :=
  { exampleConfig with
    LoadBalancer :=
      { exampleConfig.LoadBalancer with
        HealthCheck := { exampleConfig.LoadBalancer.HealthCheck with Timeout := "bogus" } } }

/-- An account whose target group of the scenario probes every 10 seconds,
where the scenario asks for 30. -/
def driftedCloud : Cloud :=
  { exampleCloud with
    targetGroups :=
      [{ TargetGroupArn := "arn:aws:elasticloadbalancing:targetgroup/svc-tg"
         TargetGroupName := "svc-tg", port := 80, protocol := "HTTP", vpcID := "vpc-1"
         healthCheck := { healthCheckParams exampleConfig 30 5 with CheckIntervalSeconds := 10 } }] }

/-- The scenario without any port: neither HTTP nor HTTPS is configured. -/
def noPortConfig : Config :=
  { exampleConfig with LoadBalancer := { exampleConfig.LoadBalancer with Port := 0 } }

/-- The scenario with HTTPS on port 443 only, and no certificate configured. -/
def httpsOnlyConfig : Config :=
  { exampleConfig with
    AWS := { exampleConfig.AWS with ELBCertificateARN := "" }
    LoadBalancer := { exampleConfig.LoadBalancer with Port := 0, HTTPSPort := 443 } }

/-- An account with a VPC and no security group of cluster instances: the
cluster has not been created yet. -/
def bareCloud : Cloud := { exampleCloud with securityGroups := [] }

/-- The account a first run of the scenario on `bareCloud` leaves behind,
after the cluster, and with it the security group of its instances, has been
created. -/
def resumedCloud : Cloud :=
  { (exec (prepareELBLoadBalancer (Cloud.command exampleConfig exampleCore) "role" "web" 8080)
      bareCloud).2.cloud with
    securityGroups :=
      (exec (prepareELBLoadBalancer (Cloud.command exampleConfig exampleCore) "role" "web" 8080)
        bareCloud).2.cloud.securityGroups ++
      [{ GroupId := "sg-0001", GroupName := "cluster1-instances", VpcId := "vpc-1", inbound := [] }] }

/-! ## The answers of the client to the calls of a stage

What it means that the client, started in a state `s`, answers every call of
one stage of `prepareELBLoadBalancer` with success, and the state `s'` it is
left in.  These are statements about the client alone: the calls are those
the stage makes, with the arguments it passes. -/

section Answers

variable {σ : Type}

/-- The client answers the calls of `createELBTargetGroup` for the configured
target group with success: from `s` it returns a region and the VPC `vpcID`,
creates the target group `tg` on port 80 with the health check of the
configuration, and tags it, which leaves it in `s'`. -/
def TargetGroupCreated (c : Command σ) (checkInterval timeout : Nat) (s s' : σ) (vpcID : String)
    (tg : TargetGroup) : Prop :=
  ∃ region s1 s2,
    c.GetAWSRegionAndVPCID s = (.ok (region, vpcID), s1) ∧
    c.awsClient.ELB.CreateTargetGroup c.conf.AWS.ELBTargetGroupName 80 "HTTP" vpcID
      (healthCheckParams c.conf checkInterval timeout) s1 = (.ok tg, s2) ∧
    c.awsClient.ELB.CreateTags tg.TargetGroupArn
      (c.core.DefaultTagsForAWSResources c.conf.AWS.ELBTargetGroupName) s2 = (.ok (), s')

/-- The client accepts the inbound rule for `port` from anywhere on the group
`securityGroupID`, when the port is set; nothing is called when it is not. -/
def InboundAdded (c : Command σ) (securityGroupID : String) (port : Nat) (s s' : σ) : Prop :=
  if port > 0 then
    c.awsClient.EC2.AddInboundToSecurityGroup securityGroupID SecurityGroupProtocolTCP port port
      "0.0.0.0/0" s = (.ok (), s')
  else s' = s

/-- The client answers the calls of `prepareLoadBalancerSecurityGroup` on the
path that creates the group with success: from `s` the lookup of the
configured name returns absent, the group is created in `vpcID` with the id
`securityGroupID`, tagged at the first attempt, given the inbound rules of the
ports that are set, and permitted on all ports on the security group
`instances` of the cluster instances, which is found; this leaves the client
in `s'`. -/
def SecurityGroupCreated (c : Command σ) (vpcID : String) (s s' : σ) (securityGroupID : String)
    (instances : SecurityGroup) : Prop :=
  ∃ s1 s2 s3 s4 s5 s6,
    c.awsClient.EC2.RetrieveSecurityGroupByNameOrID c.conf.AWS.ELBSecurityGroupName s =
      (.ok none, s1) ∧
    c.awsClient.EC2.CreateSecurityGroup c.conf.AWS.ELBSecurityGroupName
      c.conf.AWS.ELBSecurityGroupName vpcID s1 = (.ok securityGroupID, s2) ∧
    c.awsClient.EC2.CreateTags securityGroupID
      (c.core.DefaultTagsForAWSResources c.conf.AWS.ELBSecurityGroupName) s2 = (.ok (), s3) ∧
    InboundAdded c securityGroupID c.conf.LoadBalancer.Port s3 s4 ∧
    InboundAdded c securityGroupID c.conf.LoadBalancer.HTTPSPort s4 s5 ∧
    c.awsClient.EC2.RetrieveSecurityGroupByName
      (c.core.DefaultInstanceSecurityGroupName c.conf.ClusterName) s5 =
      (.ok (some instances), s6) ∧
    c.awsClient.EC2.AddInboundToSecurityGroup instances.GroupId SecurityGroupProtocolTCP 0 65535
      securityGroupID s6 = (.ok (), s')

/-- The client answers the calls of `prepareLoadBalancerSecurityGroup` with
success and the group has the id `securityGroupID`: either the lookup finds
the group, or the group is created as in `SecurityGroupCreated`. -/
def SecurityGroupEnsured (c : Command σ) (vpcID : String) (s s' : σ) (securityGroupID : String) :
    Prop :=
  (∃ g, c.awsClient.EC2.RetrieveSecurityGroupByNameOrID c.conf.AWS.ELBSecurityGroupName s =
      (.ok (some g), s') ∧ g.GroupId = securityGroupID) ∨
    ∃ instances, SecurityGroupCreated c vpcID s s' securityGroupID instances

/-- The client answers the calls of `createELBLoadBalancer` for the configured
load balancer with success: from `s` it lists the subnets `subnetIDs` of the
VPC, creates the internet-facing load balancer `lb` with the one security
group and those subnets, and tags it, which leaves it in `s'`. -/
def LoadBalancerCreated (c : Command σ) (vpcID securityGroupID : String) (s s' : σ)
    (subnetIDs : List String) (lb : LoadBalancer) : Prop :=
  ∃ s1 s2,
    c.awsClient.EC2.ListVPCSubnets vpcID s = (.ok subnetIDs, s1) ∧
    c.awsClient.ELB.CreateLoadBalancer c.conf.AWS.ELBLoadBalancerName true [securityGroupID]
      subnetIDs s1 = (.ok lb, s2) ∧
    c.awsClient.ELB.CreateTags lb.LoadBalancerArn
      (c.core.DefaultTagsForAWSResources c.conf.AWS.ELBLoadBalancerName) s2 = (.ok (), s')

/-- The client accepts the listeners the configuration asks for, from the
load balancer to the target group: the HTTP one when the HTTP port is set,
then the HTTPS one with the configured certificate when the HTTPS port is
set.  Nothing is called for a port that is not set. -/
def ListenersCreated (c : Command σ) (lbARN tgARN : String) (s s' : σ) : Prop :=
  ∃ s1,
    (if c.conf.LoadBalancer.Port > 0 then
      c.awsClient.ELB.CreateListener lbARN tgARN c.conf.LoadBalancer.Port "HTTP" "" s =
        (.ok (), s1)
     else s1 = s) ∧
    (if c.conf.LoadBalancer.HTTPSPort > 0 then
      c.awsClient.ELB.CreateListener lbARN tgARN c.conf.LoadBalancer.HTTPSPort "HTTPS"
        c.conf.AWS.ELBCertificateARN s1 = (.ok (), s')
     else s' = s1)

end Answers

/-! ## Concrete accounts along a run -/

/-- The scenario with HTTPS on port 443 besides HTTP on port 80. -/
def bothPortsConfig : Config :=
  { exampleConfig with LoadBalancer := { exampleConfig.LoadBalancer with HTTPSPort := 443 } }

/-- An account in which the load balancer of the scenario exists and its
target group does not. -/
def loadBalancerCloud : Cloud := { unboundCloud with targetGroups := [] }

/-- The account `s` with the target group of the scenario added and tagged. -/
def withTargetGroup (s : Cloud) : Cloud :=
  { s with
    targetGroups := s.targetGroups ++
      [{ TargetGroupArn := "arn:aws:elasticloadbalancing:targetgroup/svc-tg"
         TargetGroupName := "svc-tg", port := 80, protocol := "HTTP", vpcID := "vpc-1"
         healthCheck := healthCheckParams exampleConfig 30 5 }]
    tags := s.tags ++ [("arn:aws:elasticloadbalancing:targetgroup/svc-tg", [("Name", "svc-tg")])] }

/-- The account `s`, in which the target group of the scenario exists, with
that target group tagged once more. -/
def withTargetGroupTag (s : Cloud) : Cloud :=
  { s with
    tags := s.tags ++ [("arn:aws:elasticloadbalancing:targetgroup/svc-tg", [("Name", "svc-tg")])] }

/-- The account `s`, which holds the security group of the instances alone,
with the security group of the load balancer added, tagged, opened on port 80
and permitted on the security group of the instances. -/
def withSecurityGroup (s : Cloud) : Cloud :=
  { s with
    securityGroups :=
      [{ GroupId := "sg-0001", GroupName := "cluster1-instances", VpcId := "vpc-1"
         inbound := [⟨"tcp", 0, 65535, "sg-svc-sg"⟩] },
       { GroupId := "sg-svc-sg", GroupName := "svc-sg", VpcId := "vpc-1"
         inbound := [⟨"tcp", 80, 80, "0.0.0.0/0"⟩] }]
    tags := s.tags ++ [("sg-svc-sg", [("Name", "svc-sg")])] }

/-- The account `s` with the load balancer of the scenario added and tagged. -/
def withLoadBalancer (s : Cloud) : Cloud :=
  { s with
    loadBalancers := s.loadBalancers ++
      [{ LoadBalancerArn := "arn:aws:elasticloadbalancing:loadbalancer/svc-lb"
         LoadBalancerName := "svc-lb", internetFacing := true
         securityGroupIDs := ["sg-svc-sg"], subnetIDs := ["subnet-a", "subnet-b"] }]
    tags := s.tags ++
      [("arn:aws:elasticloadbalancing:loadbalancer/svc-lb", [("Name", "svc-lb")])] }

/-- The account `s` with a listener added from the load balancer of the
scenario to its target group. -/
def withListener (port : Nat) (protocol certificateARN : String) (s : Cloud) : Cloud :=
  { s with
    listeners := s.listeners ++
      [{ LoadBalancerArn := "arn:aws:elasticloadbalancing:loadbalancer/svc-lb"
         port := port, protocol := protocol, certificateARN := certificateARN
         DefaultActions := [⟨"arn:aws:elasticloadbalancing:targetgroup/svc-tg"⟩] }] }

/-- The security group of the cluster instances, as the client describes it. -/
def instancesSecurityGroup : SecurityGroup :=
  { GroupId := "sg-0001", GroupName := "cluster1-instances" }

end Coldbrew

namespace Coldbrew
section
variable {σ : Type}

theorem bind_run {α β : Type} (m : M σ α) (f : α → M σ β) (w : World σ) :
    (m >>= f).run w = match m.run w with
      | (.ok a, w1) => (f a).run w1
      | (.error e, w1) => (.error e, w1) := rfl

theorem pure_run {α : Type} (a : α) (w : World σ) : (pure a : M σ α).run w = (.ok a, w) := rfl

theorem fail_run {α : Type} (e : GoError) (w : World σ) :
    (fail e : M σ α).run w = (.error e, w) := rfl

theorem call_run {α : Type} (f : σ → Except GoError α × σ) (ev : Except GoError α → Event)
    (w : World σ) :
    (call f ev).run w = (.ok (f w.cloud).1, ⟨(f w.cloud).2, w.trace ++ [ev (f w.cloud).1]⟩) := rfl

theorem runs_pure {α : Type} {P : Except GoError α → List Event → Prop} (a : α)
    (h : P (.ok a) []) : Runs (pure a : M σ α) P :=
  fun w => ⟨[], by simp [pure_run], h⟩

theorem runs_fail {α : Type} {P : Except GoError α → List Event → Prop} (e : GoError)
    (h : P (.error e) []) : Runs (fail e : M σ α) P :=
  fun w => ⟨[], by simp [fail_run], h⟩

theorem runs_bind {α β : Type} {m : M σ α} {k : α → M σ β}
    {Q : Except GoError α → List Event → Prop} {P : Except GoError β → List Event → Prop}
    (hm : Runs m Q)
    (hk : ∀ a evs1, Q (.ok a) evs1 → Runs (k a) (fun res evs2 => P res (evs1 ++ evs2)))
    (he : ∀ e evs1, Q (.error e) evs1 → P (.error e) evs1) : Runs (m >>= k) P := by
  intro w
  obtain ⟨evs1, h1, h2⟩ := hm w
  rw [bind_run]
  rcases hres : m.run w with ⟨r, w1⟩
  rw [hres] at h1 h2
  rcases r with e | a
  · exact ⟨evs1, h1, he e evs1 h2⟩
  · obtain ⟨evs2, h3, h4⟩ := hk a evs1 h2 w1
    refine ⟨evs1 ++ evs2, ?_, h4⟩
    simp only [h3]
    simp only [] at h1
    rw [h1, List.append_assoc]

theorem runs_call {α : Type} (f : σ → Except GoError α × σ) (ev : Except GoError α → Event) :
    Runs (call f ev) (fun res evs => ∃ r, res = .ok r ∧ evs = [ev r]) :=
  fun w => ⟨[ev (f w.cloud).1], rfl, (f w.cloud).1, rfl, rfl⟩

theorem runs_call_bind {α β : Type} (f : σ → Except GoError α × σ)
    (ev : Except GoError α → Event) {k : Except GoError α → M σ β}
    {P : Except GoError β → List Event → Prop}
    (hk : ∀ r, Runs (k r) (fun res evs => P res (ev r :: evs))) : Runs (call f ev >>= k) P := by
  refine runs_bind (runs_call f ev) ?_ ?_
  · rintro a evs1 ⟨r, hr, rfl⟩
    cases hr
    exact hk a
  · rintro e evs1 ⟨r, hr, -⟩
    cases hr

theorem runs_fail_bind {α β : Type} {P : Except GoError β → List Event → Prop} (e : GoError)
    (k : α → M σ β) (h : P (.error e) []) : Runs (fail e >>= k) P :=
  fun w => ⟨[], by simp [bind_run, fail_run], h⟩

theorem runs_pure_bind {α β : Type} {P : Except GoError β → List Event → Prop} (a : α)
    (k : α → M σ β) (h : Runs (k a) P) : Runs (pure a >>= k) P := h

theorem createELBTargetGroup_runs (c : Command σ) (name : String) :
    Runs (createELBTargetGroup c name) (CreateTargetGroupRun c name) := by
  unfold createELBTargetGroup
  refine runs_call_bind _ _ fun r => ?_
  rcases r with e | ⟨region, vpc⟩
  · exact runs_fail _ (.vpcError e)
  simp only []
  rcases hi : c.core.ParseTimeExpression c.conf.LoadBalancer.HealthCheck.Interval with e | i
  · exact runs_pure _ (.intervalRefused region vpc e hi)
  simp only []
  rcases ht : c.core.ParseTimeExpression c.conf.LoadBalancer.HealthCheck.Timeout with e | t
  · exact runs_pure _ (.timeoutRefused region vpc i e hi ht)
  simp only []
  refine runs_call_bind _ _ fun r => ?_
  rcases r with e | tg
  · exact runs_fail _ (.createError region vpc i t e _ hi ht)
  simp only []
  refine runs_call_bind _ _ fun r => ?_
  rcases r with e | u
  · exact runs_fail _ (.tagError region vpc i t tg e _ hi ht)
  · exact runs_pure _ (.created region vpc i t tg hi ht)

theorem createELBLoadBalancer_runs (c : Command σ) (name vpcID securityGroupID : String) :
    Runs (createELBLoadBalancer c name vpcID securityGroupID)
      (CreateLoadBalancerRun c name vpcID securityGroupID) := by
  unfold createELBLoadBalancer
  refine runs_call_bind _ _ fun r => ?_
  rcases r with e | subnetIDs
  · exact runs_fail _ (.subnetsError e _)
  simp only []
  refine runs_call_bind _ _ fun r => ?_
  rcases r with e | lb
  · exact runs_fail _ (.createError subnetIDs e _)
  simp only []
  refine runs_call_bind _ _ fun r => ?_
  rcases r with e | u
  · exact runs_fail _ (.tagError subnetIDs lb e _)
  · exact runs_pure _ (.created subnetIDs lb)

theorem retryAttempts_runs (f : σ → Except GoError Unit × σ) (id : String) (tags : Tags)
    (codes : List String) (n : Nat) :
    Runs (retryAttempts (call f (Event.EC2CreateTags id tags)) codes n)
      (fun res evs => ∃ failed r, res = .ok r ∧ evs = tagAttempts id tags failed r) := by
  induction n with
  | zero =>
      intro w
      exact ⟨_, rfl, [], _, rfl, rfl⟩
  | succ n ih =>
      unfold retryAttempts
      refine runs_call_bind _ _ fun r => ?_
      rcases r with e | u
      · simp only []
        split
        · intro w
          obtain ⟨evs, h1, failed, r, h2, h3⟩ := ih w
          exact ⟨evs, h1, e :: failed, r, h2, by simp [tagAttempts, h3]⟩
        · exact runs_pure _ ⟨[], _, rfl, rfl⟩
      · exact runs_pure _ ⟨[], _, rfl, rfl⟩


theorem createLoadBalancerSecurityGroup_runs (c : Command σ) (vpcID : String)
    (httpPort httpsPort : Nat) (name : String) :
    Runs (createLoadBalancerSecurityGroup c vpcID httpPort httpsPort name)
      (CreateSecurityGroupRun c vpcID httpPort httpsPort name) := by
  have k1 := @CreateSecurityGroupRun.createError σ c vpcID httpPort httpsPort name
  have k2 := @CreateSecurityGroupRun.tagError σ c vpcID httpPort httpsPort name
  have k3 := @CreateSecurityGroupRun.httpRuleError σ c vpcID httpPort httpsPort name
  have k4 := @CreateSecurityGroupRun.httpsRuleError σ c vpcID httpPort httpsPort name
  have k5 := @CreateSecurityGroupRun.instancesLookupError σ c vpcID httpPort httpsPort name
  have k6 := @CreateSecurityGroupRun.instancesMissing σ c vpcID httpPort httpsPort name
  have k7 := @CreateSecurityGroupRun.instancesRuleError σ c vpcID httpPort httpsPort name
  have k8 := @CreateSecurityGroupRun.created σ c vpcID httpPort httpsPort name
  unfold createLoadBalancerSecurityGroup RetryOnAWSErrorCode
  refine runs_call_bind _ _ fun r => ?_
  rcases r with e | id
  · exact runs_fail _ (k1 e _)
  simp only []
  refine runs_bind (retryAttempts_runs _ _ _ _ _) ?_ ?_
  · rintro a evs1 ⟨failed, r, hr, rfl⟩
    cases hr
    rcases a with e | u
    · exact runs_fail _ (by simpa using k2 id failed e _)
    simp only [List.append_nil]
    by_cases h1 : httpPort > 0 <;> by_cases h2 : httpsPort > 0 <;>
      simp only [inboundCall, h1, h2, if_true, if_false, List.nil_append, true_implies]
        at k3 k4 k5 k6 k7 k8 ⊢ <;>
      (repeat' first
        | split
        | refine runs_call_bind _ _ fun r => ?_
        | refine runs_fail_bind _ _ ?_
        | refine runs_pure_bind _ _ ?_
        | refine runs_fail _ ?_
        | refine runs_pure _ ?_) <;>
      first
        | exact k8 _ _ _
        | exact k7 _ _ _ _ _
        | exact k6 _ _ _
        | exact k5 _ _ _ _
        | exact k4 _ _ _ _
        | exact k3 _ _ _ _
  · rintro e evs1 ⟨failed, r, hr, -⟩
    cases hr

theorem prepareLoadBalancerSecurityGroup_runs (c : Command σ) (vpcID : String) :
    Runs (prepareLoadBalancerSecurityGroup c vpcID) (PrepareSecurityGroupRun c vpcID) := by
  unfold prepareLoadBalancerSecurityGroup
  refine runs_call_bind _ _ fun r => ?_
  rcases r with e | _ | g
  · exact runs_fail _ (.lookupError e _)
  · intro w
    obtain ⟨evs, h1, h2⟩ := createLoadBalancerSecurityGroup_runs c vpcID c.conf.LoadBalancer.Port
      c.conf.LoadBalancer.HTTPSPort c.conf.AWS.ELBSecurityGroupName w
    exact ⟨evs, h1, .absent _ _ h2⟩
  · exact runs_pure _ (.found g)

theorem listeners_runs {α : Type} (c : Command σ) (lbARN tgARN : String) (a : α) :
    Runs (do
      if c.conf.LoadBalancer.Port > 0 then
        match ← call (c.awsClient.ELB.CreateListener lbARN tgARN c.conf.LoadBalancer.Port "HTTP" "")
            (Event.CreateListener lbARN tgARN c.conf.LoadBalancer.Port "HTTP" "") with
        | .error err => fail (Errorf ("Failed to create ELB Listener: " ++ err.Error))
        | .ok _ => pure ()
      let httpsPort := c.conf.LoadBalancer.HTTPSPort
      if httpsPort > 0 then
        let certificateARN := c.conf.AWS.ELBCertificateARN
        match ← call (c.awsClient.ELB.CreateListener lbARN tgARN httpsPort "HTTPS" certificateARN)
            (Event.CreateListener lbARN tgARN httpsPort "HTTPS" certificateARN) with
        | .error err => fail (Errorf ("Failed to create ELB Listener (HTTPS): " ++ err.Error))
        | .ok _ => pure ()
      pure a)
      (fun res evs => ∃ r, ListenersRun c lbARN tgARN r evs ∧ res = r.map (fun _ => a)) := by
  have k1 := @ListenersRun.httpError σ c lbARN tgARN
  have k2 := @ListenersRun.httpsError σ c lbARN tgARN
  have k3 := @ListenersRun.done σ c lbARN tgARN
  by_cases h1 : c.conf.LoadBalancer.Port > 0 <;> by_cases h2 : c.conf.LoadBalancer.HTTPSPort > 0 <;>
    simp only [httpListenerCall, httpsListenerCall, h1, h2, if_true, if_false, List.nil_append,
      true_implies] at k1 k2 k3 ⊢ <;>
    (repeat' first
      | split
      | refine runs_call_bind _ _ fun r => ?_
      | refine runs_fail_bind _ _ ?_
      | refine runs_pure_bind _ _ ?_
      | refine runs_fail _ ?_
      | refine runs_pure _ ?_) <;>
    first
      | exact ⟨_, k3, rfl⟩
      | exact ⟨_, k2 _ _, rfl⟩
      | exact ⟨_, k1 _ _, rfl⟩

theorem prepareELBLoadBalancer_runs (c : Command σ) (role containerName : String)
    (containerPort : Nat) :
    Runs (prepareELBLoadBalancer c role containerName containerPort)
      (PrepareRun c containerName containerPort) := by
  unfold prepareELBLoadBalancer
  refine runs_call_bind _ _ fun r => ?_
  rcases r with e | ⟨region, vpc⟩
  · exact runs_fail _ (.vpcError e)
  simp only []
  refine runs_call_bind _ _ fun r => ?_
  rcases r with e | _ | lb
  · exact runs_fail _ (.lookupError region vpc e _)
  · simp only []
    refine runs_bind (createELBTargetGroup_runs _ _) ?_ ?_
    · intro arn evs1 h1
      refine runs_bind (prepareLoadBalancerSecurityGroup_runs _ _) ?_ ?_
      · intro sgID evs2 h2
        refine runs_bind (createELBLoadBalancer_runs _ _ _ _) ?_ ?_
        · intro lbARN evs3 h3
          intro w
          obtain ⟨evs4, h4, r, h5, h6⟩ := listeners_runs c lbARN arn
            (⟨arn, containerName, containerPort⟩ : ECSLoadBalancer) w
          refine ⟨evs4, h4, ?_⟩
          rw [h6]
          exact .absent region vpc _ _ (.listeners arn sgID lbARN evs1 evs2 evs3 evs4 r h1 h2 h3 h5)
        · intro e evs3 h3
          exact .absent region vpc _ _ (.loadBalancerFailed arn sgID e evs1 evs2 evs3 h1 h2 h3)
      · intro e evs2 h2
        exact .absent region vpc _ _ (.securityGroupFailed arn e evs1 evs2 h1 h2)
    · intro e evs1 h1
      exact .absent region vpc _ _ (.targetGroupFailed e evs1 h1)
  · simp only []
    refine runs_call_bind _ _ fun r => ?_
    rcases r with e | _ | tg
    · exact runs_fail _ (.found region vpc lb _ _ (.targetGroupLookupError e _))
    · simp only []
      refine runs_bind (createELBTargetGroup_runs _ _) ?_ ?_
      · intro arn evs1 h1
        intro w
        obtain ⟨evs2, h4, r, h5, h6⟩ := listeners_runs c lb.LoadBalancerArn arn
          (⟨arn, containerName, containerPort⟩ : ECSLoadBalancer) w
        refine ⟨evs2, h4, ?_⟩
        rw [h6]
        exact .found region vpc lb _ _ (.listeners arn evs1 evs2 r h1 h5)
      · intro e evs1 h1
        exact .found region vpc lb _ _ (.targetGroupFailed e evs1 h1)
    · simp only []
      refine runs_call_bind _ _ fun r => ?_
      rcases r with e | ls
      · exact runs_fail _ (.found region vpc lb _ _ (.listenersError tg e _))
      simp only []
      cases h : listenerExists tg.TargetGroupArn ls
      · exact runs_fail _ (.found region vpc lb _ _ (.conflict tg ls h))
      · exact runs_pure _ (.found region vpc lb _ _ (.bound tg ls h))

end
end Coldbrew

namespace Coldbrew
section
variable {σ : Type}

theorem prepareELBLoadBalancer_exec (c : Command σ) (s : σ) (role containerName : String)
    (containerPort : Nat) :
    PrepareRun c containerName containerPort
      (exec (prepareELBLoadBalancer c role containerName containerPort) s).1
      (exec (prepareELBLoadBalancer c role containerName containerPort) s).2.trace := by
  obtain ⟨evs, h1, h2⟩ := prepareELBLoadBalancer_runs c role containerName containerPort ⟨s, []⟩
  simp only [List.nil_append] at h1
  unfold exec
  rw [h1]
  exact h2

theorem actionsTarget_eq_true (arn : String) (as : List Action) :
    actionsTarget arn as = true ↔ ∃ a ∈ as, a.TargetGroupArn = arn := by
  induction as with
  | nil => simp [actionsTarget]
  | cons a rest ih =>
      unfold actionsTarget
      by_cases h : a.TargetGroupArn = arn
      · simp [h]
      · simp [h, ih]

theorem listenerExists_eq_true (arn : String) (ls : List Listener) :
    listenerExists arn ls = true ↔ ∃ l ∈ ls, ∃ a ∈ l.DefaultActions, a.TargetGroupArn = arn := by
  induction ls with
  | nil => simp [listenerExists]
  | cons l rest ih =>
      unfold listenerExists
      by_cases h : actionsTarget arn l.DefaultActions = true
      · simp only [h, if_true, List.mem_cons, exists_eq_or_imp, true_iff]
        exact Or.inl ((actionsTarget_eq_true _ _).1 h)
      · rw [actionsTarget_eq_true] at h
        simp [h, ih, actionsTarget_eq_true]

theorem mem_inboundCall (id : String) (port : Nat) (r : Except GoError Unit) (e : Event) :
    e ∈ inboundCall id port r ↔
      port > 0 ∧ e = Event.AddInboundToSecurityGroup id SecurityGroupProtocolTCP port port
        "0.0.0.0/0" r := by
  unfold inboundCall
  split <;> simp [*]

theorem mem_httpListenerCall (c : Command σ) (lbARN tgARN : String) (r : Except GoError Unit)
    (e : Event) :
    e ∈ httpListenerCall c lbARN tgARN r ↔
      c.conf.LoadBalancer.Port > 0 ∧
        e = Event.CreateListener lbARN tgARN c.conf.LoadBalancer.Port "HTTP" "" r := by
  unfold httpListenerCall
  split <;> simp [*]

theorem mem_httpsListenerCall (c : Command σ) (lbARN tgARN : String) (r : Except GoError Unit)
    (e : Event) :
    e ∈ httpsListenerCall c lbARN tgARN r ↔
      c.conf.LoadBalancer.HTTPSPort > 0 ∧
        e = Event.CreateListener lbARN tgARN c.conf.LoadBalancer.HTTPSPort "HTTPS"
          c.conf.AWS.ELBCertificateARN r := by
  unfold httpsListenerCall
  split <;> simp [*]

theorem forall_mem_tagAttempts (id : String) (tags : Tags) (failed : List GoError)
    (last : Except GoError Unit) (P : Event → Prop) :
    (∀ e ∈ tagAttempts id tags failed last, P e) ↔
      (∀ x ∈ failed, P (Event.EC2CreateTags id tags (.error x))) ∧
        P (Event.EC2CreateTags id tags last) := by
  simp only [tagAttempts, List.forall_mem_append, List.forall_mem_map, List.forall_mem_singleton]

theorem forall_mem_inboundCall (id : String) (port : Nat) (r : Except GoError Unit)
    (P : Event → Prop) :
    (∀ e ∈ inboundCall id port r, P e) ↔
      (port > 0 → P (Event.AddInboundToSecurityGroup id SecurityGroupProtocolTCP port port
        "0.0.0.0/0" r)) := by
  unfold inboundCall
  split <;> simp [*]

theorem forall_mem_httpListenerCall (c : Command σ) (lbARN tgARN : String)
    (r : Except GoError Unit) (P : Event → Prop) :
    (∀ e ∈ httpListenerCall c lbARN tgARN r, P e) ↔
      (c.conf.LoadBalancer.Port > 0 →
        P (Event.CreateListener lbARN tgARN c.conf.LoadBalancer.Port "HTTP" "" r)) := by
  unfold httpListenerCall
  split <;> simp [*]

theorem forall_mem_httpsListenerCall (c : Command σ) (lbARN tgARN : String)
    (r : Except GoError Unit) (P : Event → Prop) :
    (∀ e ∈ httpsListenerCall c lbARN tgARN r, P e) ↔
      (c.conf.LoadBalancer.HTTPSPort > 0 →
        P (Event.CreateListener lbARN tgARN c.conf.LoadBalancer.HTTPSPort "HTTPS"
          c.conf.AWS.ELBCertificateARN r)) := by
  unfold httpsListenerCall
  split <;> simp [*]

theorem CreateTargetGroupRun.tg_no_path_lookup {c : Command σ} {name : String}
    {r : Except GoError String} {evs : List Event} (h : CreateTargetGroupRun c name r evs) :
    ∀ e ∈ evs, e.isPathLookup = false := by
  cases h <;> simp [Event.isPathLookup]

theorem CreateLoadBalancerRun.lb_no_path_lookup {c : Command σ} {name vpcID sg : String}
    {r : Except GoError String} {evs : List Event} (h : CreateLoadBalancerRun c name vpcID sg r evs) :
    ∀ e ∈ evs, e.isPathLookup = false := by
  cases h <;> simp [Event.isPathLookup]

theorem CreateSecurityGroupRun.sg_no_path_lookup {c : Command σ} {vpcID name : String} {p q : Nat}
    {r : Except GoError String} {evs : List Event}
    (h : CreateSecurityGroupRun c vpcID p q name r evs) :
    ∀ e ∈ evs, e.isPathLookup = false := by
  cases h <;>
    simp only [List.forall_mem_cons, List.forall_mem_append, forall_mem_tagAttempts,
      forall_mem_inboundCall, List.forall_mem_singleton, Event.isPathLookup, implies_true,
      and_self, List.not_mem_nil, false_implies]

theorem PrepareSecurityGroupRun.psg_no_path_lookup {c : Command σ} {vpcID : String}
    {r : Except GoError String} {evs : List Event} (h : PrepareSecurityGroupRun c vpcID r evs) :
    ∀ e ∈ evs, e.isPathLookup = false := by
  cases h with
  | lookupError e msg => simp [Event.isPathLookup]
  | found g => simp [Event.isPathLookup]
  | absent r evs h =>
      intro e he
      rcases List.mem_cons.1 he with rfl | he
      · rfl
      · exact h.sg_no_path_lookup e he

theorem ListenersRun.ls_no_path_lookup {c : Command σ} {lbARN tgARN : String}
    {r : Except GoError Unit} {evs : List Event} (h : ListenersRun c lbARN tgARN r evs) :
    ∀ e ∈ evs, e.isPathLookup = false := by
  cases h <;>
    simp only [List.forall_mem_cons, List.forall_mem_append, forall_mem_httpListenerCall,
      forall_mem_httpsListenerCall, List.forall_mem_singleton, Event.isPathLookup, implies_true,
      and_self, List.not_mem_nil, false_implies]

theorem BootRun.boot_no_path_lookup {c : Command σ} {vpc containerName : String}
    {containerPort : Nat} {res : Except GoError ECSLoadBalancer} {evs : List Event}
    (h : BootRun c vpc containerName containerPort res evs) :
    ∀ e ∈ evs, e.isPathLookup = false := by
  cases h with
  | targetGroupFailed e evs h1 => exact h1.tg_no_path_lookup
  | securityGroupFailed arn e evs1 evs2 h1 h2 =>
      simp only [List.forall_mem_append]
      exact ⟨h1.tg_no_path_lookup, h2.psg_no_path_lookup⟩
  | loadBalancerFailed arn sgID e evs1 evs2 evs3 h1 h2 h3 =>
      simp only [List.forall_mem_append]
      exact ⟨h1.tg_no_path_lookup, h2.psg_no_path_lookup, h3.lb_no_path_lookup⟩
  | listeners arn sgID lbARN evs1 evs2 evs3 evs4 r h1 h2 h3 h4 =>
      simp only [List.forall_mem_append]
      exact ⟨h1.tg_no_path_lookup, h2.psg_no_path_lookup, h3.lb_no_path_lookup, h4.ls_no_path_lookup⟩

theorem isLoadBalancerLookup_of_isPathLookup {e : Event} (h : e.isPathLookup = false) :
    e.isLoadBalancerLookup = false := by
  cases e <;> first | rfl | cases h

theorem AttachRun.no_lb_lookup {c : Command σ} {lb : LoadBalancer} {containerName : String}
    {containerPort : Nat} {res : Except GoError ECSLoadBalancer} {evs : List Event}
    (h : AttachRun c lb containerName containerPort res evs) :
    ∀ e ∈ evs, e.isLoadBalancerLookup = false := by
  cases h with
  | targetGroupLookupError e msg => simp [Event.isLoadBalancerLookup]
  | listenersError tg e msg => simp [Event.isLoadBalancerLookup]
  | conflict tg ls h => simp [Event.isLoadBalancerLookup]
  | bound tg ls h => simp [Event.isLoadBalancerLookup]
  | targetGroupFailed e evs h1 =>
      simp only [List.forall_mem_cons]
      exact ⟨rfl, fun e he => isLoadBalancerLookup_of_isPathLookup (h1.tg_no_path_lookup e he)⟩
  | listeners arn evs1 evs2 r h1 h2 =>
      simp only [List.forall_mem_cons, List.forall_mem_append]
      exact ⟨rfl, fun e he => isLoadBalancerLookup_of_isPathLookup (h1.tg_no_path_lookup e he),
        fun e he => isLoadBalancerLookup_of_isPathLookup (h2.ls_no_path_lookup e he)⟩

theorem not_mem_of_kind {k : Event → Bool} {evs : List Event} {e : Event}
    (h1 : ∀ x ∈ evs, k x = false) (h2 : k e = true) : e ∉ evs := by
  intro h3
  rw [h1 e h3] at h2
  cases h2

/-- A run in which the load balancer lookup returned `lb` continues as an `AttachRun`. -/
theorem PrepareRun.run_of_found {c : Command σ} {containerName : String} {containerPort : Nat}
    {res : Except GoError ECSLoadBalancer} {tr : List Event}
    (h : PrepareRun c containerName containerPort res tr) {lb : LoadBalancer}
    (hlb : Event.RetrieveLoadBalancerByName c.conf.AWS.ELBLoadBalancerName (.ok (some lb)) ∈ tr) :
    ∃ region vpc evs,
      tr = .GetAWSRegionAndVPCID (.ok (region, vpc)) ::
        .RetrieveLoadBalancerByName c.conf.AWS.ELBLoadBalancerName (.ok (some lb)) :: evs ∧
      AttachRun c lb containerName containerPort res evs := by
  cases h with
  | vpcError e => simp at hlb
  | lookupError region vpc e msg => simp at hlb
  | found region vpc lb1 res evs h1 =>
      simp only [List.mem_cons, reduceCtorEq, Event.RetrieveLoadBalancerByName.injEq, true_and,
        Except.ok.injEq, Option.some.injEq, false_or] at hlb
      rcases hlb with rfl | hlb
      · exact ⟨region, vpc, evs, rfl, h1⟩
      · exact absurd hlb (not_mem_of_kind h1.no_lb_lookup rfl)
  | absent region vpc res evs h1 =>
      simp only [List.mem_cons, reduceCtorEq, Event.RetrieveLoadBalancerByName.injEq, true_and,
        Except.ok.injEq, false_or] at hlb
      exact absurd hlb (not_mem_of_kind h1.boot_no_path_lookup rfl)

/-- A run in which the load balancer lookup returned absent continues as a `BootRun`. -/
theorem PrepareRun.of_absent {c : Command σ} {containerName : String} {containerPort : Nat}
    {res : Except GoError ECSLoadBalancer} {tr : List Event}
    (h : PrepareRun c containerName containerPort res tr)
    (hlb : Event.RetrieveLoadBalancerByName c.conf.AWS.ELBLoadBalancerName (.ok none) ∈ tr) :
    ∃ region vpc evs,
      tr = .GetAWSRegionAndVPCID (.ok (region, vpc)) ::
        .RetrieveLoadBalancerByName c.conf.AWS.ELBLoadBalancerName (.ok none) :: evs ∧
      BootRun c vpc containerName containerPort res evs := by
  cases h with
  | vpcError e => simp at hlb
  | lookupError region vpc e msg => simp at hlb
  | found region vpc lb1 res evs h1 =>
      simp only [List.mem_cons, reduceCtorEq, Event.RetrieveLoadBalancerByName.injEq, true_and,
        Except.ok.injEq, false_or] at hlb
      exact absurd hlb (not_mem_of_kind h1.no_lb_lookup rfl)
  | absent region vpc res evs h1 => exact ⟨region, vpc, evs, rfl, h1⟩

/-- After both resources were found the run ends with the listener lookup,
and its result is decided by the listener search. -/
theorem AttachRun.attach_of_found {c : Command σ} {lb : LoadBalancer} {containerName : String}
    {containerPort : Nat} {res : Except GoError ECSLoadBalancer} {evs : List Event}
    (h : AttachRun c lb containerName containerPort res evs) {tg : TargetGroup}
    (htg : Event.RetrieveTargetGroupByName c.conf.AWS.ELBTargetGroupName (.ok (some tg)) ∈ evs) :
    ∃ r,
      evs = [.RetrieveTargetGroupByName c.conf.AWS.ELBTargetGroupName (.ok (some tg)),
        .RetrieveLoadBalancerListeners lb.LoadBalancerArn r] ∧
      ∀ ls, r = .ok ls →
        res = if listenerExists tg.TargetGroupArn ls then
            .ok ⟨tg.TargetGroupArn, containerName, containerPort⟩
          else .error (conflictError c) := by
  cases h with
  | targetGroupLookupError e msg => simp at htg
  | listenersError tg1 e msg =>
      simp at htg; subst htg
      exact ⟨_, rfl, fun ls h => by cases h⟩
  | conflict tg1 ls1 h1 =>
      simp at htg; subst htg
      refine ⟨_, rfl, fun ls h => ?_⟩
      cases h
      simp [h1]
  | bound tg1 ls1 h1 =>
      simp at htg; subst htg
      refine ⟨_, rfl, fun ls h => ?_⟩
      cases h
      simp [h1]
  | targetGroupFailed e evs h1 =>
      simp at htg
      exact absurd htg (not_mem_of_kind h1.tg_no_path_lookup rfl)
  | listeners arn evs1 evs2 r h1 h2 =>
      simp at htg
      rcases htg with htg | htg
      · exact absurd htg (not_mem_of_kind h1.tg_no_path_lookup rfl)
      · exact absurd htg (not_mem_of_kind h2.ls_no_path_lookup rfl)

end
end Coldbrew

namespace Coldbrew
section
variable {σ : Type}

/-- A run of `createELBTargetGroup` whose calls all succeeded, with both time
expressions accepted, created and tagged the group. -/
theorem CreateTargetGroupRun.tg_of_succeeded {c : Command σ} {name : String}
    {r : Except GoError String} {evs : List Event} (h : CreateTargetGroupRun c name r evs)
    (hs : ∀ e ∈ evs, e.succeeded = true) {i t : Nat}
    (hi : c.core.ParseTimeExpression c.conf.LoadBalancer.HealthCheck.Interval = .ok i)
    (ht : c.core.ParseTimeExpression c.conf.LoadBalancer.HealthCheck.Timeout = .ok t) :
    ∃ region vpc tg, r = .ok tg.TargetGroupArn ∧
      evs = [.GetAWSRegionAndVPCID (.ok (region, vpc)),
        .CreateTargetGroup name 80 "HTTP" vpc (healthCheckParams c.conf i t) (.ok tg),
        .ELBCreateTags tg.TargetGroupArn (c.core.DefaultTagsForAWSResources name) (.ok ())] := by
  cases h with
  | vpcError e => simp [Event.succeeded, Except.toBool] at hs
  | intervalRefused region vpc e hi1 => rw [hi] at hi1; cases hi1
  | timeoutRefused region vpc i1 e hi1 ht1 => rw [ht] at ht1; cases ht1
  | createError region vpc i1 t1 e msg hi1 ht1 => simp [Event.succeeded, Except.toBool] at hs
  | tagError region vpc i1 t1 tg e msg hi1 ht1 => simp [Event.succeeded, Except.toBool] at hs
  | created region vpc i1 t1 tg hi1 ht1 =>
      rw [hi] at hi1; rw [ht] at ht1
      cases hi1; cases ht1
      exact ⟨region, vpc, tg, rfl, rfl⟩

/-- A run of `createELBTargetGroup` whose calls all succeeded returns without error. -/
theorem CreateTargetGroupRun.ok_of_succeeded {c : Command σ} {name : String}
    {r : Except GoError String} {evs : List Event} (h : CreateTargetGroupRun c name r evs)
    (hs : ∀ e ∈ evs, e.succeeded = true) : ∃ arn, r = .ok arn := by
  cases h with
  | vpcError e => simp [Event.succeeded, Except.toBool] at hs
  | intervalRefused region vpc e hi1 => exact ⟨_, rfl⟩
  | timeoutRefused region vpc i1 e hi1 ht1 => exact ⟨_, rfl⟩
  | createError region vpc i1 t1 e msg hi1 ht1 => simp [Event.succeeded, Except.toBool] at hs
  | tagError region vpc i1 t1 tg e msg hi1 ht1 => simp [Event.succeeded, Except.toBool] at hs
  | created region vpc i1 t1 tg hi1 ht1 => exact ⟨_, rfl⟩

/-- A run of `createELBLoadBalancer` whose calls all succeeded created and
tagged the load balancer. -/
theorem CreateLoadBalancerRun.lb_of_succeeded {c : Command σ} {name vpcID sg : String}
    {r : Except GoError String} {evs : List Event}
    (h : CreateLoadBalancerRun c name vpcID sg r evs) (hs : ∀ e ∈ evs, e.succeeded = true) :
    ∃ subnetIDs lb, r = .ok lb.LoadBalancerArn ∧
      evs = [.ListVPCSubnets vpcID (.ok subnetIDs),
        .CreateLoadBalancer name true [sg] subnetIDs (.ok lb),
        .ELBCreateTags lb.LoadBalancerArn (c.core.DefaultTagsForAWSResources name) (.ok ())] := by
  cases h with
  | subnetsError e msg => simp [Event.succeeded, Except.toBool] at hs
  | createError subnetIDs e msg => simp [Event.succeeded, Except.toBool] at hs
  | tagError subnetIDs lb e msg => simp [Event.succeeded, Except.toBool] at hs
  | created subnetIDs lb => exact ⟨subnetIDs, lb, rfl, rfl⟩

theorem tagAttempts_of_succeeded {id : String} {tags : Tags} {failed : List GoError}
    {last : Except GoError Unit}
    (hs : ∀ e ∈ tagAttempts id tags failed last, e.succeeded = true) :
    failed = [] ∧ last = .ok () := by
  rw [forall_mem_tagAttempts] at hs
  constructor
  · rcases failed with _ | ⟨x, rest⟩
    · rfl
    · have := hs.1 x (List.mem_cons_self _ _)
      simp [Event.succeeded, Except.toBool] at this
  · rcases last with e | u
    · have := hs.2
      simp [Event.succeeded, Except.toBool] at this
    · rfl

/-- A run of `createLoadBalancerSecurityGroup` whose calls all succeeded. -/
theorem CreateSecurityGroupRun.sg_of_succeeded {c : Command σ} {vpcID name : String} {p q : Nat}
    {r : Except GoError String} {evs : List Event}
    (h : CreateSecurityGroupRun c vpcID p q name r evs) (hs : ∀ e ∈ evs, e.succeeded = true) :
    ∃ id g, r = .ok id ∧
      evs = .CreateSecurityGroup name name vpcID (.ok id) ::
        .EC2CreateTags id (c.core.DefaultTagsForAWSResources name) (.ok ()) ::
        (inboundCall id p (.ok ()) ++ (inboundCall id q (.ok ()) ++
          [.RetrieveSecurityGroupByName (c.core.DefaultInstanceSecurityGroupName c.conf.ClusterName)
            (.ok (some g)),
           .AddInboundToSecurityGroup g.GroupId SecurityGroupProtocolTCP 0 65535 id (.ok ())])) := by
  cases h with
  | createError e msg => simp [Event.succeeded, Except.toBool] at hs
  | tagError id failed e msg =>
      simp only [List.forall_mem_cons] at hs
      have := (tagAttempts_of_succeeded hs.2).2
      cases this
  | httpRuleError id failed e msg hp =>
      simp only [List.forall_mem_cons, List.forall_mem_append, List.forall_mem_singleton] at hs
      simp [Event.succeeded, Except.toBool] at hs
  | httpsRuleError id failed e msg hp =>
      simp only [List.forall_mem_cons, List.forall_mem_append, List.forall_mem_singleton] at hs
      simp [Event.succeeded, Except.toBool] at hs
  | instancesLookupError id failed e msg =>
      simp only [List.forall_mem_cons, List.forall_mem_append, List.forall_mem_singleton] at hs
      simp [Event.succeeded, Except.toBool] at hs
  | instancesMissing id failed msg =>
      simp only [List.forall_mem_cons, List.forall_mem_append, List.forall_mem_singleton] at hs
      simp [Event.succeeded, Except.toBool] at hs
  | instancesRuleError id failed g e msg =>
      simp only [List.forall_mem_cons, List.forall_mem_append, List.forall_mem_singleton] at hs
      simp [Event.succeeded, Except.toBool] at hs
  | created id failed g =>
      simp only [List.forall_mem_cons, List.forall_mem_append] at hs
      obtain ⟨hf, -⟩ := tagAttempts_of_succeeded hs.2.1
      subst hf
      exact ⟨id, g, rfl, rfl⟩

/-- A run of `prepareLoadBalancerSecurityGroup` whose calls all succeeded
either found the group or created it in full. -/
theorem PrepareSecurityGroupRun.psg_of_succeeded {c : Command σ} {vpcID : String}
    {r : Except GoError String} {evs : List Event} (h : PrepareSecurityGroupRun c vpcID r evs)
    (hs : ∀ e ∈ evs, e.succeeded = true) :
    (∃ g, r = .ok g.GroupId ∧
      evs = [.RetrieveSecurityGroupByNameOrID c.conf.AWS.ELBSecurityGroupName (.ok (some g))]) ∨
    (∃ id g, r = .ok id ∧
      evs = .RetrieveSecurityGroupByNameOrID c.conf.AWS.ELBSecurityGroupName (.ok none) ::
        .CreateSecurityGroup c.conf.AWS.ELBSecurityGroupName c.conf.AWS.ELBSecurityGroupName vpcID
          (.ok id) ::
        .EC2CreateTags id (c.core.DefaultTagsForAWSResources c.conf.AWS.ELBSecurityGroupName)
          (.ok ()) ::
        (inboundCall id c.conf.LoadBalancer.Port (.ok ()) ++
          (inboundCall id c.conf.LoadBalancer.HTTPSPort (.ok ()) ++
          [.RetrieveSecurityGroupByName (c.core.DefaultInstanceSecurityGroupName c.conf.ClusterName)
            (.ok (some g)),
           .AddInboundToSecurityGroup g.GroupId SecurityGroupProtocolTCP 0 65535 id (.ok ())]))) := by
  cases h with
  | lookupError e msg => simp [Event.succeeded, Except.toBool] at hs
  | found g => exact Or.inl ⟨g, rfl, rfl⟩
  | absent r evs h1 =>
      simp only [List.forall_mem_cons] at hs
      obtain ⟨id, g, h2, h3⟩ := h1.sg_of_succeeded hs.2
      exact Or.inr ⟨id, g, h2, by rw [h3]⟩

/-- Listener steps whose calls all succeeded: one call for each port that is set. -/
theorem ListenersRun.ls_of_succeeded {c : Command σ} {lbARN tgARN : String}
    {r : Except GoError Unit} {evs : List Event} (h : ListenersRun c lbARN tgARN r evs)
    (hs : ∀ e ∈ evs, e.succeeded = true) :
    r = .ok () ∧
      evs = httpListenerCall c lbARN tgARN (.ok ()) ++ httpsListenerCall c lbARN tgARN (.ok ()) := by
  cases h with
  | httpError e msg hp => simp [Event.succeeded, Except.toBool] at hs
  | httpsError e msg hp =>
      simp only [List.forall_mem_cons, List.forall_mem_append, List.forall_mem_singleton] at hs
      simp [Event.succeeded, Except.toBool] at hs
  | done => exact ⟨rfl, rfl⟩

end
end Coldbrew

namespace Coldbrew
section
variable {σ : Type}

/-- A bootstrap run whose calls all succeeded went through all four steps. -/
theorem BootRun.boot_of_succeeded {c : Command σ} {vpc containerName : String} {containerPort : Nat}
    {res : Except GoError ECSLoadBalancer} {evs : List Event}
    (h : BootRun c vpc containerName containerPort res evs)
    (hs : ∀ e ∈ evs, e.succeeded = true) :
    ∃ arn sgID evs1 evs2 subnetIDs lb,
      res = .ok ⟨arn, containerName, containerPort⟩ ∧
      evs = evs1 ++ (evs2 ++
        ([.ListVPCSubnets vpc (.ok subnetIDs),
          .CreateLoadBalancer c.conf.AWS.ELBLoadBalancerName true [sgID] subnetIDs (.ok lb),
          .ELBCreateTags lb.LoadBalancerArn
            (c.core.DefaultTagsForAWSResources c.conf.AWS.ELBLoadBalancerName) (.ok ())] ++
        (httpListenerCall c lb.LoadBalancerArn arn (.ok ()) ++
          httpsListenerCall c lb.LoadBalancerArn arn (.ok ())))) ∧
      CreateTargetGroupRun c c.conf.AWS.ELBTargetGroupName (.ok arn) evs1 ∧
      (∀ e ∈ evs1, e.succeeded = true) ∧
      PrepareSecurityGroupRun c vpc (.ok sgID) evs2 ∧
      (∀ e ∈ evs2, e.succeeded = true) := by
  cases h with
  | targetGroupFailed e evs h1 =>
      obtain ⟨arn, h2⟩ := h1.ok_of_succeeded hs
      cases h2
  | securityGroupFailed arn e evs1 evs2 h1 h2 =>
      simp only [List.forall_mem_append] at hs
      rcases h2.psg_of_succeeded hs.2 with ⟨g, h3, -⟩ | ⟨id, g, h3, -⟩ <;> cases h3
  | loadBalancerFailed arn sgID e evs1 evs2 evs3 h1 h2 h3 =>
      simp only [List.forall_mem_append] at hs
      obtain ⟨subnetIDs, lb, h4, -⟩ := h3.lb_of_succeeded hs.2.2
      cases h4
  | listeners arn sgID lbARN evs1 evs2 evs3 evs4 r h1 h2 h3 h4 =>
      simp only [List.forall_mem_append] at hs
      obtain ⟨subnetIDs, lb, h5, h6⟩ := h3.lb_of_succeeded hs.2.2.1
      obtain ⟨h7, h8⟩ := h4.ls_of_succeeded hs.2.2.2
      cases h5
      subst h6 h7 h8
      exact ⟨arn, sgID, evs1, evs2, subnetIDs, lb, rfl, rfl, h1, hs.1, h2, hs.2.1⟩

/-- A run on an existing load balancer with the target group absent, whose
calls all succeeded, created the group and the listeners. -/
theorem AttachRun.attach_of_succeeded {c : Command σ} {lb : LoadBalancer} {containerName : String}
    {containerPort : Nat} {res : Except GoError ECSLoadBalancer} {evs : List Event}
    (h : AttachRun c lb containerName containerPort res evs)
    (htg : Event.RetrieveTargetGroupByName c.conf.AWS.ELBTargetGroupName (.ok none) ∈ evs)
    (hs : ∀ e ∈ evs, e.succeeded = true) :
    ∃ arn evs1,
      res = .ok ⟨arn, containerName, containerPort⟩ ∧
      evs = .RetrieveTargetGroupByName c.conf.AWS.ELBTargetGroupName (.ok none) ::
        (evs1 ++ (httpListenerCall c lb.LoadBalancerArn arn (.ok ()) ++
          httpsListenerCall c lb.LoadBalancerArn arn (.ok ()))) ∧
      CreateTargetGroupRun c c.conf.AWS.ELBTargetGroupName (.ok arn) evs1 ∧
      (∀ e ∈ evs1, e.succeeded = true) := by
  cases h with
  | targetGroupLookupError e msg => simp at htg
  | listenersError tg e msg => simp at htg
  | conflict tg ls h => simp at htg
  | bound tg ls h => simp at htg
  | targetGroupFailed e evs h1 =>
      simp only [List.forall_mem_cons] at hs
      obtain ⟨arn, h2⟩ := h1.ok_of_succeeded hs.2
      cases h2
  | listeners arn evs1 evs2 r h1 h2 =>
      simp only [List.forall_mem_cons, List.forall_mem_append] at hs
      obtain ⟨h7, h8⟩ := h2.ls_of_succeeded hs.2.2
      subst h7 h8
      exact ⟨arn, evs1, rfl, rfl, h1, hs.2.1⟩

theorem filter_isCreateListener_httpListenerCall (c : Command σ) (lbARN tgARN : String)
    (r : Except GoError Unit) :
    (httpListenerCall c lbARN tgARN r).filter Event.isCreateListener =
      httpListenerCall c lbARN tgARN r := by
  unfold httpListenerCall
  split <;> simp [Event.isCreateListener]

theorem filter_isCreateListener_httpsListenerCall (c : Command σ) (lbARN tgARN : String)
    (r : Except GoError Unit) :
    (httpsListenerCall c lbARN tgARN r).filter Event.isCreateListener =
      httpsListenerCall c lbARN tgARN r := by
  unfold httpsListenerCall
  split <;> simp [Event.isCreateListener]

theorem filter_isCreateListener_inboundCall (id : String) (p : Nat) (r : Except GoError Unit) :
    (inboundCall id p r).filter Event.isCreateListener = [] := by
  unfold inboundCall
  split <;> simp [Event.isCreateListener]

theorem filter_isMutating_httpListenerCall (c : Command σ) (lbARN tgARN : String)
    (r : Except GoError Unit) :
    (httpListenerCall c lbARN tgARN r).filter Event.isMutating =
      httpListenerCall c lbARN tgARN r := by
  unfold httpListenerCall
  split <;> simp [Event.isMutating]

theorem filter_isMutating_httpsListenerCall (c : Command σ) (lbARN tgARN : String)
    (r : Except GoError Unit) :
    (httpsListenerCall c lbARN tgARN r).filter Event.isMutating =
      httpsListenerCall c lbARN tgARN r := by
  unfold httpsListenerCall
  split <;> simp [Event.isMutating]

theorem filter_isMutating_inboundCall (id : String) (p : Nat) (r : Except GoError Unit) :
    (inboundCall id p r).filter Event.isMutating = inboundCall id p r := by
  unfold inboundCall
  split <;> simp [Event.isMutating]

theorem length_httpListenerCall (c : Command σ) (lbARN tgARN : String) (r : Except GoError Unit) :
    (httpListenerCall c lbARN tgARN r).length = if c.conf.LoadBalancer.Port > 0 then 1 else 0 := by
  unfold httpListenerCall
  split <;> rfl

theorem length_httpsListenerCall (c : Command σ) (lbARN tgARN : String) (r : Except GoError Unit) :
    (httpsListenerCall c lbARN tgARN r).length =
      if c.conf.LoadBalancer.HTTPSPort > 0 then 1 else 0 := by
  unfold httpsListenerCall
  split <;> rfl

end
end Coldbrew

namespace Coldbrew
section
variable {σ : Type}

theorem precededAll_nil (ok : List Event → Event → Prop) (seen : List Event) :
    PrecededAll ok seen [] := by
  intro pre e post h
  cases pre <;> cases h

theorem precededAll_cons (ok : List Event → Event → Prop) (seen : List Event) (a : Event)
    (l : List Event) :
    PrecededAll ok seen (a :: l) ↔ ok seen a ∧ PrecededAll ok (seen ++ [a]) l := by
  constructor
  · intro h
    refine ⟨?_, fun pre e post hl => ?_⟩
    · simpa using h [] a l rfl
    · have := h (a :: pre) e post (by rw [hl]; rfl)
      simpa using this
  · rintro ⟨h1, h2⟩ pre e post hl
    rcases pre with _ | ⟨x, pre⟩
    · simp only [List.nil_append, List.cons.injEq] at hl
      rw [← hl.1]
      simpa using h1
    · simp only [List.cons_append, List.cons.injEq] at hl
      have := h2 pre e post hl.2
      rw [← hl.1]
      simpa using this

theorem precededAll_append (ok : List Event → Event → Prop) (seen l1 l2 : List Event) :
    PrecededAll ok seen (l1 ++ l2) ↔ PrecededAll ok seen l1 ∧ PrecededAll ok (seen ++ l1) l2 := by
  induction l1 generalizing seen with
  | nil => simp [precededAll_nil]
  | cons a l ih =>
      rw [List.cons_append, precededAll_cons, precededAll_cons, ih]
      simp [and_assoc]

theorem precededAll_of_forall (ok : List Event → Event → Prop) (seen l : List Event)
    (h : ∀ e ∈ l, ∀ s, ok s e) : PrecededAll ok seen l := by
  intro pre e post hl
  exact h e (by rw [hl]; simp) _

theorem CreateTargetGroupRun.tg_lookedUp {c : Command σ} {r : Except GoError String}
    {evs : List Event} (h : CreateTargetGroupRun c c.conf.AWS.ELBTargetGroupName r evs)
    (seen : List Event)
    (hseen : Event.RetrieveTargetGroupByName c.conf.AWS.ELBTargetGroupName (.ok none) ∈ seen ∨
      Event.RetrieveLoadBalancerByName c.conf.AWS.ELBLoadBalancerName (.ok none) ∈ seen) :
    PrecededAll (LookedUpBefore c) seen evs := by
  cases h <;>
    simp only [precededAll_cons, precededAll_nil, LookedUpBefore, List.mem_append, and_true,
      true_and, and_self] <;>
    first
      | trivial
      | exact hseen.imp Or.inl Or.inl

theorem CreateLoadBalancerRun.lb_lookedUp {c : Command σ} {vpc sgID : String}
    {r : Except GoError String} {evs : List Event}
    (h : CreateLoadBalancerRun c c.conf.AWS.ELBLoadBalancerName vpc sgID r evs)
    (seen : List Event)
    (hseen : Event.RetrieveLoadBalancerByName c.conf.AWS.ELBLoadBalancerName (.ok none) ∈ seen) :
    PrecededAll (LookedUpBefore c) seen evs := by
  cases h <;>
    simp only [precededAll_cons, precededAll_nil, LookedUpBefore, List.mem_append, and_true,
      true_and, and_self] <;>
    first
      | trivial
      | exact Or.inl (Or.inl hseen)
      | exact Or.inl hseen

theorem ListenersRun.ls_lookedUp {c : Command σ} {lbARN tgARN : String} {r : Except GoError Unit}
    {evs : List Event} (h : ListenersRun c lbARN tgARN r evs) (seen : List Event) :
    PrecededAll (LookedUpBefore c) seen evs := by
  refine precededAll_of_forall _ _ _ ?_
  cases h <;>
    simp only [List.forall_mem_cons, List.forall_mem_append, forall_mem_httpListenerCall,
      forall_mem_httpsListenerCall, List.forall_mem_singleton, LookedUpBefore, implies_true,
      and_self, List.not_mem_nil, false_implies]

theorem CreateSecurityGroupRun.sg_lookedUp {c : Command σ} {vpcID name : String} {p q : Nat}
    {r : Except GoError String} {evs : List Event}
    (h : CreateSecurityGroupRun c vpcID p q name r evs) (seen : List Event)
    (hseen : Event.RetrieveSecurityGroupByNameOrID name (.ok none) ∈ seen) :
    PrecededAll (LookedUpBefore c) seen evs := by
  have key : ∀ (l : List Event) (s : List Event), (∀ e ∈ l, ∀ s, LookedUpBefore c s e) →
      PrecededAll (LookedUpBefore c) s l := fun l s hl => precededAll_of_forall _ _ _ hl
  cases h <;> rw [precededAll_cons] <;> refine ⟨hseen, key _ _ ?_⟩ <;>
    simp only [List.forall_mem_cons, List.forall_mem_append, forall_mem_tagAttempts,
      forall_mem_inboundCall, List.forall_mem_singleton, LookedUpBefore, implies_true,
      and_self, List.not_mem_nil, false_implies]

theorem PrepareSecurityGroupRun.psg_lookedUp {c : Command σ} {vpcID : String}
    {r : Except GoError String} {evs : List Event} (h : PrepareSecurityGroupRun c vpcID r evs)
    (seen : List Event) : PrecededAll (LookedUpBefore c) seen evs := by
  cases h with
  | lookupError e msg => simp [precededAll_cons, precededAll_nil, LookedUpBefore]
  | found g => simp [precededAll_cons, precededAll_nil, LookedUpBefore]
  | absent r evs h1 =>
      rw [precededAll_cons]
      exact ⟨trivial, h1.sg_lookedUp _ (by simp)⟩

theorem PrepareRun.run_lookedUp {c : Command σ} {containerName : String} {containerPort : Nat}
    {res : Except GoError ECSLoadBalancer} {tr : List Event}
    (h : PrepareRun c containerName containerPort res tr) :
    PrecededAll (LookedUpBefore c) [] tr := by
  cases h with
  | vpcError e => simp [precededAll_cons, precededAll_nil, LookedUpBefore]
  | lookupError region vpc e msg => simp [precededAll_cons, precededAll_nil, LookedUpBefore]
  | found region vpc lb res evs h1 =>
      rw [precededAll_cons, precededAll_cons]
      refine ⟨trivial, trivial, ?_⟩
      cases h1 with
      | targetGroupLookupError e msg => simp [precededAll_cons, precededAll_nil, LookedUpBefore]
      | listenersError tg e msg => simp [precededAll_cons, precededAll_nil, LookedUpBefore]
      | conflict tg ls h => simp [precededAll_cons, precededAll_nil, LookedUpBefore]
      | bound tg ls h => simp [precededAll_cons, precededAll_nil, LookedUpBefore]
      | targetGroupFailed e evs h2 =>
          rw [precededAll_cons]
          exact ⟨trivial, h2.tg_lookedUp _ (Or.inl (by simp))⟩
      | listeners arn evs1 evs2 r h2 h3 =>
          rw [precededAll_cons, precededAll_append]
          exact ⟨trivial, h2.tg_lookedUp _ (Or.inl (by simp)), h3.ls_lookedUp _⟩
  | absent region vpc res evs h1 =>
      rw [precededAll_cons, precededAll_cons]
      refine ⟨trivial, trivial, ?_⟩
      cases h1 with
      | targetGroupFailed e evs h2 => exact h2.tg_lookedUp _ (Or.inr (by simp))
      | securityGroupFailed arn e evs1 evs2 h2 h3 =>
          rw [precededAll_append]
          exact ⟨h2.tg_lookedUp _ (Or.inr (by simp)), h3.psg_lookedUp _⟩
      | loadBalancerFailed arn sgID e evs1 evs2 evs3 h2 h3 h4 =>
          rw [precededAll_append, precededAll_append]
          exact ⟨h2.tg_lookedUp _ (Or.inr (by simp)), h3.psg_lookedUp _, h4.lb_lookedUp _ (by simp)⟩
      | listeners arn sgID lbARN evs1 evs2 evs3 evs4 r h2 h3 h4 h5 =>
          rw [precededAll_append, precededAll_append, precededAll_append]
          exact ⟨h2.tg_lookedUp _ (Or.inr (by simp)), h3.psg_lookedUp _, h4.lb_lookedUp _ (by simp),
            h5.ls_lookedUp _⟩

end
end Coldbrew

namespace Coldbrew
section
variable {σ : Type}

/-- C7, as amended. Lookup before create: in every run of
`prepareELBLoadBalancer`, a `CreateSecurityGroup` call comes after the lookup of
that security group name returned absent, a `CreateLoadBalancer` call comes
after the lookup of that load balancer name returned absent, and a
`CreateTargetGroup` call comes after the lookup of that target group name
returned absent or, on the path where the load balancer is absent and the
target group is not looked up, after the load balancer lookup returned
absent. -/
theorem lookup_before_create (c : Command σ) (s : σ) (role containerName : String)
    (containerPort : Nat) (pre : List Event) (e : Event) (post : List Event)
    (h : (exec (prepareELBLoadBalancer c role containerName containerPort) s).2.trace =
      pre ++ e :: post) :
    LookedUpBefore c pre e := by
  have := (prepareELBLoadBalancer_exec c s role containerName containerPort).run_lookedUp pre e post h
  simpa using this

end
end Coldbrew

namespace Coldbrew
section
variable {σ : Type}

theorem triple_pure {α : Type} {P : σ → Prop} {Q : Except GoError α → σ → Prop} (a : α)
    (h : ∀ s, P s → Q (.ok a) s) : Triple P (pure a : M σ α) Q :=
  fun _ hw => h _ hw

theorem triple_fail {α : Type} {P : σ → Prop} {Q : Except GoError α → σ → Prop} (e : GoError)
    (h : ∀ s, P s → Q (.error e) s) : Triple P (fail e : M σ α) Q :=
  fun _ hw => h _ hw

theorem triple_bind {α β : Type} {P : σ → Prop} {m : M σ α} {k : α → M σ β}
    (R : Except GoError α → σ → Prop) {Q : Except GoError β → σ → Prop}
    (hm : Triple P m R) (hk : ∀ a, Triple (R (.ok a)) (k a) Q)
    (he : ∀ e s, R (.error e) s → Q (.error e) s) : Triple P (m >>= k) Q := by
  intro w hw
  have h1 := hm w hw
  rw [bind_run]
  rcases hres : m.run w with ⟨r, w1⟩
  rw [hres] at h1
  rcases r with e | a
  · exact he e _ h1
  · exact hk a w1 h1

theorem triple_call_bind {α β : Type} {P : σ → Prop} (f : σ → Except GoError α × σ)
    (ev : Except GoError α → Event) {k : Except GoError α → M σ β}
    (R : Except GoError α → σ → Prop) {Q : Except GoError β → σ → Prop}
    (hf : ∀ s, P s → R (f s).1 (f s).2) (hk : ∀ r, Triple (R r) (k r) Q) :
    Triple P (call f ev >>= k) Q := by
  intro w hw
  rw [bind_run, call_run]
  exact hk _ _ (hf _ hw)

theorem triple_fail_bind {α β : Type} {P : σ → Prop} {Q : Except GoError β → σ → Prop}
    (e : GoError) (k : α → M σ β) (h : ∀ s, P s → Q (.error e) s) :
    Triple P (fail e >>= k) Q :=
  fun _ hw => h _ hw

theorem triple_pure_bind {α β : Type} {P : σ → Prop} {Q : Except GoError β → σ → Prop} (a : α)
    (k : α → M σ β) (h : Triple P (k a) Q) : Triple P (pure a >>= k) Q := h

theorem triple_weaken {α : Type} {P P1 : σ → Prop} {m : M σ α}
    {Q : Except GoError α → σ → Prop} (h : Triple P1 m Q) (hp : ∀ s, P s → P1 s) :
    Triple P m Q :=
  fun w hw => h w (hp _ hw)

theorem triple_retry {P : σ → Prop} (f : σ → Except GoError Unit × σ)
    (ev : Except GoError Unit → Event) (codes : List String) (n : Nat)
    (hf : ∀ s, P s → P (f s).2) :
    Triple P (retryAttempts (call f ev) codes n) (fun _ s => P s) := by
  induction n with
  | zero => exact fun w hw => hf _ hw
  | succ n ih =>
      unfold retryAttempts
      refine triple_call_bind f ev (fun _ s => P s) hf fun r => ?_
      rcases r with e | u
      · simp only []
        split
        · exact ih
        · exact triple_pure _ fun s hs => hs
      · exact triple_pure _ fun s hs => hs

end

/-! ### The calls of the account and its load balancing resources -/

theorem balancing_CreateSecurityGroup {L T Ls} (name d vpc : String) (s : Cloud)
    (h : Cloud.Balancing L T Ls s) : Cloud.Balancing L T Ls (Cloud.CreateSecurityGroup name d vpc s).2 := by
  unfold Cloud.CreateSecurityGroup
  split <;> exact h

theorem balancing_CreateTags {L T Ls} (r : String) (tags : Tags) (s : Cloud)
    (h : Cloud.Balancing L T Ls s) : Cloud.Balancing L T Ls (Cloud.CreateTags r tags s).2 := h

theorem balancing_AddInboundToSecurityGroup {L T Ls} (g p : String) (a b : Nat) (src : String)
    (s : Cloud) (h : Cloud.Balancing L T Ls s) :
    Cloud.Balancing L T Ls (Cloud.AddInboundToSecurityGroup g p a b src s).2 := by
  unfold Cloud.AddInboundToSecurityGroup
  split <;> exact h

theorem balancing_RetrieveSecurityGroupByName {L T Ls} (name : String) (s : Cloud)
    (h : Cloud.Balancing L T Ls s) :
    Cloud.Balancing L T Ls (Cloud.RetrieveSecurityGroupByName name s).2 := h

theorem balancing_RetrieveSecurityGroupByNameOrID {L T Ls} (name : String) (s : Cloud)
    (h : Cloud.Balancing L T Ls s) :
    Cloud.Balancing L T Ls (Cloud.RetrieveSecurityGroupByNameOrID name s).2 := h

/-- The security group step leaves the load balancing resources as they are. -/
theorem cloud_prepareLoadBalancerSecurityGroup (conf : Config) (core : Core) (vpcID : String)
    (L : List CloudLoadBalancer) (T : List CloudTargetGroup) (Ls : List CloudListener) :
    Triple (Cloud.Balancing L T Ls)
      (prepareLoadBalancerSecurityGroup (Cloud.command conf core) vpcID)
      (fun _ s => Cloud.Balancing L T Ls s) := by
  unfold prepareLoadBalancerSecurityGroup
  refine triple_call_bind _ _ (fun _ s => Cloud.Balancing L T Ls s) ?_ fun r => ?_
  · exact fun s hs => balancing_RetrieveSecurityGroupByNameOrID _ s hs
  rcases r with e | _ | g
  · exact triple_fail _ fun s hs => hs
  · simp only []
    unfold createLoadBalancerSecurityGroup RetryOnAWSErrorCode
    refine triple_call_bind _ _ (fun _ s => Cloud.Balancing L T Ls s) ?_ fun r => ?_
    · exact fun s hs => balancing_CreateSecurityGroup _ conf.AWS.ELBSecurityGroupName _ s hs
    rcases r with e | id
    · exact triple_fail _ fun s hs => hs
    simp only []
    refine triple_bind (fun _ s => Cloud.Balancing L T Ls s)
      (triple_retry _ _ _ _ (fun s hs => balancing_CreateTags _ _ s hs)) (fun a => ?_)
      (fun e s hs => hs)
    rcases a with e | u
    · exact triple_fail _ fun s hs => hs
    simp only []
    repeat' first
      | split
      | exact triple_fail _ fun s hs => hs
      | exact triple_pure _ fun s hs => hs
      | exact triple_fail_bind _ _ fun s hs => hs
      | refine triple_pure_bind _ _ ?_
      | refine triple_call_bind _ _ (fun _ s => Cloud.Balancing L T Ls s) ?_ fun r => ?_
      | exact fun s hs => balancing_AddInboundToSecurityGroup _ _ _ _ _ s hs
      | exact fun s hs => balancing_RetrieveSecurityGroupByName _ s hs
  · exact triple_pure _ fun s hs => hs

theorem find?_append_of_none {α : Type} (p : α → Bool) (l : List α) (x : α)
    (h : l.find? p = none) (hx : p x = true) : (l ++ [x]).find? p = some x := by
  simp [List.find?_append, h, hx]

theorem triple_of_eq {σ α : Type} {P : σ → Prop} {m : M σ α}
    {Q : Except GoError α → σ → Prop}
    (h : ∀ s1, P s1 → Triple (fun s => s = s1) m Q) : Triple P m Q :=
  fun w hw => h w.cloud hw w rfl

theorem spec_CreateTargetGroup (name : String) (port : Nat) (protocol vpcID : String)
    (hc : HealthCheckParams) (s : Cloud) :
    (Cloud.CreateTargetGroup name port protocol vpcID hc s).2.loadBalancers = s.loadBalancers ∧
    (Cloud.CreateTargetGroup name port protocol vpcID hc s).2.listeners = s.listeners ∧
    ∀ tg, (Cloud.CreateTargetGroup name port protocol vpcID hc s).1 = .ok tg →
      ∃ x, (Cloud.CreateTargetGroup name port protocol vpcID hc s).2.targetGroups.find?
          (fun t => t.TargetGroupName == name) = some x ∧
        x.TargetGroupArn = tg.TargetGroupArn := by
  unfold Cloud.CreateTargetGroup
  split
  · rename_i x hf
    split
    · refine ⟨rfl, rfl, fun tg htg => ⟨x, hf, ?_⟩⟩
      simp only [Except.ok.injEq] at htg
      rw [← htg]
      rfl
    · exact ⟨rfl, rfl, fun tg htg => by cases htg⟩
  · rename_i hf
    refine ⟨rfl, rfl, fun tg htg => ⟨_, find?_append_of_none _ _ _ hf (by simp), ?_⟩⟩
    simp only [Except.ok.injEq] at htg
    rw [← htg]
    rfl

theorem spec_CreateLoadBalancer (name : String) (facing : Bool) (sgs subnets : List String)
    (s : Cloud) :
    (Cloud.CreateLoadBalancer name facing sgs subnets s).2.targetGroups = s.targetGroups ∧
    (Cloud.CreateLoadBalancer name facing sgs subnets s).2.listeners = s.listeners ∧
    ∀ lb, (Cloud.CreateLoadBalancer name facing sgs subnets s).1 = .ok lb →
      ∃ x, (Cloud.CreateLoadBalancer name facing sgs subnets s).2.loadBalancers.find?
          (fun l => l.LoadBalancerName == name) = some x ∧
        x.LoadBalancerArn = lb.LoadBalancerArn := by
  unfold Cloud.CreateLoadBalancer
  split
  · exact ⟨rfl, rfl, fun lb hlb => by cases hlb⟩
  · rename_i hany
    have hf : s.loadBalancers.find? (fun l => l.LoadBalancerName == name) = none := by
      rw [List.find?_eq_none]
      intro x hx hp
      exact hany (List.any_eq_true.2 ⟨x, hx, hp⟩)
    refine ⟨rfl, rfl, fun lb hlb => ⟨_, find?_append_of_none _ _ _ hf (by simp), ?_⟩⟩
    simp only [Except.ok.injEq] at hlb
    rw [← hlb]
    rfl

theorem spec_CreateListener (lbARN tgARN : String) (port : Nat) (protocol cert : String)
    (s : Cloud) :
    (Cloud.CreateListener lbARN tgARN port protocol cert s).2.loadBalancers = s.loadBalancers ∧
    (Cloud.CreateListener lbARN tgARN port protocol cert s).2.targetGroups = s.targetGroups ∧
    (∀ a b, Cloud.Joined a b s →
      Cloud.Joined a b (Cloud.CreateListener lbARN tgARN port protocol cert s).2) ∧
    ∀ u, (Cloud.CreateListener lbARN tgARN port protocol cert s).1 = .ok u →
      Cloud.Joined lbARN tgARN (Cloud.CreateListener lbARN tgARN port protocol cert s).2 := by
  unfold Cloud.CreateListener
  split
  · exact ⟨rfl, rfl, fun a b h => h, fun u hu => by cases hu⟩
  · refine ⟨rfl, rfl, fun a b h => ?_, fun u _ => ?_⟩
    · obtain ⟨l, hl, h1, h2⟩ := h
      exact ⟨l, by simp [hl], h1, h2⟩
    · exact ⟨{ LoadBalancerArn := lbARN, port := port, protocol := protocol
               certificateARN := cert, DefaultActions := [⟨tgARN⟩] },
        List.mem_append_right _ (List.mem_singleton.2 rfl), rfl, List.mem_singleton.2 rfl⟩

/-- The target group step: with both time expressions accepted, a run that
returns an ARN leaves a target group of that name and ARN, and changes neither
load balancers nor listeners. -/
theorem cloud_createELBTargetGroup (conf : Config) (core : Core) (name : String) (i t : Nat)
    (hi : core.ParseTimeExpression conf.LoadBalancer.HealthCheck.Interval = .ok i)
    (ht : core.ParseTimeExpression conf.LoadBalancer.HealthCheck.Timeout = .ok t)
    (L : List CloudLoadBalancer) (Ls : List CloudListener) :
    Triple (fun s => s.loadBalancers = L ∧ s.listeners = Ls)
      (createELBTargetGroup (Cloud.command conf core) name)
      (fun r s => s.loadBalancers = L ∧ s.listeners = Ls ∧
        ∀ arn, r = .ok arn →
          ∃ x, s.targetGroups.find? (fun t => t.TargetGroupName == name) = some x ∧
            x.TargetGroupArn = arn) := by
  unfold createELBTargetGroup
  refine triple_call_bind _ _ (fun _ s => s.loadBalancers = L ∧ s.listeners = Ls) ?_ fun r => ?_
  · exact fun s hs => hs
  rcases r with e | ⟨region, vpc⟩
  · exact triple_fail _ fun s hs => ⟨hs.1, hs.2, fun arn h => by cases h⟩
  simp only [Cloud.command, hi, ht]
  refine triple_call_bind _ _
    (fun r s => s.loadBalancers = L ∧ s.listeners = Ls ∧
      ∀ tg, r = .ok tg →
        ∃ x, s.targetGroups.find? (fun t => t.TargetGroupName == name) = some x ∧
          x.TargetGroupArn = tg.TargetGroupArn) ?_ fun r => ?_
  · intro s hs
    obtain ⟨h1, h2, h3⟩ := spec_CreateTargetGroup name 80 "HTTP" vpc
      (healthCheckParams conf i t) s
    exact ⟨h1.trans hs.1, h2.trans hs.2, h3⟩
  rcases r with e | tg
  · exact triple_fail _ fun s hs => ⟨hs.1, hs.2.1, fun arn h => by cases h⟩
  simp only []
  refine triple_call_bind _ _
    (fun _ s => s.loadBalancers = L ∧ s.listeners = Ls ∧
      ∃ x, s.targetGroups.find? (fun t => t.TargetGroupName == name) = some x ∧
        x.TargetGroupArn = tg.TargetGroupArn) ?_ fun r => ?_
  · exact fun s hs => ⟨hs.1, hs.2.1, hs.2.2 tg rfl⟩
  rcases r with e | u
  · exact triple_fail _ fun s hs => ⟨hs.1, hs.2.1, fun arn h => by cases h⟩
  · refine triple_pure _ fun s hs => ⟨hs.1, hs.2.1, fun arn h => ?_⟩
    cases h
    exact hs.2.2

/-- The load balancer step: a run that returns an ARN leaves a load balancer
of that name and ARN, and changes neither target groups nor listeners. -/
theorem cloud_createELBLoadBalancer (conf : Config) (core : Core) (name vpcID sgID : String)
    (T : List CloudTargetGroup) (Ls : List CloudListener) :
    Triple (fun s => s.targetGroups = T ∧ s.listeners = Ls)
      (createELBLoadBalancer (Cloud.command conf core) name vpcID sgID)
      (fun r s => s.targetGroups = T ∧ s.listeners = Ls ∧
        ∀ arn, r = .ok arn →
          ∃ x, s.loadBalancers.find? (fun l => l.LoadBalancerName == name) = some x ∧
            x.LoadBalancerArn = arn) := by
  unfold createELBLoadBalancer
  refine triple_call_bind _ _ (fun _ s => s.targetGroups = T ∧ s.listeners = Ls) ?_ fun r => ?_
  · exact fun s hs => hs
  rcases r with e | subnetIDs
  · exact triple_fail _ fun s hs => ⟨hs.1, hs.2, fun arn h => by cases h⟩
  simp only []
  refine triple_call_bind _ _
    (fun r s => s.targetGroups = T ∧ s.listeners = Ls ∧
      ∀ lb, r = .ok lb →
        ∃ x, s.loadBalancers.find? (fun l => l.LoadBalancerName == name) = some x ∧
          x.LoadBalancerArn = lb.LoadBalancerArn) ?_ fun r => ?_
  · intro s hs
    obtain ⟨h1, h2, h3⟩ := spec_CreateLoadBalancer name true [sgID] subnetIDs s
    exact ⟨h1.trans hs.1, h2.trans hs.2, h3⟩
  rcases r with e | lb
  · exact triple_fail _ fun s hs => ⟨hs.1, hs.2.1, fun arn h => by cases h⟩
  simp only []
  refine triple_call_bind _ _
    (fun _ s => s.targetGroups = T ∧ s.listeners = Ls ∧
      ∃ x, s.loadBalancers.find? (fun l => l.LoadBalancerName == name) = some x ∧
        x.LoadBalancerArn = lb.LoadBalancerArn) ?_ fun r => ?_
  · exact fun s hs => ⟨hs.1, hs.2.1, hs.2.2 lb rfl⟩
  rcases r with e | u
  · exact triple_fail _ fun s hs => ⟨hs.1, hs.2.1, fun arn h => by cases h⟩
  · refine triple_pure _ fun s hs => ⟨hs.1, hs.2.1, fun arn h => ?_⟩
    cases h
    exact hs.2.2

/-- The listener steps: when a port is set, a run that returns without error
leaves a listener joining the load balancer to the target group, and changes
neither load balancers nor target groups. -/
theorem cloud_listeners {α : Type} (conf : Config) (core : Core) (lbARN tgARN : String) (a : α)
    (L : List CloudLoadBalancer) (T : List CloudTargetGroup)
    (hports : conf.LoadBalancer.Port > 0 ∨ conf.LoadBalancer.HTTPSPort > 0) :
    Triple (fun s => s.loadBalancers = L ∧ s.targetGroups = T)
      (do
        if (Cloud.command conf core).conf.LoadBalancer.Port > 0 then
          match ← call ((Cloud.command conf core).awsClient.ELB.CreateListener lbARN tgARN
                (Cloud.command conf core).conf.LoadBalancer.Port "HTTP" "")
              (Event.CreateListener lbARN tgARN (Cloud.command conf core).conf.LoadBalancer.Port
                "HTTP" "") with
          | .error err => fail (Errorf ("Failed to create ELB Listener: " ++ err.Error))
          | .ok _ => pure ()
        let httpsPort := (Cloud.command conf core).conf.LoadBalancer.HTTPSPort
        if httpsPort > 0 then
          let certificateARN := (Cloud.command conf core).conf.AWS.ELBCertificateARN
          match ← call ((Cloud.command conf core).awsClient.ELB.CreateListener lbARN tgARN httpsPort
                "HTTPS" certificateARN)
              (Event.CreateListener lbARN tgARN httpsPort "HTTPS" certificateARN) with
          | .error err => fail (Errorf ("Failed to create ELB Listener (HTTPS): " ++ err.Error))
          | .ok _ => pure ()
        pure a)
      (fun r s => ∀ b, r = .ok b →
        b = a ∧ s.loadBalancers = L ∧ s.targetGroups = T ∧ Cloud.Joined lbARN tgARN s) := by
  have hfirst : ∀ (port : Nat) (protocol cert : String) (s : Cloud),
      (s.loadBalancers = L ∧ s.targetGroups = T) →
      ∀ u, (Cloud.CreateListener lbARN tgARN port protocol cert s).1 = .ok u →
        (Cloud.CreateListener lbARN tgARN port protocol cert s).2.loadBalancers = L ∧
        (Cloud.CreateListener lbARN tgARN port protocol cert s).2.targetGroups = T ∧
        Cloud.Joined lbARN tgARN (Cloud.CreateListener lbARN tgARN port protocol cert s).2 := by
    intro port protocol cert s hs u hu
    obtain ⟨h1, h2, -, h4⟩ := spec_CreateListener lbARN tgARN port protocol cert s
    exact ⟨h1.trans hs.1, h2.trans hs.2, h4 u hu⟩
  have hnext : ∀ (port : Nat) (protocol cert : String) (s : Cloud),
      (s.loadBalancers = L ∧ s.targetGroups = T ∧ Cloud.Joined lbARN tgARN s) →
        (Cloud.CreateListener lbARN tgARN port protocol cert s).2.loadBalancers = L ∧
        (Cloud.CreateListener lbARN tgARN port protocol cert s).2.targetGroups = T ∧
        Cloud.Joined lbARN tgARN (Cloud.CreateListener lbARN tgARN port protocol cert s).2 := by
    intro port protocol cert s hs
    obtain ⟨h1, h2, h3, -⟩ := spec_CreateListener lbARN tgARN port protocol cert s
    exact ⟨h1.trans hs.1, h2.trans hs.2.1, h3 _ _ hs.2.2⟩
  simp only [Cloud.command, Cloud.client]
  by_cases h1 : conf.LoadBalancer.Port > 0 <;> by_cases h2 : conf.LoadBalancer.HTTPSPort > 0 <;>
    simp only [h1, h2, if_true, if_false]
  · refine triple_call_bind _ _
      (fun r s => ∀ u, r = .ok u →
        s.loadBalancers = L ∧ s.targetGroups = T ∧ Cloud.Joined lbARN tgARN s) ?_ fun r => ?_
    · exact fun s hs => hfirst _ _ _ s hs
    rcases r with e | u
    · exact triple_fail_bind _ _ fun s _ b hb => by cases hb
    refine triple_pure_bind _ _ ?_
    refine triple_call_bind _ _
      (fun _ s => s.loadBalancers = L ∧ s.targetGroups = T ∧ Cloud.Joined lbARN tgARN s)
      ?_ fun r => ?_
    · exact fun s hs => hnext _ _ _ s (hs u rfl)
    rcases r with e | u2
    · exact triple_fail_bind _ _ fun s _ b hb => by cases hb
    refine triple_pure_bind _ _ ?_
    refine triple_pure _ fun s hs b hb => ?_
    cases hb
    exact ⟨rfl, hs⟩
  · refine triple_call_bind _ _
      (fun r s => ∀ u, r = .ok u →
        s.loadBalancers = L ∧ s.targetGroups = T ∧ Cloud.Joined lbARN tgARN s) ?_ fun r => ?_
    · exact fun s hs => hfirst _ _ _ s hs
    rcases r with e | u
    · exact triple_fail_bind _ _ fun s _ b hb => by cases hb
    refine triple_pure_bind _ _ ?_
    refine triple_pure_bind _ _ ?_
    refine triple_pure _ fun s hs b hb => ?_
    cases hb
    exact ⟨rfl, hs u rfl⟩
  · refine triple_pure_bind _ _ ?_
    refine triple_call_bind _ _
      (fun r s => ∀ u, r = .ok u →
        s.loadBalancers = L ∧ s.targetGroups = T ∧ Cloud.Joined lbARN tgARN s) ?_ fun r => ?_
    · exact fun s hs => hfirst _ _ _ s hs
    rcases r with e | u
    · exact triple_fail_bind _ _ fun s _ b hb => by cases hb
    refine triple_pure_bind _ _ ?_
    refine triple_pure _ fun s hs b hb => ?_
    cases hb
    exact ⟨rfl, hs u rfl⟩
  · rcases hports with h | h
    · exact absurd h h1
    · exact absurd h h2

end Coldbrew

namespace Coldbrew

theorem joined_of_listenerExists (s : Cloud) (lbARN tgARN : String)
    (h : listenerExists tgARN
      ((s.listeners.filter (fun l => l.LoadBalancerArn == lbARN)).map CloudListener.describe)
        = true) :
    Cloud.Joined lbARN tgARN s := by
  obtain ⟨l, hl, a, ha, hq⟩ := (listenerExists_eq_true _ _).1 h
  obtain ⟨cl, hcl, rfl⟩ := List.mem_map.1 hl
  obtain ⟨hmem, hp⟩ := List.mem_filter.1 hcl
  refine ⟨cl, hmem, by simpa using hp, ?_⟩
  have : a = ⟨tgARN⟩ := by
    cases a
    simp only [Action.mk.injEq]
    exact hq
  rw [← this]
  exact ha

/-- A first run on the account that returns a binding leaves the account
settled for that binding, when a port is set and both time expressions are
accepted. -/
theorem cloud_prepareELBLoadBalancer (conf : Config) (core : Core) (role containerName : String)
    (containerPort : Nat) (i t : Nat)
    (hi : core.ParseTimeExpression conf.LoadBalancer.HealthCheck.Interval = .ok i)
    (ht : core.ParseTimeExpression conf.LoadBalancer.HealthCheck.Timeout = .ok t)
    (hports : conf.LoadBalancer.Port > 0 ∨ conf.LoadBalancer.HTTPSPort > 0) (s0 : Cloud) :
    Triple (fun s => s = s0)
      (prepareELBLoadBalancer (Cloud.command conf core) role containerName containerPort)
      (fun r s => ∀ b, r = .ok b →
        b.TaskContainerName = containerName ∧ b.TaskContainerPort = containerPort ∧
          Cloud.Settled conf b s) := by
  unfold prepareELBLoadBalancer
  refine triple_call_bind _ _ (fun _ s => s = s0) ?_ fun r => ?_
  · exact fun s hs => hs
  rcases r with e | ⟨region, vpc⟩
  · exact triple_fail _ fun s _ b hb => by cases hb
  simp only []
  refine triple_call_bind _ _
    (fun r s => s = s0 ∧ r = .ok ((s0.loadBalancers.find?
      (fun l => l.LoadBalancerName == conf.AWS.ELBLoadBalancerName)).map
        CloudLoadBalancer.describe)) ?_ fun r => ?_
  · intro s hs
    subst hs
    exact ⟨rfl, rfl⟩
  rcases r with e | _ | lb
  · exact triple_fail _ fun s _ b hb => by cases hb
  · -- the load balancer is absent
    simp only []
    refine triple_bind
      (fun r s => s.loadBalancers = s0.loadBalancers ∧ s.listeners = s0.listeners ∧
        ∀ arn, r = .ok arn →
          ∃ x, s.targetGroups.find?
              (fun t => t.TargetGroupName == conf.AWS.ELBTargetGroupName) = some x ∧
            x.TargetGroupArn = arn)
      (triple_weaken
        (cloud_createELBTargetGroup conf core _ i t hi ht s0.loadBalancers s0.listeners)
        (fun s hs => by rw [hs.1]; exact ⟨rfl, rfl⟩))
      (fun arn => ?_) (fun e s _ b hb => by cases hb)
    refine triple_of_eq fun s1 hs1 => ?_
    obtain ⟨y, hy1, hy2⟩ := hs1.2.2 arn rfl
    refine triple_bind
      (fun _ s => Cloud.Balancing s1.loadBalancers s1.targetGroups s1.listeners s)
      (triple_weaken
        (cloud_prepareLoadBalancerSecurityGroup conf core vpc s1.loadBalancers s1.targetGroups
          s1.listeners)
        (fun s hs => by rw [hs]; exact ⟨rfl, rfl, rfl⟩))
      (fun sgID => ?_) (fun e s _ b hb => by cases hb)
    refine triple_bind
      (fun r s => s.targetGroups = s1.targetGroups ∧ s.listeners = s1.listeners ∧
        ∀ arn, r = .ok arn →
          ∃ x, s.loadBalancers.find?
              (fun l => l.LoadBalancerName == conf.AWS.ELBLoadBalancerName) = some x ∧
            x.LoadBalancerArn = arn)
      (triple_weaken
        (cloud_createELBLoadBalancer conf core _ vpc sgID s1.targetGroups s1.listeners)
        (fun s hs => ⟨hs.2.1, hs.2.2⟩))
      (fun lbARN => ?_) (fun e s _ b hb => by cases hb)
    refine triple_of_eq fun s2 hs2 => ?_
    obtain ⟨x, hx1, hx2⟩ := hs2.2.2 lbARN rfl
    intro w hw b hb
    obtain ⟨rfl, h1, h2, h3⟩ := cloud_listeners conf core lbARN arn
      (⟨arn, containerName, containerPort⟩ : ECSLoadBalancer) s2.loadBalancers s2.targetGroups
      hports w (by rw [hw]; exact ⟨rfl, rfl⟩) b hb
    refine ⟨rfl, rfl, x, y, ?_, ?_, hy2, ?_⟩
    · exact (congrArg _ h1).trans hx1
    · exact (congrArg _ (h2.trans hs2.1)).trans hy1
    · rw [hx2, hy2]; exact h3
  · -- the load balancer exists
    simp only []
    refine triple_of_eq fun s1 hs1 => ?_
    obtain ⟨rfl, hlb⟩ := hs1
    refine triple_call_bind _ _
      (fun r s => s = s1 ∧ r = .ok ((s1.targetGroups.find?
        (fun t => t.TargetGroupName == conf.AWS.ELBTargetGroupName)).map
          CloudTargetGroup.describe)) ?_ fun r => ?_
    · intro s hs
      subst hs
      exact ⟨rfl, rfl⟩
    have hx : ∃ x, s1.loadBalancers.find?
        (fun l => l.LoadBalancerName == conf.AWS.ELBLoadBalancerName) = some x ∧
        x.LoadBalancerArn = lb.LoadBalancerArn := by
      simp only [Except.ok.injEq] at hlb
      rcases hf : s1.loadBalancers.find?
        (fun l => l.LoadBalancerName == conf.AWS.ELBLoadBalancerName) with _ | x
      · rw [hf] at hlb; cases hlb
      · rw [hf] at hlb
        simp only [Option.map_some', Option.some.injEq] at hlb
        exact ⟨x, hf, by rw [hlb]; rfl⟩
    obtain ⟨x, hx1, hx2⟩ := hx
    rcases r with e | _ | tg
    · exact triple_fail _ fun s _ b hb => by cases hb
    · -- the target group is absent
      simp only []
      refine triple_bind
        (fun r s => s.loadBalancers = s1.loadBalancers ∧ s.listeners = s1.listeners ∧
          ∀ arn, r = .ok arn →
            ∃ x, s.targetGroups.find?
                (fun t => t.TargetGroupName == conf.AWS.ELBTargetGroupName) = some x ∧
              x.TargetGroupArn = arn)
        (triple_weaken
          (cloud_createELBTargetGroup conf core _ i t hi ht s1.loadBalancers s1.listeners)
          (fun s hs => by rw [hs.1]; exact ⟨rfl, rfl⟩))
        (fun arn => ?_) (fun e s _ b hb => by cases hb)
      refine triple_of_eq fun s2 hs2 => ?_
      obtain ⟨y, hy1, hy2⟩ := hs2.2.2 arn rfl
      intro w hw b hb
      obtain ⟨rfl, h1, h2, h3⟩ := cloud_listeners conf core lb.LoadBalancerArn arn
        (⟨arn, containerName, containerPort⟩ : ECSLoadBalancer) s2.loadBalancers
        s2.targetGroups hports w (by rw [hw]; exact ⟨rfl, rfl⟩) b hb
      refine ⟨rfl, rfl, x, y, ?_, ?_, hy2, ?_⟩
      · exact (congrArg _ (h1.trans hs2.1)).trans hx1
      · exact (congrArg _ h2).trans hy1
      · rw [hx2, hy2]; exact h3
    · -- both exist
      simp only []
      refine triple_of_eq fun s2 hs2 => ?_
      obtain ⟨rfl, htg⟩ := hs2
      have hy : ∃ y, s2.targetGroups.find?
          (fun t => t.TargetGroupName == conf.AWS.ELBTargetGroupName) = some y ∧
          y.TargetGroupArn = tg.TargetGroupArn := by
        simp only [Except.ok.injEq] at htg
        rcases hf : s2.targetGroups.find?
          (fun t => t.TargetGroupName == conf.AWS.ELBTargetGroupName) with _ | y
        · rw [hf] at htg; cases htg
        · rw [hf] at htg
          simp only [Option.map_some', Option.some.injEq] at htg
          exact ⟨y, hf, by rw [htg]; rfl⟩
      obtain ⟨y, hy1, hy2⟩ := hy
      refine triple_call_bind _ _
        (fun r s => s = s2 ∧ r = .ok ((s2.listeners.filter
          (fun l => l.LoadBalancerArn == lb.LoadBalancerArn)).map CloudListener.describe))
        ?_ fun r => ?_
      · intro s hs
        subst hs
        exact ⟨rfl, rfl⟩
      rcases r with e | ls
      · exact triple_fail _ fun s _ b hb => by cases hb
      simp only []
      split
      · exact triple_fail _ fun s _ b hb => by cases hb
      · rename_i hex
        refine triple_pure _ fun s hs b hb => ?_
        obtain ⟨rfl, hls⟩ := hs
        cases hb
        simp only [Except.ok.injEq] at hls
        subst hls
        simp only [Bool.not_eq_true, Bool.not_eq_false, Bool.not_eq_true'] at hex
        refine ⟨rfl, rfl, x, y, hx1, hy1, hy2, ?_⟩
        rw [hx2, hy2]
        exact joined_of_listenerExists _ _ _ (by simpa using hex)

end Coldbrew

namespace Coldbrew

theorem listenerExists_of_joined (s : Cloud) (lbARN tgARN : String)
    (h : Cloud.Joined lbARN tgARN s) :
    listenerExists tgARN
      ((s.listeners.filter (fun l => l.LoadBalancerArn == lbARN)).map CloudListener.describe)
        = true := by
  obtain ⟨l, hl, h1, h2⟩ := h
  rw [listenerExists_eq_true]
  refine ⟨l.describe, List.mem_map.2 ⟨l, List.mem_filter.2 ⟨hl, by simpa using h1⟩, rfl⟩,
    ⟨tgARN⟩, h2, rfl⟩

/-- On a settled account a run is the four lookups and returns the binding. -/
theorem cloud_settled_run (conf : Config) (core : Core) (role containerName : String)
    (containerPort : Nat) (b : ECSLoadBalancer) (s : Cloud) (h : Cloud.Settled conf b s)
    (hb1 : b.TaskContainerName = containerName) (hb2 : b.TaskContainerPort = containerPort) :
    (exec (prepareELBLoadBalancer (Cloud.command conf core) role containerName containerPort)
        s).1 = .ok b ∧
      ∀ e ∈ (exec (prepareELBLoadBalancer (Cloud.command conf core) role containerName
          containerPort) s).2.trace, e.isMutating = false := by
  obtain ⟨lb, tg, hlb, htg, harn, hj⟩ := h
  have hex := listenerExists_of_joined s _ _ hj
  have hb : b = ⟨tg.TargetGroupArn, containerName, containerPort⟩ := by
    cases b
    simp only [ECSLoadBalancer.mk.injEq]
    exact ⟨harn.symm, hb1, hb2⟩
  subst hb
  simp [exec, prepareELBLoadBalancer, bind_run, call_run, pure_run, fail_run, Cloud.command,
    Cloud.client, Cloud.GetAWSRegionAndVPCID, Cloud.RetrieveLoadBalancerByName, hlb,
    Cloud.RetrieveTargetGroupByName, htg, Cloud.RetrieveLoadBalancerListeners,
    CloudLoadBalancer.describe, CloudTargetGroup.describe, hex, Event.isMutating]

end Coldbrew

namespace Coldbrew
section
variable {σ : Type}

theorem call_bind_run {α β : Type} (f : σ → Except GoError α × σ) (ev : Except GoError α → Event)
    (k : Except GoError α → M σ β) (w : World σ) :
    (call f ev >>= k).run w =
      (k (f w.cloud).1).run ⟨(f w.cloud).2, w.trace ++ [ev (f w.cloud).1]⟩ := rfl

theorem bind_run_of_ok {α β : Type} {m : M σ α} {k : α → M σ β} {w w1 : World σ} {a : α}
    (h : m.run w = (.ok a, w1)) : (m >>= k).run w = (k a).run w1 := by
  rw [bind_run, h]

theorem retryAttempts_run_of_ok (op : M σ (Except GoError Unit)) (codes : List String) (n : Nat)
    (w w1 : World σ) (h : op.run w = (.ok (.ok ()), w1)) :
    (retryAttempts op codes n).run w = (.ok (.ok ()), w1) := by
  cases n with
  | zero => exact h
  | succ n =>
      unfold retryAttempts
      rw [bind_run_of_ok h]
      rfl

theorem createELBTargetGroup_run_created (c : Command σ) (i t : Nat) (s s' : σ) (vpcID : String)
    (tg : TargetGroup)
    (hi : c.core.ParseTimeExpression c.conf.LoadBalancer.HealthCheck.Interval = .ok i)
    (ht : c.core.ParseTimeExpression c.conf.LoadBalancer.HealthCheck.Timeout = .ok t)
    (h : TargetGroupCreated c i t s s' vpcID tg) :
    ∃ region, ∀ tr,
      (createELBTargetGroup c c.conf.AWS.ELBTargetGroupName).run ⟨s, tr⟩ =
        (.ok tg.TargetGroupArn,
         ⟨s', tr ++
          [Event.GetAWSRegionAndVPCID (.ok (region, vpcID)),
           Event.CreateTargetGroup c.conf.AWS.ELBTargetGroupName 80 "HTTP" vpcID
             (healthCheckParams c.conf i t) (.ok tg),
           Event.ELBCreateTags tg.TargetGroupArn
             (c.core.DefaultTagsForAWSResources c.conf.AWS.ELBTargetGroupName) (.ok ())]⟩) := by
  obtain ⟨region, s1, s2, h1, h2, h3⟩ := h
  refine ⟨region, fun tr => ?_⟩
  simp only [createELBTargetGroup, call_bind_run, h1, hi, ht, h2, h3, pure_run,
    List.append_assoc, List.cons_append, List.nil_append]

theorem createELBLoadBalancer_run_created (c : Command σ) (vpcID securityGroupID : String)
    (s s' : σ) (subnetIDs : List String) (lb : LoadBalancer)
    (h : LoadBalancerCreated c vpcID securityGroupID s s' subnetIDs lb) (tr : List Event) :
    (createELBLoadBalancer c c.conf.AWS.ELBLoadBalancerName vpcID securityGroupID).run ⟨s, tr⟩ =
      (.ok lb.LoadBalancerArn,
       ⟨s', tr ++
        [Event.ListVPCSubnets vpcID (.ok subnetIDs),
         Event.CreateLoadBalancer c.conf.AWS.ELBLoadBalancerName true [securityGroupID] subnetIDs
           (.ok lb),
         Event.ELBCreateTags lb.LoadBalancerArn
           (c.core.DefaultTagsForAWSResources c.conf.AWS.ELBLoadBalancerName) (.ok ())]⟩) := by
  obtain ⟨s1, s2, h1, h2, h3⟩ := h
  simp only [createELBLoadBalancer, call_bind_run, h1, h2, h3, pure_run,
    List.append_assoc, List.cons_append, List.nil_append]

theorem prepareLoadBalancerSecurityGroup_run_found (c : Command σ) (vpcID : String) (s s' : σ)
    (g : SecurityGroup)
    (h : c.awsClient.EC2.RetrieveSecurityGroupByNameOrID c.conf.AWS.ELBSecurityGroupName s =
      (.ok (some g), s')) (tr : List Event) :
    (prepareLoadBalancerSecurityGroup c vpcID).run ⟨s, tr⟩ =
      (.ok g.GroupId,
       ⟨s', tr ++ [Event.RetrieveSecurityGroupByNameOrID c.conf.AWS.ELBSecurityGroupName
          (.ok (some g))]⟩) := by
  simp only [prepareLoadBalancerSecurityGroup, call_bind_run, h, pure_run]

theorem prepareLoadBalancerSecurityGroup_run_created (c : Command σ) (vpcID : String) (s s' : σ)
    (securityGroupID : String) (instances : SecurityGroup)
    (h : SecurityGroupCreated c vpcID s s' securityGroupID instances) (tr : List Event) :
    (prepareLoadBalancerSecurityGroup c vpcID).run ⟨s, tr⟩ =
      (.ok securityGroupID,
       ⟨s', tr ++
        ([Event.RetrieveSecurityGroupByNameOrID c.conf.AWS.ELBSecurityGroupName (.ok none),
          Event.CreateSecurityGroup c.conf.AWS.ELBSecurityGroupName
            c.conf.AWS.ELBSecurityGroupName vpcID (.ok securityGroupID),
          Event.EC2CreateTags securityGroupID
            (c.core.DefaultTagsForAWSResources c.conf.AWS.ELBSecurityGroupName) (.ok ())] ++
         (inboundCall securityGroupID c.conf.LoadBalancer.Port (.ok ()) ++
         (inboundCall securityGroupID c.conf.LoadBalancer.HTTPSPort (.ok ()) ++
          [Event.RetrieveSecurityGroupByName
            (c.core.DefaultInstanceSecurityGroupName c.conf.ClusterName) (.ok (some instances)),
           Event.AddInboundToSecurityGroup instances.GroupId SecurityGroupProtocolTCP 0 65535
            securityGroupID (.ok ())])))⟩) := by
  obtain ⟨s1, s2, s3, s4, s5, s6, h1, h2, h3, h4, h5, h6, h7⟩ := h
  have htag : ∀ tr1, (retryAttempts
      (call (c.awsClient.EC2.CreateTags securityGroupID
          (c.core.DefaultTagsForAWSResources c.conf.AWS.ELBSecurityGroupName))
        (Event.EC2CreateTags securityGroupID
          (c.core.DefaultTagsForAWSResources c.conf.AWS.ELBSecurityGroupName)))
      ["InvalidGroup.NotFound"] (5 * 60 / 1)).run ⟨s2, tr1⟩ =
      (.ok (.ok ()), ⟨s3, tr1 ++ [Event.EC2CreateTags securityGroupID
        (c.core.DefaultTagsForAWSResources c.conf.AWS.ELBSecurityGroupName) (.ok ())]⟩) := by
    intro tr1
    refine retryAttempts_run_of_ok _ _ _ _ _ ?_
    simp only [call_run, h3]
  unfold InboundAdded at h4 h5
  by_cases p1 : c.conf.LoadBalancer.Port > 0 <;> by_cases p2 : c.conf.LoadBalancer.HTTPSPort > 0 <;>
    simp only [p1, p2, if_true, if_false] at h4 h5 <;>
    (try subst h5) <;> (try subst h4) <;>
    simp only [prepareLoadBalancerSecurityGroup, createLoadBalancerSecurityGroup, bind_run,
      call_run, RetryOnAWSErrorCode, pure_run, inboundCall, *, if_true, if_false, List.append_assoc, List.cons_append, List.nil_append,
      List.append_nil]

theorem listeners_run_created {α : Type} (c : Command σ) (lbARN tgARN : String) (a : α)
    (s s' : σ) (h : ListenersCreated c lbARN tgARN s s') (tr : List Event) :
    (do
      if c.conf.LoadBalancer.Port > 0 then
        match ← call (c.awsClient.ELB.CreateListener lbARN tgARN c.conf.LoadBalancer.Port "HTTP" "")
            (Event.CreateListener lbARN tgARN c.conf.LoadBalancer.Port "HTTP" "") with
        | .error err => fail (Errorf ("Failed to create ELB Listener: " ++ err.Error))
        | .ok _ => pure ()
      let httpsPort := c.conf.LoadBalancer.HTTPSPort
      if httpsPort > 0 then
        let certificateARN := c.conf.AWS.ELBCertificateARN
        match ← call (c.awsClient.ELB.CreateListener lbARN tgARN httpsPort "HTTPS" certificateARN)
            (Event.CreateListener lbARN tgARN httpsPort "HTTPS" certificateARN) with
        | .error err => fail (Errorf ("Failed to create ELB Listener (HTTPS): " ++ err.Error))
        | .ok _ => pure ()
      pure a : M σ α).run ⟨s, tr⟩ =
      (.ok a, ⟨s', tr ++ (httpListenerCall c lbARN tgARN (.ok ()) ++
        httpsListenerCall c lbARN tgARN (.ok ()))⟩) := by
  obtain ⟨s1, h1, h2⟩ := h
  by_cases p1 : c.conf.LoadBalancer.Port > 0 <;> by_cases p2 : c.conf.LoadBalancer.HTTPSPort > 0 <;>
    simp only [p1, p2, if_true, if_false] at h1 h2 <;>
    (try subst h2) <;> (try subst h1) <;>
    simp only [bind_run, call_run, pure_run, httpListenerCall, httpsListenerCall, *, if_true,
      if_false, List.append_assoc, List.cons_append, List.nil_append, List.append_nil]

/-- The run of `prepareELBLoadBalancer` when the load balancer is found, the
target group is not, and the client answers every call with success. -/
theorem prepareELBLoadBalancer_run_attach (c : Command σ) (s s1 s2 s3 s4 s5 : σ)
    (role containerName : String) (containerPort : Nat) (i t : Nat) (region vpcID vpcID2 : String)
    (lb : LoadBalancer) (tg : TargetGroup)
    (hi : c.core.ParseTimeExpression c.conf.LoadBalancer.HealthCheck.Interval = .ok i)
    (ht : c.core.ParseTimeExpression c.conf.LoadBalancer.HealthCheck.Timeout = .ok t)
    (hreg : c.GetAWSRegionAndVPCID s = (.ok (region, vpcID), s1))
    (hlb : c.awsClient.ELB.RetrieveLoadBalancerByName c.conf.AWS.ELBLoadBalancerName s1 =
      (.ok (some lb), s2))
    (htg : c.awsClient.ELB.RetrieveTargetGroupByName c.conf.AWS.ELBTargetGroupName s2 =
      (.ok none, s3))
    (hctg : TargetGroupCreated c i t s3 s4 vpcID2 tg)
    (hls : ListenersCreated c lb.LoadBalancerArn tg.TargetGroupArn s4 s5) :
    ∃ region2,
      exec (prepareELBLoadBalancer c role containerName containerPort) s =
        (.ok { ELBTargetGroupARN := tg.TargetGroupArn
               TaskContainerName := containerName
               TaskContainerPort := containerPort },
         ⟨s5,
          [Event.GetAWSRegionAndVPCID (.ok (region, vpcID)),
           Event.RetrieveLoadBalancerByName c.conf.AWS.ELBLoadBalancerName (.ok (some lb)),
           Event.RetrieveTargetGroupByName c.conf.AWS.ELBTargetGroupName (.ok none),
           Event.GetAWSRegionAndVPCID (.ok (region2, vpcID2)),
           Event.CreateTargetGroup c.conf.AWS.ELBTargetGroupName 80 "HTTP" vpcID2
             (healthCheckParams c.conf i t) (.ok tg),
           Event.ELBCreateTags tg.TargetGroupArn
             (c.core.DefaultTagsForAWSResources c.conf.AWS.ELBTargetGroupName) (.ok ())] ++
          (httpListenerCall c lb.LoadBalancerArn tg.TargetGroupArn (.ok ()) ++
           httpsListenerCall c lb.LoadBalancerArn tg.TargetGroupArn (.ok ()))⟩) := by
  obtain ⟨region2, h1⟩ := createELBTargetGroup_run_created c i t s3 s4 vpcID2 tg hi ht hctg
  refine ⟨region2, ?_⟩
  simp only [exec, prepareELBLoadBalancer, call_bind_run, hreg, hlb, htg, List.nil_append,
    List.cons_append]
  rw [bind_run_of_ok (h1 _)]
  exact listeners_run_created c lb.LoadBalancerArn tg.TargetGroupArn _ s4 s5 hls _

/-- The run of `prepareELBLoadBalancer` when the load balancer is not found
and the client answers every call with success, `evs` being the calls of
`prepareLoadBalancerSecurityGroup`. -/
theorem prepareELBLoadBalancer_run_absent (c : Command σ) (s s1 s2 s3 s4 s5 s6 : σ)
    (role containerName : String) (containerPort : Nat) (i t : Nat) (region vpcID vpcID2 : String)
    (tg : TargetGroup) (securityGroupID : String) (evs : List Event) (subnetIDs : List String)
    (lb : LoadBalancer)
    (hi : c.core.ParseTimeExpression c.conf.LoadBalancer.HealthCheck.Interval = .ok i)
    (ht : c.core.ParseTimeExpression c.conf.LoadBalancer.HealthCheck.Timeout = .ok t)
    (hreg : c.GetAWSRegionAndVPCID s = (.ok (region, vpcID), s1))
    (hlb : c.awsClient.ELB.RetrieveLoadBalancerByName c.conf.AWS.ELBLoadBalancerName s1 =
      (.ok none, s2))
    (hctg : TargetGroupCreated c i t s2 s3 vpcID2 tg)
    (hsg : ∀ tr, (prepareLoadBalancerSecurityGroup c vpcID).run ⟨s3, tr⟩ =
      (.ok securityGroupID, ⟨s4, tr ++ evs⟩))
    (hclb : LoadBalancerCreated c vpcID securityGroupID s4 s5 subnetIDs lb)
    (hls : ListenersCreated c lb.LoadBalancerArn tg.TargetGroupArn s5 s6) :
    ∃ region2,
      exec (prepareELBLoadBalancer c role containerName containerPort) s =
        (.ok { ELBTargetGroupARN := tg.TargetGroupArn
               TaskContainerName := containerName
               TaskContainerPort := containerPort },
         ⟨s6,
          [Event.GetAWSRegionAndVPCID (.ok (region, vpcID)),
           Event.RetrieveLoadBalancerByName c.conf.AWS.ELBLoadBalancerName (.ok none),
           Event.GetAWSRegionAndVPCID (.ok (region2, vpcID2)),
           Event.CreateTargetGroup c.conf.AWS.ELBTargetGroupName 80 "HTTP" vpcID2
             (healthCheckParams c.conf i t) (.ok tg),
           Event.ELBCreateTags tg.TargetGroupArn
             (c.core.DefaultTagsForAWSResources c.conf.AWS.ELBTargetGroupName) (.ok ())] ++
          (evs ++
          ([Event.ListVPCSubnets vpcID (.ok subnetIDs),
            Event.CreateLoadBalancer c.conf.AWS.ELBLoadBalancerName true [securityGroupID]
              subnetIDs (.ok lb),
            Event.ELBCreateTags lb.LoadBalancerArn
              (c.core.DefaultTagsForAWSResources c.conf.AWS.ELBLoadBalancerName) (.ok ())] ++
          (httpListenerCall c lb.LoadBalancerArn tg.TargetGroupArn (.ok ()) ++
           httpsListenerCall c lb.LoadBalancerArn tg.TargetGroupArn (.ok ()))))⟩) := by
  obtain ⟨region2, h1⟩ := createELBTargetGroup_run_created c i t s2 s3 vpcID2 tg hi ht hctg
  refine ⟨region2, ?_⟩
  simp only [exec, prepareELBLoadBalancer, call_bind_run, hreg, hlb, List.nil_append,
    List.cons_append]
  rw [bind_run_of_ok (h1 _), bind_run_of_ok (hsg _),
    bind_run_of_ok (createELBLoadBalancer_run_created c vpcID securityGroupID s4 s5 subnetIDs lb
      hclb _)]
  have := listeners_run_created c lb.LoadBalancerArn tg.TargetGroupArn
    ({ ELBTargetGroupARN := tg.TargetGroupArn, TaskContainerName := containerName
       TaskContainerPort := containerPort } : ECSLoadBalancer) s5 s6 hls
  refine (this _).trans ?_
  simp only [List.append_assoc, List.cons_append, List.nil_append]

end
end Coldbrew

namespace Coldbrew
section
variable {σ : Type}

/-- C1. Conflict detection, when no listener has a default action whose target
group ARN is that of the target group.  First, a run in which the load
balancer lookup and the target group lookup both return an existing resource
and the listeners are retrieved returns the conflict error and holds no call
that creates or changes a resource.  Second, from every client state from
which the region lookup succeeds, the two lookups return an existing resource
and the listeners are retrieved, `prepareELBLoadBalancer` returns the conflict
error, its calls are these four lookups and no other, and the client is left
in the state the lookups left it in. -/
theorem conflict_detection (c : Command σ) (s : σ) (role containerName : String)
    (containerPort : Nat) (lb : LoadBalancer) (tg : TargetGroup) (ls : List Listener)
    (hno : ∀ l ∈ ls, ∀ a ∈ l.DefaultActions, a.TargetGroupArn ≠ tg.TargetGroupArn) :
    (Event.RetrieveLoadBalancerByName c.conf.AWS.ELBLoadBalancerName (.ok (some lb)) ∈
        (exec (prepareELBLoadBalancer c role containerName containerPort) s).2.trace →
      Event.RetrieveTargetGroupByName c.conf.AWS.ELBTargetGroupName (.ok (some tg)) ∈
        (exec (prepareELBLoadBalancer c role containerName containerPort) s).2.trace →
      Event.RetrieveLoadBalancerListeners lb.LoadBalancerArn (.ok ls) ∈
        (exec (prepareELBLoadBalancer c role containerName containerPort) s).2.trace →
      (exec (prepareELBLoadBalancer c role containerName containerPort) s).1
          = .error (conflictError c) ∧
        ∀ e ∈ (exec (prepareELBLoadBalancer c role containerName containerPort) s).2.trace,
          e.isMutating = false) ∧
    (∀ (s1 s2 s3 s4 : σ) (region vpcID : String),
      c.GetAWSRegionAndVPCID s = (.ok (region, vpcID), s1) →
      c.awsClient.ELB.RetrieveLoadBalancerByName c.conf.AWS.ELBLoadBalancerName s1 =
        (.ok (some lb), s2) →
      c.awsClient.ELB.RetrieveTargetGroupByName c.conf.AWS.ELBTargetGroupName s2 =
        (.ok (some tg), s3) →
      c.awsClient.ELB.RetrieveLoadBalancerListeners lb.LoadBalancerArn s3 = (.ok ls, s4) →
      exec (prepareELBLoadBalancer c role containerName containerPort) s =
        (.error (conflictError c),
         ⟨s4, [Event.GetAWSRegionAndVPCID (.ok (region, vpcID)),
               Event.RetrieveLoadBalancerByName c.conf.AWS.ELBLoadBalancerName (.ok (some lb)),
               Event.RetrieveTargetGroupByName c.conf.AWS.ELBTargetGroupName (.ok (some tg)),
               Event.RetrieveLoadBalancerListeners lb.LoadBalancerArn (.ok ls)]⟩)) := by
  have hex : listenerExists tg.TargetGroupArn ls = false := by
    cases hx : listenerExists tg.TargetGroupArn ls
    · rfl
    · obtain ⟨l, hl, a, ha, hq⟩ := (listenerExists_eq_true _ _).1 hx
      exact absurd hq (hno l hl a ha)
  refine ⟨fun hlb htg hls => ?_, fun s1 s2 s3 s4 region vpcID hreg hlb htg hls => ?_⟩
  · obtain ⟨region, vpc, evs, htr, hrun⟩ :=
      (prepareELBLoadBalancer_exec c s role containerName containerPort).run_of_found hlb
    rw [htr] at htg hls ⊢
    have htg1 : Event.RetrieveTargetGroupByName c.conf.AWS.ELBTargetGroupName (.ok (some tg)) ∈
        evs := by simpa using htg
    obtain ⟨r, hevs, hres⟩ := hrun.attach_of_found htg1
    subst hevs
    have hr : r = .ok ls := by simpa [eq_comm] using hls
    refine ⟨?_, ?_⟩
    · rw [hres ls hr, hex]
      rfl
    · simp [Event.isMutating]
  · simp only [exec, prepareELBLoadBalancer, call_bind_run, hreg, hlb, htg, hls, hex, fail_run,
      List.nil_append, List.cons_append, Bool.not_false, if_true, conflictError]

/-- Witness of C1 on an account where both resources exist without a listener. -/
theorem conflict_detection_witness :
    (Event.RetrieveLoadBalancerByName "svc-lb" (.ok (some exampleLoadBalancer)) ∈
        (exec (prepareELBLoadBalancer (Cloud.command exampleConfig exampleCore) "role" "web" 8080)
          unboundCloud).2.trace ∧
      Event.RetrieveTargetGroupByName "svc-tg" (.ok (some exampleTargetGroup)) ∈
        (exec (prepareELBLoadBalancer (Cloud.command exampleConfig exampleCore) "role" "web" 8080)
          unboundCloud).2.trace ∧
      Event.RetrieveLoadBalancerListeners exampleLoadBalancer.LoadBalancerArn (.ok []) ∈
        (exec (prepareELBLoadBalancer (Cloud.command exampleConfig exampleCore) "role" "web" 8080)
          unboundCloud).2.trace) ∧
    ((exec (prepareELBLoadBalancer (Cloud.command exampleConfig exampleCore) "role" "web" 8080)
          unboundCloud).1 = .error (conflictError (Cloud.command exampleConfig exampleCore)) ∧
      ∀ e ∈ (exec (prepareELBLoadBalancer (Cloud.command exampleConfig exampleCore) "role" "web"
          8080) unboundCloud).2.trace, e.isMutating = false) ∧
    (Cloud.GetAWSRegionAndVPCID unboundCloud = (.ok ("us-west-2", "vpc-1"), unboundCloud) ∧
      Cloud.RetrieveLoadBalancerByName "svc-lb" unboundCloud =
        (.ok (some exampleLoadBalancer), unboundCloud) ∧
      Cloud.RetrieveTargetGroupByName "svc-tg" unboundCloud =
        (.ok (some exampleTargetGroup), unboundCloud) ∧
      Cloud.RetrieveLoadBalancerListeners exampleLoadBalancer.LoadBalancerArn unboundCloud =
        (.ok [], unboundCloud)) ∧
    exec (prepareELBLoadBalancer (Cloud.command exampleConfig exampleCore) "role" "web" 8080)
        unboundCloud =
      (.error (conflictError (Cloud.command exampleConfig exampleCore)),
       ⟨unboundCloud,
        [Event.GetAWSRegionAndVPCID (.ok ("us-west-2", "vpc-1")),
         Event.RetrieveLoadBalancerByName "svc-lb" (.ok (some exampleLoadBalancer)),
         Event.RetrieveTargetGroupByName "svc-tg" (.ok (some exampleTargetGroup)),
         Event.RetrieveLoadBalancerListeners "arn:aws:elasticloadbalancing:loadbalancer/svc-lb"
           (.ok [])]⟩) :=
  ⟨by decide,
   (conflict_detection (Cloud.command exampleConfig exampleCore) unboundCloud "role" "web" 8080
    exampleLoadBalancer exampleTargetGroup [] (by decide)).1 (by decide) (by decide) (by decide),
   ⟨by decide, by decide, by decide, by decide⟩,
   (conflict_detection (Cloud.command exampleConfig exampleCore) unboundCloud "role" "web" 8080
    exampleLoadBalancer exampleTargetGroup [] (by decide)).2 unboundCloud unboundCloud
    unboundCloud unboundCloud "us-west-2" "vpc-1" (by decide) (by decide) (by decide)
    (by decide)⟩

/-- C9. Read-only success path: in every client state from which the load
balancer lookup and the target group lookup return an existing resource and
the listeners retrieved hold one whose default action has the ARN of that
target group, `prepareELBLoadBalancer` returns without error the binding made
of the ARN of the existing target group and of the container name and port it
was given; its calls are the region lookup and these three lookups, none of
them mutating, and the client is left in the state the lookups left it in. -/
theorem bound_is_read_only (c : Command σ) (s s1 s2 s3 s4 : σ) (role containerName : String)
    (containerPort : Nat) (region vpcID : String) (lb : LoadBalancer) (tg : TargetGroup)
    (ls : List Listener)
    (hreg : c.GetAWSRegionAndVPCID s = (.ok (region, vpcID), s1))
    (hlb : c.awsClient.ELB.RetrieveLoadBalancerByName c.conf.AWS.ELBLoadBalancerName s1 =
      (.ok (some lb), s2))
    (htg : c.awsClient.ELB.RetrieveTargetGroupByName c.conf.AWS.ELBTargetGroupName s2 =
      (.ok (some tg), s3))
    (hls : c.awsClient.ELB.RetrieveLoadBalancerListeners lb.LoadBalancerArn s3 = (.ok ls, s4))
    (hyes : ∃ l ∈ ls, ∃ a ∈ l.DefaultActions, a.TargetGroupArn = tg.TargetGroupArn) :
    exec (prepareELBLoadBalancer c role containerName containerPort) s =
        (.ok { ELBTargetGroupARN := tg.TargetGroupArn
               TaskContainerName := containerName
               TaskContainerPort := containerPort },
         ⟨s4, [Event.GetAWSRegionAndVPCID (.ok (region, vpcID)),
               Event.RetrieveLoadBalancerByName c.conf.AWS.ELBLoadBalancerName (.ok (some lb)),
               Event.RetrieveTargetGroupByName c.conf.AWS.ELBTargetGroupName (.ok (some tg)),
               Event.RetrieveLoadBalancerListeners lb.LoadBalancerArn (.ok ls)]⟩) ∧
      ∀ e ∈ (exec (prepareELBLoadBalancer c role containerName containerPort) s).2.trace,
        e.isMutating = false := by
  have hex := (listenerExists_eq_true tg.TargetGroupArn ls).2 hyes
  have hrun : exec (prepareELBLoadBalancer c role containerName containerPort) s =
      (.ok { ELBTargetGroupARN := tg.TargetGroupArn
             TaskContainerName := containerName
             TaskContainerPort := containerPort },
       ⟨s4, [Event.GetAWSRegionAndVPCID (.ok (region, vpcID)),
             Event.RetrieveLoadBalancerByName c.conf.AWS.ELBLoadBalancerName (.ok (some lb)),
             Event.RetrieveTargetGroupByName c.conf.AWS.ELBTargetGroupName (.ok (some tg)),
             Event.RetrieveLoadBalancerListeners lb.LoadBalancerArn (.ok ls)]⟩) := by
    simp only [exec, prepareELBLoadBalancer, call_bind_run, hreg, hlb, htg, hls, hex, pure_run,
      List.nil_append, List.cons_append, Bool.not_true, Bool.false_eq_true, if_false]
  refine ⟨hrun, ?_⟩
  rw [hrun]
  simp [Event.isMutating]

/-- Witness of C9 on an account where a listener joins the two resources, with
the configuration of the scenario and with the one that sets no port. -/
theorem bound_is_read_only_witness :
    (Cloud.GetAWSRegionAndVPCID boundCloud = (.ok ("us-west-2", "vpc-1"), boundCloud) ∧
      Cloud.RetrieveLoadBalancerByName "svc-lb" boundCloud =
        (.ok (some exampleLoadBalancer), boundCloud) ∧
      Cloud.RetrieveTargetGroupByName "svc-tg" boundCloud =
        (.ok (some exampleTargetGroup), boundCloud) ∧
      Cloud.RetrieveLoadBalancerListeners exampleLoadBalancer.LoadBalancerArn boundCloud =
        (.ok [exampleListener], boundCloud) ∧
      ∃ l ∈ [exampleListener], ∃ a ∈ l.DefaultActions,
        a.TargetGroupArn = exampleTargetGroup.TargetGroupArn) ∧
    (exec (prepareELBLoadBalancer (Cloud.command exampleConfig exampleCore) "role" "web" 8080)
        boundCloud =
      (.ok { ELBTargetGroupARN := "arn:aws:elasticloadbalancing:targetgroup/svc-tg"
             TaskContainerName := "web"
             TaskContainerPort := 8080 },
       ⟨boundCloud,
        [Event.GetAWSRegionAndVPCID (.ok ("us-west-2", "vpc-1")),
         Event.RetrieveLoadBalancerByName "svc-lb" (.ok (some exampleLoadBalancer)),
         Event.RetrieveTargetGroupByName "svc-tg" (.ok (some exampleTargetGroup)),
         Event.RetrieveLoadBalancerListeners "arn:aws:elasticloadbalancing:loadbalancer/svc-lb"
           (.ok [exampleListener])]⟩) ∧
      ∀ e ∈ (exec (prepareELBLoadBalancer (Cloud.command exampleConfig exampleCore) "role" "web"
          8080) boundCloud).2.trace, e.isMutating = false) ∧
    (exec (prepareELBLoadBalancer (Cloud.command noPortConfig exampleCore) "role" "web" 8080)
        boundCloud).1 =
      .ok { ELBTargetGroupARN := "arn:aws:elasticloadbalancing:targetgroup/svc-tg"
            TaskContainerName := "web"
            TaskContainerPort := 8080 } :=
  ⟨⟨by decide, by decide, by decide, by decide, by decide⟩,
   bound_is_read_only (Cloud.command exampleConfig exampleCore) boundCloud boundCloud boundCloud
    boundCloud boundCloud "role" "web" 8080 "us-west-2" "vpc-1" exampleLoadBalancer
    exampleTargetGroup [exampleListener] (by decide) (by decide) (by decide) (by decide)
    (by decide),
   congrArg Prod.fst (bound_is_read_only (Cloud.command noPortConfig exampleCore) boundCloud
    boundCloud boundCloud boundCloud boundCloud "role" "web" 8080 "us-west-2" "vpc-1"
    exampleLoadBalancer exampleTargetGroup [exampleListener] (by decide) (by decide) (by decide)
    (by decide) (by decide)).1⟩


/-- C10. `prepareLoadBalancerSecurityGroup` on an existing group: when the
lookup returns an existing group, the function returns the id of that group
without error and the run holds no mutating call (no `CreateSecurityGroup`,
`CreateTags`, `AddInboundToSecurityGroup`); a `CreateSecurityGroup` call
only comes after the lookup has returned absent; and from every client state
from which the lookup returns an existing group, the function returns the id
of that group, the lookup is its one call, and the client is left in the state
the lookup left it in. -/
theorem existing_security_group_reused (c : Command σ) (s : σ) (vpcID : String) :
    (∀ g, Event.RetrieveSecurityGroupByNameOrID c.conf.AWS.ELBSecurityGroupName (.ok (some g)) ∈
        (exec (prepareLoadBalancerSecurityGroup c vpcID) s).2.trace →
      (exec (prepareLoadBalancerSecurityGroup c vpcID) s).1 = .ok g.GroupId ∧
        ∀ e ∈ (exec (prepareLoadBalancerSecurityGroup c vpcID) s).2.trace,
          e.isMutating = false) ∧
    (∀ pre e post, (exec (prepareLoadBalancerSecurityGroup c vpcID) s).2.trace = pre ++ e :: post →
      e.isCreateSecurityGroup = true →
      Event.RetrieveSecurityGroupByNameOrID c.conf.AWS.ELBSecurityGroupName (.ok none) ∈ pre) ∧
    (∀ (s' : σ) (g : SecurityGroup),
      c.awsClient.EC2.RetrieveSecurityGroupByNameOrID c.conf.AWS.ELBSecurityGroupName s =
        (.ok (some g), s') →
      exec (prepareLoadBalancerSecurityGroup c vpcID) s =
        (.ok g.GroupId,
         ⟨s', [Event.RetrieveSecurityGroupByNameOrID c.conf.AWS.ELBSecurityGroupName
            (.ok (some g))]⟩)) := by
  refine and_assoc.1 ⟨?_, fun s' g hg =>
    prepareLoadBalancerSecurityGroup_run_found c vpcID s s' g hg []⟩
  obtain ⟨evs, h1, h2⟩ := prepareLoadBalancerSecurityGroup_runs c vpcID ⟨s, []⟩
  simp only [List.nil_append] at h1
  unfold exec
  rw [h1]
  generalize ((prepareLoadBalancerSecurityGroup c vpcID).run ⟨s, []⟩).1 = res at h2
  cases h2 with
  | lookupError e msg =>
      refine ⟨fun g hg => by simp at hg, fun pre e1 post h he => ?_⟩
      rcases pre with _ | ⟨x, pre⟩
      · simp only [List.nil_append, List.cons.injEq] at h
        rw [← h.1] at he
        cases he
      · simp at h
  | found g1 =>
      refine ⟨fun g hg => ?_, fun pre e1 post h he => ?_⟩
      · simp only [List.mem_singleton, Event.RetrieveSecurityGroupByNameOrID.injEq, true_and,
          Except.ok.injEq, Option.some.injEq] at hg
        subst hg
        simp [Event.isMutating]
      · rcases pre with _ | ⟨x, pre⟩
        · simp only [List.nil_append, List.cons.injEq] at h
          rw [← h.1] at he
          cases he
        · simp at h
  | absent r evs1 h3 =>
      refine ⟨fun g hg => ?_, fun pre e1 post h he => ?_⟩
      · simp only [List.mem_cons, Event.RetrieveSecurityGroupByNameOrID.injEq, true_and,
          Except.ok.injEq, false_or] at hg
        have hk : ∀ x ∈ evs1, ∀ n r, x ≠ Event.RetrieveSecurityGroupByNameOrID n r := by
          cases h3 <;>
            simp only [List.forall_mem_cons, List.forall_mem_append, forall_mem_tagAttempts,
              forall_mem_inboundCall, List.forall_mem_singleton, ne_eq, not_false_eq_true,
              implies_true, and_self, List.not_mem_nil, false_implies, reduceCtorEq]
        rcases hg with hg | hg
        · cases hg
        · exact absurd rfl (hk _ hg _ _)
      · rcases pre with _ | ⟨x, pre⟩
        · simp only [List.nil_append, List.cons.injEq] at h
          rw [← h.1] at he
          cases he
        · simp only [List.cons_append, List.cons.injEq] at h
          rw [← h.1]
          exact List.mem_cons_self _ _

/-- Witness of C10 on an account holding the security group already. -/
theorem existing_security_group_reused_witness :
    (Event.RetrieveSecurityGroupByNameOrID "svc-sg" (.ok (some exampleSecurityGroup)) ∈
        (exec (prepareLoadBalancerSecurityGroup (Cloud.command exampleConfig exampleCore) "vpc-1")
          securedCloud).2.trace ∧
      ((exec (prepareLoadBalancerSecurityGroup (Cloud.command exampleConfig exampleCore) "vpc-1")
          securedCloud).1 = .ok "sg-svc-sg" ∧
        ∀ e ∈ (exec (prepareLoadBalancerSecurityGroup (Cloud.command exampleConfig exampleCore)
            "vpc-1") securedCloud).2.trace, e.isMutating = false)) ∧
    Cloud.RetrieveSecurityGroupByNameOrID "svc-sg" securedCloud =
      (.ok (some exampleSecurityGroup), securedCloud) ∧
    exec (prepareLoadBalancerSecurityGroup (Cloud.command exampleConfig exampleCore) "vpc-1")
        securedCloud =
      (.ok "sg-svc-sg",
       ⟨securedCloud,
        [Event.RetrieveSecurityGroupByNameOrID "svc-sg" (.ok (some exampleSecurityGroup))]⟩) :=
  ⟨⟨by decide,
    (existing_security_group_reused (Cloud.command exampleConfig exampleCore) securedCloud
      "vpc-1").1 exampleSecurityGroup (by decide)⟩,
   by decide,
   (existing_security_group_reused (Cloud.command exampleConfig exampleCore) securedCloud
      "vpc-1").2.2 securedCloud exampleSecurityGroup (by decide)⟩

end
end Coldbrew

namespace Coldbrew
section
variable {σ : Type}

/-- C3. Conditional listeners: in both creating paths (the load balancer
found with the target group absent, or the load balancer absent), from every
client state in which the client answers every call of the run with success
(both time expressions being accepted), `prepareELBLoadBalancer` returns the
binding of the target group created in the run, and its `CreateListener` calls
are: one for HTTP (protocol "HTTP", the HTTP port, no certificate) if the HTTP
port is set, then one for HTTPS (protocol "HTTPS", the HTTPS port, the
configured certificate) if the HTTPS port is set; their number is the number
of ports set; each carries the ARN of the load balancer (found or created)
and the ARN of the target group created in the run. -/
theorem conditional_listeners (c : Command σ) (s s1 s2 s3 : σ) (role containerName : String)
    (containerPort : Nat) (i t : Nat) (region vpcID vpcID2 : String) (lb : LoadBalancer)
    (tg : TargetGroup)
    (hi : c.core.ParseTimeExpression c.conf.LoadBalancer.HealthCheck.Interval = .ok i)
    (ht : c.core.ParseTimeExpression c.conf.LoadBalancer.HealthCheck.Timeout = .ok t)
    (hreg : c.GetAWSRegionAndVPCID s = (.ok (region, vpcID), s1))
    (hpath :
      (∃ a b,
        c.awsClient.ELB.RetrieveLoadBalancerByName c.conf.AWS.ELBLoadBalancerName s1 =
          (.ok (some lb), a) ∧
        c.awsClient.ELB.RetrieveTargetGroupByName c.conf.AWS.ELBTargetGroupName a =
          (.ok none, b) ∧
        TargetGroupCreated c i t b s2 vpcID2 tg) ∨
      (∃ a b d securityGroupID subnetIDs,
        c.awsClient.ELB.RetrieveLoadBalancerByName c.conf.AWS.ELBLoadBalancerName s1 =
          (.ok none, a) ∧
        TargetGroupCreated c i t a b vpcID2 tg ∧
        SecurityGroupEnsured c vpcID b d securityGroupID ∧
        LoadBalancerCreated c vpcID securityGroupID d s2 subnetIDs lb))
    (hls : ListenersCreated c lb.LoadBalancerArn tg.TargetGroupArn s2 s3) :
    (exec (prepareELBLoadBalancer c role containerName containerPort) s).1 =
        .ok { ELBTargetGroupARN := tg.TargetGroupArn
              TaskContainerName := containerName
              TaskContainerPort := containerPort } ∧
      (exec (prepareELBLoadBalancer c role containerName containerPort) s).2.cloud = s3 ∧
      Event.CreateTargetGroup c.conf.AWS.ELBTargetGroupName 80 "HTTP" vpcID2
          (healthCheckParams c.conf i t) (.ok tg) ∈
        (exec (prepareELBLoadBalancer c role containerName containerPort) s).2.trace ∧
      (exec (prepareELBLoadBalancer c role containerName containerPort) s).2.trace.filter
          Event.isCreateListener =
        (if c.conf.LoadBalancer.Port > 0 then
          [Event.CreateListener lb.LoadBalancerArn tg.TargetGroupArn c.conf.LoadBalancer.Port
            "HTTP" "" (.ok ())]
         else []) ++
        (if c.conf.LoadBalancer.HTTPSPort > 0 then
          [Event.CreateListener lb.LoadBalancerArn tg.TargetGroupArn c.conf.LoadBalancer.HTTPSPort
            "HTTPS" c.conf.AWS.ELBCertificateARN (.ok ())]
         else []) ∧
      ((exec (prepareELBLoadBalancer c role containerName containerPort) s).2.trace.filter
          Event.isCreateListener).length =
        (if c.conf.LoadBalancer.Port > 0 then 1 else 0) +
          (if c.conf.LoadBalancer.HTTPSPort > 0 then 1 else 0) := by
  have key : ∃ evs, exec (prepareELBLoadBalancer c role containerName containerPort) s =
      (.ok { ELBTargetGroupARN := tg.TargetGroupArn
             TaskContainerName := containerName
             TaskContainerPort := containerPort },
       ⟨s3, evs ++ (httpListenerCall c lb.LoadBalancerArn tg.TargetGroupArn (.ok ()) ++
          httpsListenerCall c lb.LoadBalancerArn tg.TargetGroupArn (.ok ()))⟩) ∧
      Event.CreateTargetGroup c.conf.AWS.ELBTargetGroupName 80 "HTTP" vpcID2
          (healthCheckParams c.conf i t) (.ok tg) ∈ evs ∧
      evs.filter Event.isCreateListener = [] := by
    rcases hpath with ⟨a, b, hlb, htg, hctg⟩ | ⟨a, b, d, securityGroupID, subnetIDs, hlb, hctg,
      hsg, hclb⟩
    · obtain ⟨region2, hrun⟩ := prepareELBLoadBalancer_run_attach c s s1 a b s2 s3 role
        containerName containerPort i t region vpcID vpcID2 lb tg hi ht hreg hlb htg hctg hls
      exact ⟨_, hrun, by simp, by simp [Event.isCreateListener]⟩
    · have hsgrun : ∃ evs, (∀ tr, (prepareLoadBalancerSecurityGroup c vpcID).run ⟨b, tr⟩ =
          (.ok securityGroupID, ⟨d, tr ++ evs⟩)) ∧ evs.filter Event.isCreateListener = [] := by
        rcases hsg with ⟨g, hg, rfl⟩ | ⟨instances, hsg⟩
        · exact ⟨_, prepareLoadBalancerSecurityGroup_run_found c vpcID b d g hg,
            by simp [Event.isCreateListener]⟩
        · exact ⟨_, prepareLoadBalancerSecurityGroup_run_created c vpcID b d securityGroupID
            instances hsg, by simp [Event.isCreateListener, filter_isCreateListener_inboundCall]⟩
      obtain ⟨evs, hsgrun, hevs⟩ := hsgrun
      obtain ⟨region2, hrun⟩ := prepareELBLoadBalancer_run_absent c s s1 a b d s2 s3 role
        containerName containerPort i t region vpcID vpcID2 tg securityGroupID evs subnetIDs lb
        hi ht hreg hlb hctg hsgrun hclb hls
      refine ⟨[Event.GetAWSRegionAndVPCID (.ok (region, vpcID)),
          Event.RetrieveLoadBalancerByName c.conf.AWS.ELBLoadBalancerName (.ok none),
          Event.GetAWSRegionAndVPCID (.ok (region2, vpcID2)),
          Event.CreateTargetGroup c.conf.AWS.ELBTargetGroupName 80 "HTTP" vpcID2
            (healthCheckParams c.conf i t) (.ok tg),
          Event.ELBCreateTags tg.TargetGroupArn
            (c.core.DefaultTagsForAWSResources c.conf.AWS.ELBTargetGroupName) (.ok ())] ++
        (evs ++
          [Event.ListVPCSubnets vpcID (.ok subnetIDs),
           Event.CreateLoadBalancer c.conf.AWS.ELBLoadBalancerName true [securityGroupID]
             subnetIDs (.ok lb),
           Event.ELBCreateTags lb.LoadBalancerArn
             (c.core.DefaultTagsForAWSResources c.conf.AWS.ELBLoadBalancerName) (.ok ())]),
        ?_, ?_, ?_⟩
      · rw [hrun]
        simp only [List.append_assoc, List.cons_append, List.nil_append]
      · exact List.mem_append_left _ (List.mem_cons_of_mem _ (List.mem_cons_of_mem _
          (List.mem_cons_of_mem _ (List.mem_cons_self _ _))))
      · simp only [List.filter_append, hevs]
        simp [Event.isCreateListener]
  obtain ⟨evs, hrun, hmem, hevs⟩ := key
  have hfilter : (evs ++ (httpListenerCall c lb.LoadBalancerArn tg.TargetGroupArn (.ok ()) ++
      httpsListenerCall c lb.LoadBalancerArn tg.TargetGroupArn (.ok ()))).filter
        Event.isCreateListener =
      httpListenerCall c lb.LoadBalancerArn tg.TargetGroupArn (.ok ()) ++
        httpsListenerCall c lb.LoadBalancerArn tg.TargetGroupArn (.ok ()) := by
    simp only [List.filter_append, hevs, filter_isCreateListener_httpListenerCall,
      filter_isCreateListener_httpsListenerCall, List.nil_append]
  rw [hrun]
  refine ⟨rfl, rfl, List.mem_append_left _ hmem, ?_, ?_⟩
  · simp only [hfilter]
    rfl
  · simp only [hfilter, List.length_append, length_httpListenerCall, length_httpsListenerCall]

/-- Witness of C3 on the path where the load balancer is found and the target
group is not, with both ports set: two listeners are created, HTTP first. -/
theorem conditional_listeners_witness :
    (exampleCore.ParseTimeExpression "30" = .ok 30 ∧
      exampleCore.ParseTimeExpression "5" = .ok 5 ∧
      Cloud.GetAWSRegionAndVPCID loadBalancerCloud =
        (.ok ("us-west-2", "vpc-1"), loadBalancerCloud) ∧
      Cloud.RetrieveLoadBalancerByName "svc-lb" loadBalancerCloud =
        (.ok (some exampleLoadBalancer), loadBalancerCloud) ∧
      Cloud.RetrieveTargetGroupByName "svc-tg" loadBalancerCloud =
        (.ok none, loadBalancerCloud) ∧
      TargetGroupCreated (Cloud.command bothPortsConfig exampleCore) 30 5 loadBalancerCloud
        (withTargetGroup loadBalancerCloud) "vpc-1" exampleTargetGroup ∧
      ListenersCreated (Cloud.command bothPortsConfig exampleCore)
        exampleLoadBalancer.LoadBalancerArn exampleTargetGroup.TargetGroupArn
        (withTargetGroup loadBalancerCloud)
        (withListener 443 "HTTPS" "arn:aws:acm:cert/1"
          (withListener 80 "HTTP" "" (withTargetGroup loadBalancerCloud)))) ∧
    ((exec (prepareELBLoadBalancer (Cloud.command bothPortsConfig exampleCore) "role" "web" 8080)
        loadBalancerCloud).1 =
        .ok { ELBTargetGroupARN := "arn:aws:elasticloadbalancing:targetgroup/svc-tg"
              TaskContainerName := "web"
              TaskContainerPort := 8080 } ∧
      (exec (prepareELBLoadBalancer (Cloud.command bothPortsConfig exampleCore) "role" "web" 8080)
        loadBalancerCloud).2.cloud =
        withListener 443 "HTTPS" "arn:aws:acm:cert/1"
          (withListener 80 "HTTP" "" (withTargetGroup loadBalancerCloud)) ∧
      Event.CreateTargetGroup "svc-tg" 80 "HTTP" "vpc-1" (healthCheckParams bothPortsConfig 30 5)
          (.ok exampleTargetGroup) ∈
        (exec (prepareELBLoadBalancer (Cloud.command bothPortsConfig exampleCore) "role" "web"
          8080) loadBalancerCloud).2.trace ∧
      (exec (prepareELBLoadBalancer (Cloud.command bothPortsConfig exampleCore) "role" "web" 8080)
          loadBalancerCloud).2.trace.filter Event.isCreateListener =
        [Event.CreateListener "arn:aws:elasticloadbalancing:loadbalancer/svc-lb"
           "arn:aws:elasticloadbalancing:targetgroup/svc-tg" 80 "HTTP" "" (.ok ()),
         Event.CreateListener "arn:aws:elasticloadbalancing:loadbalancer/svc-lb"
           "arn:aws:elasticloadbalancing:targetgroup/svc-tg" 443 "HTTPS" "arn:aws:acm:cert/1"
           (.ok ())] ∧
      ((exec (prepareELBLoadBalancer (Cloud.command bothPortsConfig exampleCore) "role" "web" 8080)
          loadBalancerCloud).2.trace.filter Event.isCreateListener).length = 2) :=
  have hctg : TargetGroupCreated (Cloud.command bothPortsConfig exampleCore) 30 5
      loadBalancerCloud (withTargetGroup loadBalancerCloud) "vpc-1" exampleTargetGroup :=
    ⟨_, _, _, rfl, rfl, rfl⟩
  have hls : ListenersCreated (Cloud.command bothPortsConfig exampleCore)
      exampleLoadBalancer.LoadBalancerArn exampleTargetGroup.TargetGroupArn
      (withTargetGroup loadBalancerCloud)
      (withListener 443 "HTTPS" "arn:aws:acm:cert/1"
        (withListener 80 "HTTP" "" (withTargetGroup loadBalancerCloud))) :=
    ⟨_, rfl, rfl⟩
  ⟨⟨by decide, by decide, by decide, by decide, by decide, hctg, hls⟩,
   conditional_listeners (Cloud.command bothPortsConfig exampleCore) loadBalancerCloud
    loadBalancerCloud (withTargetGroup loadBalancerCloud)
    (withListener 443 "HTTPS" "arn:aws:acm:cert/1"
      (withListener 80 "HTTP" "" (withTargetGroup loadBalancerCloud)))
    "role" "web" 8080 30 5 "us-west-2" "vpc-1" "vpc-1" exampleLoadBalancer exampleTargetGroup
    (by decide) (by decide) (by decide)
    (Or.inl ⟨loadBalancerCloud, loadBalancerCloud, by decide, by decide, hctg⟩) hls⟩

end
end Coldbrew

namespace Coldbrew
section
variable {σ : Type}

/-- C4. Bootstrap ordering: in every client state from which the load
balancer lookup and the security group lookup return absent and the client
answers every call of the run with success (both time expressions being
accepted), `prepareELBLoadBalancer` returns the binding of the target group
created, and its mutating calls are, in this order: `CreateTargetGroup`,
`CreateTags` on the target group, `CreateSecurityGroup`, `CreateTags` on the
security group, the inbound rules for the HTTP and the HTTPS port (each if the
port is set, from 0.0.0.0/0), the inbound rule on the security group of the
instances (ports 0 to 65535, from the new security group), `CreateLoadBalancer`
with the id returned by `CreateSecurityGroup` as its one security group,
`CreateTags` on the load balancer, and the `CreateListener` calls. -/
theorem bootstrap_ordering (c : Command σ) (s s1 s2 s3 s4 s5 s6 : σ)
    (role containerName : String) (containerPort : Nat) (i t : Nat)
    (region vpcID vpcID2 : String) (tg : TargetGroup) (securityGroupID : String)
    (instances : SecurityGroup) (subnetIDs : List String) (lb : LoadBalancer)
    (hi : c.core.ParseTimeExpression c.conf.LoadBalancer.HealthCheck.Interval = .ok i)
    (ht : c.core.ParseTimeExpression c.conf.LoadBalancer.HealthCheck.Timeout = .ok t)
    (hreg : c.GetAWSRegionAndVPCID s = (.ok (region, vpcID), s1))
    (hlb : c.awsClient.ELB.RetrieveLoadBalancerByName c.conf.AWS.ELBLoadBalancerName s1 =
      (.ok none, s2))
    (hctg : TargetGroupCreated c i t s2 s3 vpcID2 tg)
    (hsg : SecurityGroupCreated c vpcID s3 s4 securityGroupID instances)
    (hclb : LoadBalancerCreated c vpcID securityGroupID s4 s5 subnetIDs lb)
    (hls : ListenersCreated c lb.LoadBalancerArn tg.TargetGroupArn s5 s6) :
    (exec (prepareELBLoadBalancer c role containerName containerPort) s).1 =
        .ok { ELBTargetGroupARN := tg.TargetGroupArn
              TaskContainerName := containerName
              TaskContainerPort := containerPort } ∧
      (exec (prepareELBLoadBalancer c role containerName containerPort) s).2.cloud = s6 ∧
      (exec (prepareELBLoadBalancer c role containerName containerPort) s).2.trace.filter
          Event.isMutating =
        [Event.CreateTargetGroup c.conf.AWS.ELBTargetGroupName 80 "HTTP" vpcID2
            (healthCheckParams c.conf i t) (.ok tg),
         Event.ELBCreateTags tg.TargetGroupArn
            (c.core.DefaultTagsForAWSResources c.conf.AWS.ELBTargetGroupName) (.ok ()),
         Event.CreateSecurityGroup c.conf.AWS.ELBSecurityGroupName c.conf.AWS.ELBSecurityGroupName
            vpcID (.ok securityGroupID),
         Event.EC2CreateTags securityGroupID
            (c.core.DefaultTagsForAWSResources c.conf.AWS.ELBSecurityGroupName) (.ok ())] ++
        ((if c.conf.LoadBalancer.Port > 0 then
            [Event.AddInboundToSecurityGroup securityGroupID SecurityGroupProtocolTCP
              c.conf.LoadBalancer.Port c.conf.LoadBalancer.Port "0.0.0.0/0" (.ok ())]
          else []) ++
        ((if c.conf.LoadBalancer.HTTPSPort > 0 then
            [Event.AddInboundToSecurityGroup securityGroupID SecurityGroupProtocolTCP
              c.conf.LoadBalancer.HTTPSPort c.conf.LoadBalancer.HTTPSPort "0.0.0.0/0" (.ok ())]
          else []) ++
        ([Event.AddInboundToSecurityGroup instances.GroupId SecurityGroupProtocolTCP 0 65535
            securityGroupID (.ok ()),
          Event.CreateLoadBalancer c.conf.AWS.ELBLoadBalancerName true [securityGroupID]
            subnetIDs (.ok lb),
          Event.ELBCreateTags lb.LoadBalancerArn
            (c.core.DefaultTagsForAWSResources c.conf.AWS.ELBLoadBalancerName) (.ok ())] ++
        ((if c.conf.LoadBalancer.Port > 0 then
            [Event.CreateListener lb.LoadBalancerArn tg.TargetGroupArn c.conf.LoadBalancer.Port
              "HTTP" "" (.ok ())]
          else []) ++
        (if c.conf.LoadBalancer.HTTPSPort > 0 then
            [Event.CreateListener lb.LoadBalancerArn tg.TargetGroupArn
              c.conf.LoadBalancer.HTTPSPort "HTTPS" c.conf.AWS.ELBCertificateARN (.ok ())]
          else []))))) := by
  obtain ⟨region2, hrun⟩ := prepareELBLoadBalancer_run_absent c s s1 s2 s3 s4 s5 s6 role
    containerName containerPort i t region vpcID vpcID2 tg securityGroupID _ subnetIDs lb hi ht
    hreg hlb hctg (prepareLoadBalancerSecurityGroup_run_created c vpcID s3 s4 securityGroupID
      instances hsg) hclb hls
  rw [hrun]
  refine ⟨rfl, rfl, ?_⟩
  simp only [List.filter_append, List.filter_cons, List.filter_nil, Event.isMutating,
    filter_isMutating_httpListenerCall, filter_isMutating_httpsListenerCall,
    filter_isMutating_inboundCall, if_true, Bool.false_eq_true, if_false, List.cons_append,
    List.nil_append, List.append_assoc]
  simp only [inboundCall, httpListenerCall, httpsListenerCall]

/-- Witness of C4: the end-to-end scenario on an account without load
balancing resources, with the accounts the client passes through. -/
theorem bootstrap_ordering_witness :
    (exampleCore.ParseTimeExpression "30" = .ok 30 ∧
      exampleCore.ParseTimeExpression "5" = .ok 5 ∧
      Cloud.GetAWSRegionAndVPCID exampleCloud = (.ok ("us-west-2", "vpc-1"), exampleCloud) ∧
      Cloud.RetrieveLoadBalancerByName "svc-lb" exampleCloud = (.ok none, exampleCloud) ∧
      TargetGroupCreated (Cloud.command exampleConfig exampleCore) 30 5 exampleCloud
        (withTargetGroup exampleCloud) "vpc-1" exampleTargetGroup ∧
      SecurityGroupCreated (Cloud.command exampleConfig exampleCore) "vpc-1"
        (withTargetGroup exampleCloud) (withSecurityGroup (withTargetGroup exampleCloud))
        "sg-svc-sg" instancesSecurityGroup ∧
      LoadBalancerCreated (Cloud.command exampleConfig exampleCore) "vpc-1" "sg-svc-sg"
        (withSecurityGroup (withTargetGroup exampleCloud))
        (withLoadBalancer (withSecurityGroup (withTargetGroup exampleCloud)))
        ["subnet-a", "subnet-b"] exampleLoadBalancer ∧
      ListenersCreated (Cloud.command exampleConfig exampleCore)
        exampleLoadBalancer.LoadBalancerArn exampleTargetGroup.TargetGroupArn
        (withLoadBalancer (withSecurityGroup (withTargetGroup exampleCloud)))
        (withListener 80 "HTTP" ""
          (withLoadBalancer (withSecurityGroup (withTargetGroup exampleCloud))))) ∧
    ((exec (prepareELBLoadBalancer (Cloud.command exampleConfig exampleCore) "role" "web" 8080)
        exampleCloud).1 =
        .ok { ELBTargetGroupARN := "arn:aws:elasticloadbalancing:targetgroup/svc-tg"
              TaskContainerName := "web"
              TaskContainerPort := 8080 } ∧
      (exec (prepareELBLoadBalancer (Cloud.command exampleConfig exampleCore) "role" "web" 8080)
        exampleCloud).2.cloud =
        withListener 80 "HTTP" ""
          (withLoadBalancer (withSecurityGroup (withTargetGroup exampleCloud))) ∧
      (exec (prepareELBLoadBalancer (Cloud.command exampleConfig exampleCore) "role" "web" 8080)
          exampleCloud).2.trace.filter Event.isMutating =
        [Event.CreateTargetGroup "svc-tg" 80 "HTTP" "vpc-1" (healthCheckParams exampleConfig 30 5)
            (.ok exampleTargetGroup),
         Event.ELBCreateTags "arn:aws:elasticloadbalancing:targetgroup/svc-tg"
            [("Name", "svc-tg")] (.ok ()),
         Event.CreateSecurityGroup "svc-sg" "svc-sg" "vpc-1" (.ok "sg-svc-sg"),
         Event.EC2CreateTags "sg-svc-sg" [("Name", "svc-sg")] (.ok ()),
         Event.AddInboundToSecurityGroup "sg-svc-sg" "tcp" 80 80 "0.0.0.0/0" (.ok ()),
         Event.AddInboundToSecurityGroup "sg-0001" "tcp" 0 65535 "sg-svc-sg" (.ok ()),
         Event.CreateLoadBalancer "svc-lb" true ["sg-svc-sg"] ["subnet-a", "subnet-b"]
            (.ok exampleLoadBalancer),
         Event.ELBCreateTags "arn:aws:elasticloadbalancing:loadbalancer/svc-lb"
            [("Name", "svc-lb")] (.ok ()),
         Event.CreateListener "arn:aws:elasticloadbalancing:loadbalancer/svc-lb"
            "arn:aws:elasticloadbalancing:targetgroup/svc-tg" 80 "HTTP" "" (.ok ())]) :=
  have hctg : TargetGroupCreated (Cloud.command exampleConfig exampleCore) 30 5 exampleCloud
      (withTargetGroup exampleCloud) "vpc-1" exampleTargetGroup :=
    ⟨_, _, _, rfl, rfl, rfl⟩
  have hsg : SecurityGroupCreated (Cloud.command exampleConfig exampleCore) "vpc-1"
      (withTargetGroup exampleCloud) (withSecurityGroup (withTargetGroup exampleCloud))
      "sg-svc-sg" instancesSecurityGroup :=
    ⟨_, _, _, _, _, _, rfl, rfl, rfl, rfl, rfl, rfl, rfl⟩
  have hclb : LoadBalancerCreated (Cloud.command exampleConfig exampleCore) "vpc-1" "sg-svc-sg"
      (withSecurityGroup (withTargetGroup exampleCloud))
      (withLoadBalancer (withSecurityGroup (withTargetGroup exampleCloud)))
      ["subnet-a", "subnet-b"] exampleLoadBalancer :=
    ⟨_, _, rfl, rfl, rfl⟩
  have hls : ListenersCreated (Cloud.command exampleConfig exampleCore)
      exampleLoadBalancer.LoadBalancerArn exampleTargetGroup.TargetGroupArn
      (withLoadBalancer (withSecurityGroup (withTargetGroup exampleCloud)))
      (withListener 80 "HTTP" ""
        (withLoadBalancer (withSecurityGroup (withTargetGroup exampleCloud)))) :=
    ⟨_, rfl, rfl⟩
  ⟨⟨by decide, by decide, by decide, by decide, hctg, hsg, hclb, hls⟩,
   bootstrap_ordering (Cloud.command exampleConfig exampleCore) exampleCloud exampleCloud
    exampleCloud (withTargetGroup exampleCloud) (withSecurityGroup (withTargetGroup exampleCloud))
    (withLoadBalancer (withSecurityGroup (withTargetGroup exampleCloud)))
    (withListener 80 "HTTP" ""
      (withLoadBalancer (withSecurityGroup (withTargetGroup exampleCloud))))
    "role" "web" 8080 30 5 "us-west-2" "vpc-1" "vpc-1" exampleTargetGroup "sg-svc-sg"
    instancesSecurityGroup ["subnet-a", "subnet-b"] exampleLoadBalancer (by decide) (by decide)
    (by decide) (by decide) hctg hsg hclb hls⟩

/-- C8, as amended. A run that finds the load balancer absent, as a run
repeated after a failure that left no load balancer does, and whose calls all
succeed returns a binding carrying the container name and port it was given.
When the security group of the load balancer is found, it is used as it is:
the run holds no `CreateSecurityGroup`, no `CreateTags` on a security group
and no `AddInboundToSecurityGroup` call, and the load balancer is created with
the id of the group found as its one security group.  And from every client
state from which the load balancer lookup returns absent, the security group
lookup finds a group and the client answers the other calls with success,
`prepareELBLoadBalancer` returns the binding of the target group it created,
makes no call that changes a security group, and creates the load balancer
with the id of the group found as its one security group. -/
theorem rerun_reuses_security_group (c : Command σ) (s : σ) (role containerName : String)
    (containerPort : Nat) :
    ((∀ e ∈ (exec (prepareELBLoadBalancer c role containerName containerPort) s).2.trace,
        e.succeeded = true) →
      Event.RetrieveLoadBalancerByName c.conf.AWS.ELBLoadBalancerName (.ok none) ∈
        (exec (prepareELBLoadBalancer c role containerName containerPort) s).2.trace →
      (∃ arn, (exec (prepareELBLoadBalancer c role containerName containerPort) s).1 =
        .ok { ELBTargetGroupARN := arn
              TaskContainerName := containerName
              TaskContainerPort := containerPort }) ∧
      ∀ g, Event.RetrieveSecurityGroupByNameOrID c.conf.AWS.ELBSecurityGroupName (.ok (some g)) ∈
          (exec (prepareELBLoadBalancer c role containerName containerPort) s).2.trace →
        (∀ e ∈ (exec (prepareELBLoadBalancer c role containerName containerPort) s).2.trace,
          e.isSecurityGroupChange = false) ∧
        ∃ subnetIDs lb,
          Event.CreateLoadBalancer c.conf.AWS.ELBLoadBalancerName true [g.GroupId] subnetIDs
              (.ok lb) ∈
            (exec (prepareELBLoadBalancer c role containerName containerPort) s).2.trace) ∧
    (∀ (s1 s2 s3 s4 s5 s6 : σ) (i t : Nat) (region vpcID vpcID2 : String) (tg : TargetGroup)
        (g : SecurityGroup) (subnetIDs : List String) (lb : LoadBalancer),
      c.core.ParseTimeExpression c.conf.LoadBalancer.HealthCheck.Interval = .ok i →
      c.core.ParseTimeExpression c.conf.LoadBalancer.HealthCheck.Timeout = .ok t →
      c.GetAWSRegionAndVPCID s = (.ok (region, vpcID), s1) →
      c.awsClient.ELB.RetrieveLoadBalancerByName c.conf.AWS.ELBLoadBalancerName s1 =
        (.ok none, s2) →
      TargetGroupCreated c i t s2 s3 vpcID2 tg →
      c.awsClient.EC2.RetrieveSecurityGroupByNameOrID c.conf.AWS.ELBSecurityGroupName s3 =
        (.ok (some g), s4) →
      LoadBalancerCreated c vpcID g.GroupId s4 s5 subnetIDs lb →
      ListenersCreated c lb.LoadBalancerArn tg.TargetGroupArn s5 s6 →
      (exec (prepareELBLoadBalancer c role containerName containerPort) s).1 =
          .ok { ELBTargetGroupARN := tg.TargetGroupArn
                TaskContainerName := containerName
                TaskContainerPort := containerPort } ∧
        (exec (prepareELBLoadBalancer c role containerName containerPort) s).2.cloud = s6 ∧
        (∀ e ∈ (exec (prepareELBLoadBalancer c role containerName containerPort) s).2.trace,
          e.isSecurityGroupChange = false) ∧
        Event.CreateLoadBalancer c.conf.AWS.ELBLoadBalancerName true [g.GroupId] subnetIDs
            (.ok lb) ∈
          (exec (prepareELBLoadBalancer c role containerName containerPort) s).2.trace) := by
  refine ⟨fun hs hlb => ?_, fun s1 s2 s3 s4 s5 s6 i t region vpcID vpcID2 tg g subnetIDs lb hi ht
    hreg hlb hctg hsg hclb hls => ?_⟩
  rotate_left
  · obtain ⟨region2, hrun⟩ := prepareELBLoadBalancer_run_absent c s s1 s2 s3 s4 s5 s6 role
      containerName containerPort i t region vpcID vpcID2 tg g.GroupId _ subnetIDs lb hi ht
      hreg hlb hctg (prepareLoadBalancerSecurityGroup_run_found c vpcID s3 s4 g hsg) hclb hls
    rw [hrun]
    refine ⟨rfl, rfl, ?_, ?_⟩
    · simp only [List.forall_mem_cons, List.forall_mem_append, List.forall_mem_singleton,
        forall_mem_httpListenerCall, forall_mem_httpsListenerCall, Event.isSecurityGroupChange,
        implies_true, and_self, List.not_mem_nil, false_implies]
    · simp
  have h := prepareELBLoadBalancer_exec c s role containerName containerPort
  generalize (exec (prepareELBLoadBalancer c role containerName containerPort) s).1 = res at h ⊢
  generalize (exec (prepareELBLoadBalancer c role containerName containerPort) s).2.trace = tr
    at h hs hlb ⊢
  obtain ⟨region, vpc, evs, rfl, hboot⟩ := h.of_absent hlb
  simp only [List.forall_mem_cons] at hs
  obtain ⟨arn, sgID, evs1, evs2, subnetIDs, lb, rfl, rfl, h1, hs1, h2, hs2⟩ :=
    hboot.boot_of_succeeded hs.2.2
  refine ⟨⟨arn, rfl⟩, fun g hg => ?_⟩
  have hk1 : ∀ e ∈ evs1, e.isSecurityGroupChange = false ∧
      ∀ n r, e ≠ Event.RetrieveSecurityGroupByNameOrID n r := by
    cases h1 <;>
      simp only [List.forall_mem_cons, List.forall_mem_singleton, Event.isSecurityGroupChange,
        ne_eq, reduceCtorEq, not_false_eq_true, implies_true, and_self, List.not_mem_nil,
        false_implies]
  have hmem : ∀ e ∈ Event.GetAWSRegionAndVPCID (.ok (region, vpc)) ::
      Event.RetrieveLoadBalancerByName c.conf.AWS.ELBLoadBalancerName (.ok none) ::
      (evs1 ++ (evs2 ++
        ([.ListVPCSubnets vpc (.ok subnetIDs),
          .CreateLoadBalancer c.conf.AWS.ELBLoadBalancerName true [sgID] subnetIDs (.ok lb),
          .ELBCreateTags lb.LoadBalancerArn
            (c.core.DefaultTagsForAWSResources c.conf.AWS.ELBLoadBalancerName) (.ok ())] ++
        (httpListenerCall c lb.LoadBalancerArn arn (.ok ()) ++
          httpsListenerCall c lb.LoadBalancerArn arn (.ok ()))))),
      e ∈ evs2 ∨ (e.isSecurityGroupChange = false ∧
        ∀ n r, e ≠ Event.RetrieveSecurityGroupByNameOrID n r) := by
    simp only [List.forall_mem_cons, List.forall_mem_append, List.forall_mem_singleton,
      forall_mem_httpListenerCall, forall_mem_httpsListenerCall, Event.isSecurityGroupChange,
      ne_eq, reduceCtorEq, not_false_eq_true, implies_true, and_self, or_true, true_and,
      List.not_mem_nil, false_implies, and_true]
    exact ⟨fun e he => Or.inr (hk1 e he), fun e he => Or.inl he⟩
  have hg2 : Event.RetrieveSecurityGroupByNameOrID c.conf.AWS.ELBSecurityGroupName
      (.ok (some g)) ∈ evs2 := by
    rcases hmem _ hg with h | h
    · exact h
    · exact absurd rfl (h.2 _ _)
  rcases h2.psg_of_succeeded hs2 with ⟨g1, hg1, rfl⟩ | ⟨id, g1, hid, rfl⟩
  · cases hg1
    have hgg : g = g1 := by simpa using hg2
    subst hgg
    refine ⟨fun e he => ?_, subnetIDs, lb, by simp⟩
    rcases hmem e he with h | h
    · rw [List.mem_singleton.1 h]
      rfl
    · exact h.1
  · exfalso
    simp [mem_inboundCall] at hg2

end
end Coldbrew

namespace Coldbrew
section
variable {σ : Type}

/-- C6, the defect. With a health check interval that is not a time
expression, `createELBTargetGroup` returns the empty string and no error
without a `CreateTargetGroup` call, and `prepareELBLoadBalancer` goes on to
return, without error, a binding whose target group ARN is empty, in a run
that holds no `CreateTargetGroup` call. -/
theorem createELBTargetGroup_swallows_parse_error :
    exampleCore.ParseTimeExpression "bogus" =
        .error (Errorf "Invalid time expression [bogus]") ∧
      (exec (createELBTargetGroup (Cloud.command badIntervalConfig exampleCore) "svc-tg")
        exampleCloud).1 = .ok "" ∧
      (exec (createELBTargetGroup (Cloud.command badIntervalConfig exampleCore) "svc-tg")
        exampleCloud).2.trace = [Event.GetAWSRegionAndVPCID (.ok ("us-west-2", "vpc-1"))] ∧
      (exec (prepareELBLoadBalancer (Cloud.command badIntervalConfig exampleCore) "role" "web" 8080)
        exampleCloud).1 =
          .ok { ELBTargetGroupARN := "", TaskContainerName := "web", TaskContainerPort := 8080 } ∧
      (∀ e ∈ (exec (prepareELBLoadBalancer (Cloud.command badIntervalConfig exampleCore) "role"
          "web" 8080) exampleCloud).2.trace, e.isCreateTargetGroup = false) := by
  decide

/-- C5, the defect. The live target group probes every 10 seconds, the
configuration asks for 30, and the configured timeout is not a time
expression: `checkLoadBalancerHealthCheckChanges` returns without error and
its run is the lookup alone, without an `UpdateTargetGroupHealthCheck` call. -/
theorem checkLoadBalancerHealthCheckChanges_swallows_parse_error :
    exampleCore.ParseTimeExpression "30" = .ok 30 ∧
      exampleCore.ParseTimeExpression "bogus" =
        .error (Errorf "Invalid time expression [bogus]") ∧
      (∃ tg, tg.HealthCheckIntervalSeconds = 10 ∧
        (exec (checkLoadBalancerHealthCheckChanges (Cloud.command badTimeoutConfig exampleCore)
          "arn:aws:elasticloadbalancing:targetgroup/svc-tg") driftedCloud).2.trace =
          [Event.RetrieveTargetGroup "arn:aws:elasticloadbalancing:targetgroup/svc-tg"
            (.ok (some tg))]) ∧
      (exec (checkLoadBalancerHealthCheckChanges (Cloud.command badTimeoutConfig exampleCore)
        "arn:aws:elasticloadbalancing:targetgroup/svc-tg") driftedCloud).1 = .ok () := by
  refine ⟨by decide, by decide, ⟨_, ?_, rfl⟩, by decide⟩
  decide

end
end Coldbrew

namespace Coldbrew
section
variable {σ : Type}

/-- The part of C6 the code meets: when both time expressions are accepted, a
run of `createELBTargetGroup` that returns without error made one
`CreateTargetGroup` call (port 80, protocol HTTP, the configured health check),
then tagged the group created, and returns the ARN of that group. -/
theorem createELBTargetGroup_when_parsed (c : Command σ) (s : σ) (name : String) (i t : Nat)
    (arn : String)
    (hi : c.core.ParseTimeExpression c.conf.LoadBalancer.HealthCheck.Interval = .ok i)
    (ht : c.core.ParseTimeExpression c.conf.LoadBalancer.HealthCheck.Timeout = .ok t)
    (hok : (exec (createELBTargetGroup c name) s).1 = .ok arn) :
    ∃ region vpc tg, arn = tg.TargetGroupArn ∧
      (exec (createELBTargetGroup c name) s).2.trace =
        [.GetAWSRegionAndVPCID (.ok (region, vpc)),
         .CreateTargetGroup name 80 "HTTP" vpc (healthCheckParams c.conf i t) (.ok tg),
         .ELBCreateTags tg.TargetGroupArn (c.core.DefaultTagsForAWSResources name) (.ok ())] := by
  obtain ⟨evs, h1, h2⟩ := createELBTargetGroup_runs c name ⟨s, []⟩
  simp only [List.nil_append] at h1
  unfold exec at hok ⊢
  rw [h1]
  rw [hok] at h2
  generalize hr : (Except.ok arn : Except GoError String) = r at h2
  cases h2 with
  | vpcError e => cases hr
  | intervalRefused region vpc e hi1 => rw [hi] at hi1; cases hi1
  | timeoutRefused region vpc i1 e hi1 ht1 => rw [ht] at ht1; cases ht1
  | createError region vpc i1 t1 e msg hi1 ht1 => cases hr
  | tagError region vpc i1 t1 tg e msg hi1 ht1 => cases hr
  | created region vpc i1 t1 tg hi1 ht1 =>
      rw [hi] at hi1; rw [ht] at ht1
      cases hi1; cases ht1; cases hr
      exact ⟨region, vpc, tg, rfl, rfl⟩

theorem checkLoadBalancerHealthCheckChanges_runs (c : Command σ) (arn : String) (i t : Nat)
    (hi : c.core.ParseTimeExpression c.conf.LoadBalancer.HealthCheck.Interval = .ok i)
    (ht : c.core.ParseTimeExpression c.conf.LoadBalancer.HealthCheck.Timeout = .ok t) :
    Runs (checkLoadBalancerHealthCheckChanges c arn) (fun res evs =>
      (∃ e, evs = [.RetrieveTargetGroup arn (.error e)]) ∨
      evs = [.RetrieveTargetGroup arn (.ok none)] ∨
      ∃ tg,
        ((tg.HealthCheckIntervalSeconds ≠ int64 i ∨
            tg.HealthCheckTimeoutSeconds ≠ int64 t ∨
            tg.HealthCheckPath ≠ c.conf.LoadBalancer.HealthCheck.Path ∨
            tg.HealthyThresholdCount ≠ (c.conf.LoadBalancer.HealthCheck.HealthyLimit : Int) ∨
            tg.UnhealthyThresholdCount ≠ (c.conf.LoadBalancer.HealthCheck.UnhealthyLimit : Int) ∨
            (match tg.Matcher with
              | some m => m.HttpCode
              | none => "") ≠ c.conf.LoadBalancer.HealthCheck.Status) ∧
          ∃ r, evs = [.RetrieveTargetGroup arn (.ok (some tg)),
            .UpdateTargetGroupHealthCheck arn (healthCheckParams c.conf i t) r]) ∨
        (¬(tg.HealthCheckIntervalSeconds ≠ int64 i ∨
            tg.HealthCheckTimeoutSeconds ≠ int64 t ∨
            tg.HealthCheckPath ≠ c.conf.LoadBalancer.HealthCheck.Path ∨
            tg.HealthyThresholdCount ≠ (c.conf.LoadBalancer.HealthCheck.HealthyLimit : Int) ∨
            tg.UnhealthyThresholdCount ≠ (c.conf.LoadBalancer.HealthCheck.UnhealthyLimit : Int) ∨
            (match tg.Matcher with
              | some m => m.HttpCode
              | none => "") ≠ c.conf.LoadBalancer.HealthCheck.Status) ∧
          evs = [.RetrieveTargetGroup arn (.ok (some tg))] ∧ res = .ok ())) := by
  unfold checkLoadBalancerHealthCheckChanges
  refine runs_call_bind _ _ fun r => ?_
  rcases r with e | _ | tg
  · exact runs_fail _ (Or.inl ⟨e, rfl⟩)
  · exact runs_fail _ (Or.inr (Or.inl rfl))
  simp only [hi, ht]
  split
  · rename_i hd
    refine runs_call_bind _ _ fun r => ?_
    rcases r with e | u
    · exact runs_fail_bind _ _ (Or.inr (Or.inr ⟨tg, Or.inl ⟨hd, _, rfl⟩⟩))
    · exact runs_pure _ (Or.inr (Or.inr ⟨tg, Or.inl ⟨hd, _, rfl⟩⟩))
  · rename_i hd
    exact runs_pure _ (Or.inr (Or.inr ⟨tg, Or.inr ⟨hd, rfl, rfl⟩⟩))

/-- The part of C5 the code meets: when both time expressions are accepted and
the lookup returned the live target group, a live interval different from the
configured one gives, after the lookup, one `UpdateTargetGroupHealthCheck`
call carrying the health check parameters built from the configuration
(interval and timeout as 16 bit values); and when all six compared values are
equal the run is the lookup alone and returns without error. -/
theorem checkLoadBalancerHealthCheckChanges_when_parsed (c : Command σ) (s : σ) (arn : String)
    (i t : Nat) (tg : TargetGroup)
    (hi : c.core.ParseTimeExpression c.conf.LoadBalancer.HealthCheck.Interval = .ok i)
    (ht : c.core.ParseTimeExpression c.conf.LoadBalancer.HealthCheck.Timeout = .ok t)
    (hlook : Event.RetrieveTargetGroup arn (.ok (some tg)) ∈
      (exec (checkLoadBalancerHealthCheckChanges c arn) s).2.trace) :
    (tg.HealthCheckIntervalSeconds ≠ int64 i →
      ∃ r, (exec (checkLoadBalancerHealthCheckChanges c arn) s).2.trace =
        [.RetrieveTargetGroup arn (.ok (some tg)),
         .UpdateTargetGroupHealthCheck arn (healthCheckParams c.conf i t) r]) ∧
    (tg.HealthCheckIntervalSeconds = int64 i →
      tg.HealthCheckTimeoutSeconds = int64 t →
      tg.HealthCheckPath = c.conf.LoadBalancer.HealthCheck.Path →
      tg.HealthyThresholdCount = (c.conf.LoadBalancer.HealthCheck.HealthyLimit : Int) →
      tg.UnhealthyThresholdCount = (c.conf.LoadBalancer.HealthCheck.UnhealthyLimit : Int) →
      (match tg.Matcher with
        | some m => m.HttpCode
        | none => "") = c.conf.LoadBalancer.HealthCheck.Status →
      (exec (checkLoadBalancerHealthCheckChanges c arn) s).2.trace =
          [.RetrieveTargetGroup arn (.ok (some tg))] ∧
        (exec (checkLoadBalancerHealthCheckChanges c arn) s).1 = .ok ()) := by
  obtain ⟨evs, h1, h2⟩ := checkLoadBalancerHealthCheckChanges_runs c arn i t hi ht ⟨s, []⟩
  simp only [List.nil_append] at h1
  unfold exec at hlook ⊢
  rw [h1] at hlook ⊢
  rcases h2 with ⟨e, rfl⟩ | rfl | ⟨tg1, ⟨hd, r, rfl⟩ | ⟨hd, rfl, hres⟩⟩
  · simp at hlook
  · simp at hlook
  · have htg : tg = tg1 := by simpa using hlook
    subst htg
    refine ⟨fun _ => ⟨r, rfl⟩, fun h1 h2 h3 h4 h5 h6 => ?_⟩
    exact absurd hd (by simp [h1, h2, h3, h4, h5, h6])
  · have htg : tg = tg1 := by simpa using hlook
    subst htg
    refine ⟨fun hne => absurd (Or.inl hne) hd, fun _ _ _ _ _ _ => ⟨rfl, hres⟩⟩

end
end Coldbrew

namespace Coldbrew

/-- Witness of C8 as amended: the scenario run again on the account a failed
first run left behind, with the security group of the load balancer in place. -/
theorem rerun_reuses_security_group_witness :
    ((∀ e ∈ (exec (prepareELBLoadBalancer (Cloud.command exampleConfig exampleCore) "role" "web"
          8080) resumedCloud).2.trace, e.succeeded = true) ∧
      Event.RetrieveLoadBalancerByName "svc-lb" (.ok none) ∈
        (exec (prepareELBLoadBalancer (Cloud.command exampleConfig exampleCore) "role" "web" 8080)
          resumedCloud).2.trace ∧
      Event.RetrieveSecurityGroupByNameOrID "svc-sg" (.ok (some exampleSecurityGroup)) ∈
        (exec (prepareELBLoadBalancer (Cloud.command exampleConfig exampleCore) "role" "web" 8080)
          resumedCloud).2.trace) ∧
    ((∃ arn, (exec (prepareELBLoadBalancer (Cloud.command exampleConfig exampleCore) "role" "web"
        8080) resumedCloud).1 =
        .ok { ELBTargetGroupARN := arn, TaskContainerName := "web", TaskContainerPort := 8080 }) ∧
      (∀ e ∈ (exec (prepareELBLoadBalancer (Cloud.command exampleConfig exampleCore) "role" "web"
          8080) resumedCloud).2.trace, e.isSecurityGroupChange = false) ∧
      ∃ subnetIDs lb,
        Event.CreateLoadBalancer "svc-lb" true ["sg-svc-sg"] subnetIDs (.ok lb) ∈
          (exec (prepareELBLoadBalancer (Cloud.command exampleConfig exampleCore) "role" "web" 8080)
            resumedCloud).2.trace) ∧
    (Cloud.GetAWSRegionAndVPCID resumedCloud = (.ok ("us-west-2", "vpc-1"), resumedCloud) ∧
      Cloud.RetrieveLoadBalancerByName "svc-lb" resumedCloud = (.ok none, resumedCloud) ∧
      Cloud.RetrieveSecurityGroupByNameOrID "svc-sg" (withTargetGroupTag resumedCloud) =
        (.ok (some exampleSecurityGroup), withTargetGroupTag resumedCloud)) ∧
    ((exec (prepareELBLoadBalancer (Cloud.command exampleConfig exampleCore) "role" "web" 8080)
        resumedCloud).1 =
        .ok { ELBTargetGroupARN := "arn:aws:elasticloadbalancing:targetgroup/svc-tg"
              TaskContainerName := "web", TaskContainerPort := 8080 } ∧
      (exec (prepareELBLoadBalancer (Cloud.command exampleConfig exampleCore) "role" "web" 8080)
        resumedCloud).2.cloud =
        withListener 80 "HTTP" "" (withLoadBalancer (withTargetGroupTag resumedCloud)) ∧
      (∀ e ∈ (exec (prepareELBLoadBalancer (Cloud.command exampleConfig exampleCore) "role" "web"
          8080) resumedCloud).2.trace, e.isSecurityGroupChange = false) ∧
      Event.CreateLoadBalancer "svc-lb" true ["sg-svc-sg"] ["subnet-a", "subnet-b"]
          (.ok exampleLoadBalancer) ∈
        (exec (prepareELBLoadBalancer (Cloud.command exampleConfig exampleCore) "role" "web" 8080)
          resumedCloud).2.trace) :=
  ⟨by decide,
   ⟨((rerun_reuses_security_group (Cloud.command exampleConfig exampleCore) resumedCloud "role"
      "web" 8080).1 (by decide) (by decide)).1,
    ((rerun_reuses_security_group (Cloud.command exampleConfig exampleCore) resumedCloud "role"
      "web" 8080).1 (by decide) (by decide)).2 exampleSecurityGroup (by decide)⟩,
   by decide,
   (rerun_reuses_security_group (Cloud.command exampleConfig exampleCore) resumedCloud "role"
      "web" 8080).2 resumedCloud resumedCloud (withTargetGroupTag resumedCloud)
      (withTargetGroupTag resumedCloud) (withLoadBalancer (withTargetGroupTag resumedCloud))
      (withListener 80 "HTTP" "" (withLoadBalancer (withTargetGroupTag resumedCloud)))
      30 5 "us-west-2" "vpc-1" "vpc-1" exampleTargetGroup exampleSecurityGroup
      ["subnet-a", "subnet-b"] exampleLoadBalancer (by decide) (by decide) (by decide)
      (by decide) ⟨_, _, _, rfl, rfl, rfl⟩ (by decide) ⟨_, _, rfl, rfl, rfl⟩ ⟨_, rfl, rfl⟩⟩

/-- C8 as stated fails, in both of its parts.

First scenario (HTTP on port 80): on an account without the security group of
the instances the first run creates the security group of the load balancer
and then fails, the instances group not being found.  Once that group exists,
the second run succeeds in every call and returns a binding, and afterwards
the instances group still has no inbound rule: the load balancer group is
not permitted on it.

Second scenario (HTTPS only, no certificate): the first run creates the
target group and the load balancer and fails at the listener.  The second
run succeeds in every call it makes and returns the conflict error. -/
theorem rerun_after_failure_counterexample :
    ((exec (prepareELBLoadBalancer (Cloud.command exampleConfig exampleCore) "role" "web" 8080)
        bareCloud).1 =
        .error (Errorf
          "EC2 Security Group [cluster1-instances] for ECS Container Instances was not found.") ∧
      Event.CreateSecurityGroup "svc-sg" "svc-sg" "vpc-1" (.ok "sg-svc-sg") ∈
        (exec (prepareELBLoadBalancer (Cloud.command exampleConfig exampleCore) "role" "web" 8080)
          bareCloud).2.trace ∧
      (exec (prepareELBLoadBalancer (Cloud.command exampleConfig exampleCore) "role" "web" 8080)
        resumedCloud).1 =
        .ok { ELBTargetGroupARN := "arn:aws:elasticloadbalancing:targetgroup/svc-tg"
              TaskContainerName := "web", TaskContainerPort := 8080 } ∧
      (∀ e ∈ (exec (prepareELBLoadBalancer (Cloud.command exampleConfig exampleCore) "role" "web"
          8080) resumedCloud).2.trace, e.succeeded = true) ∧
      (exec (prepareELBLoadBalancer (Cloud.command exampleConfig exampleCore) "role" "web" 8080)
        resumedCloud).2.cloud.securityGroups =
        [{ GroupId := "sg-svc-sg", GroupName := "svc-sg", VpcId := "vpc-1"
           inbound := [⟨"tcp", 80, 80, "0.0.0.0/0"⟩] },
         { GroupId := "sg-0001", GroupName := "cluster1-instances", VpcId := "vpc-1"
           inbound := [] }]) ∧
    ((exec (prepareELBLoadBalancer (Cloud.command httpsOnlyConfig exampleCore) "role" "web" 8080)
        exampleCloud).1 =
        .error (Errorf ("Failed to create ELB Listener (HTTPS): " ++
          "A certificate must be specified for HTTPS listeners")) ∧
      Event.RetrieveLoadBalancerByName "svc-lb" (.ok none) ∈
        (exec (prepareELBLoadBalancer (Cloud.command httpsOnlyConfig exampleCore) "role" "web" 8080)
          exampleCloud).2.trace ∧
      (exec (prepareELBLoadBalancer (Cloud.command httpsOnlyConfig exampleCore) "role" "web" 8080)
        (exec (prepareELBLoadBalancer (Cloud.command httpsOnlyConfig exampleCore) "role" "web"
          8080) exampleCloud).2.cloud).1 =
        .error (conflictError (Cloud.command httpsOnlyConfig exampleCore)) ∧
      (∀ e ∈ (exec (prepareELBLoadBalancer (Cloud.command httpsOnlyConfig exampleCore) "role" "web"
          8080) (exec (prepareELBLoadBalancer (Cloud.command httpsOnlyConfig exampleCore) "role"
            "web" 8080) exampleCloud).2.cloud).2.trace, e.succeeded = true)) := by
  decide

end Coldbrew

namespace Coldbrew

/-- Witness of C7 as amended: the `CreateTargetGroup` call of the end-to-end
scenario, made after the load balancer lookup returned absent. -/
theorem lookup_before_create_witness :
    (exec (prepareELBLoadBalancer (Cloud.command exampleConfig exampleCore) "role" "web" 8080)
        exampleCloud).2.trace =
      [Event.GetAWSRegionAndVPCID (.ok ("us-west-2", "vpc-1")),
       Event.RetrieveLoadBalancerByName "svc-lb" (.ok none),
       Event.GetAWSRegionAndVPCID (.ok ("us-west-2", "vpc-1"))] ++
      Event.CreateTargetGroup "svc-tg" 80 "HTTP" "vpc-1" (healthCheckParams exampleConfig 30 5)
          (.ok exampleTargetGroup) ::
        (exec (prepareELBLoadBalancer (Cloud.command exampleConfig exampleCore) "role" "web" 8080)
          exampleCloud).2.trace.drop 4 ∧
    LookedUpBefore (Cloud.command exampleConfig exampleCore)
      [Event.GetAWSRegionAndVPCID (.ok ("us-west-2", "vpc-1")),
       Event.RetrieveLoadBalancerByName "svc-lb" (.ok none),
       Event.GetAWSRegionAndVPCID (.ok ("us-west-2", "vpc-1"))]
      (Event.CreateTargetGroup "svc-tg" 80 "HTTP" "vpc-1" (healthCheckParams exampleConfig 30 5)
        (.ok exampleTargetGroup)) :=
  ⟨by decide,
   lookup_before_create (Cloud.command exampleConfig exampleCore) exampleCloud "role" "web" 8080
    [Event.GetAWSRegionAndVPCID (.ok ("us-west-2", "vpc-1")),
     Event.RetrieveLoadBalancerByName "svc-lb" (.ok none),
     Event.GetAWSRegionAndVPCID (.ok ("us-west-2", "vpc-1"))]
    (Event.CreateTargetGroup "svc-tg" 80 "HTTP" "vpc-1" (healthCheckParams exampleConfig 30 5)
      (.ok exampleTargetGroup))
    ((exec (prepareELBLoadBalancer (Cloud.command exampleConfig exampleCore) "role" "web" 8080)
      exampleCloud).2.trace.drop 4)
    (by decide)⟩

/-- C7 as stated fails: in the end-to-end scenario, where the load balancer
is absent, the run makes a `CreateTargetGroup` call and no
`RetrieveTargetGroupByName` call at all. -/
theorem create_without_target_group_lookup :
    (∃ e ∈ (exec (prepareELBLoadBalancer (Cloud.command exampleConfig exampleCore) "role" "web"
        8080) exampleCloud).2.trace, e.isCreateTargetGroup = true) ∧
      ∀ e ∈ (exec (prepareELBLoadBalancer (Cloud.command exampleConfig exampleCore) "role" "web"
        8080) exampleCloud).2.trace, e.isTargetGroupLookup = false := by
  decide

end Coldbrew

namespace Coldbrew

/-- C2, as amended. Idempotence over the account model, in which what a call
created is found by later lookups: when at least one of the HTTP and HTTPS
ports is set and both time expressions are accepted, and a first run of
`prepareELBLoadBalancer` returns a binding, a second run with the same
configuration on the account the first run left returns the same binding and
holds no mutating call. -/
theorem reconcile_idempotent (conf : Config) (core : Core) (role containerName : String)
    (containerPort : Nat) (i t : Nat) (b : ECSLoadBalancer) (s : Cloud)
    (hi : core.ParseTimeExpression conf.LoadBalancer.HealthCheck.Interval = .ok i)
    (ht : core.ParseTimeExpression conf.LoadBalancer.HealthCheck.Timeout = .ok t)
    (hports : conf.LoadBalancer.Port > 0 ∨ conf.LoadBalancer.HTTPSPort > 0)
    (hfirst : (exec (prepareELBLoadBalancer (Cloud.command conf core) role containerName
      containerPort) s).1 = .ok b) :
    (exec (prepareELBLoadBalancer (Cloud.command conf core) role containerName containerPort)
        (exec (prepareELBLoadBalancer (Cloud.command conf core) role containerName
          containerPort) s).2.cloud).1 = .ok b ∧
      ∀ e ∈ (exec (prepareELBLoadBalancer (Cloud.command conf core) role containerName
          containerPort)
        (exec (prepareELBLoadBalancer (Cloud.command conf core) role containerName
          containerPort) s).2.cloud).2.trace, e.isMutating = false := by
  obtain ⟨hb1, hb2, hset⟩ :=
    cloud_prepareELBLoadBalancer conf core role containerName containerPort i t hi ht hports s
      ⟨s, []⟩ rfl b hfirst
  exact cloud_settled_run conf core role containerName containerPort b _ hset hb1 hb2

/-- Witness of C2 as amended: the end-to-end scenario, run twice. -/
theorem reconcile_idempotent_witness :
    (exampleCore.ParseTimeExpression "30" = .ok 30 ∧
      exampleCore.ParseTimeExpression "5" = .ok 5 ∧
      (exampleConfig.LoadBalancer.Port > 0 ∨ exampleConfig.LoadBalancer.HTTPSPort > 0) ∧
      (exec (prepareELBLoadBalancer (Cloud.command exampleConfig exampleCore) "role" "web" 8080)
        exampleCloud).1 =
        .ok { ELBTargetGroupARN := "arn:aws:elasticloadbalancing:targetgroup/svc-tg"
              TaskContainerName := "web", TaskContainerPort := 8080 }) ∧
    ((exec (prepareELBLoadBalancer (Cloud.command exampleConfig exampleCore) "role" "web" 8080)
        (exec (prepareELBLoadBalancer (Cloud.command exampleConfig exampleCore) "role" "web"
          8080) exampleCloud).2.cloud).1 =
        .ok { ELBTargetGroupARN := "arn:aws:elasticloadbalancing:targetgroup/svc-tg"
              TaskContainerName := "web", TaskContainerPort := 8080 } ∧
      ∀ e ∈ (exec (prepareELBLoadBalancer (Cloud.command exampleConfig exampleCore) "role" "web"
          8080)
        (exec (prepareELBLoadBalancer (Cloud.command exampleConfig exampleCore) "role" "web"
          8080) exampleCloud).2.cloud).2.trace, e.isMutating = false) :=
  ⟨by decide,
   reconcile_idempotent exampleConfig exampleCore "role" "web" 8080 30 5 _ exampleCloud
    (by decide) (by decide) (Or.inl (by decide)) (by decide)⟩

/-- C2 as stated fails when neither port is set: the first run of the scenario
without ports creates target group, security group and load balancer, makes
no `CreateListener` call and returns a binding; the second run, on the account
the first one left, finds both resources without a listener between them and
returns the conflict error. -/
theorem idempotence_without_ports_counterexample :
    (noPortConfig.LoadBalancer.Port = 0 ∧ noPortConfig.LoadBalancer.HTTPSPort = 0) ∧
    (exec (prepareELBLoadBalancer (Cloud.command noPortConfig exampleCore) "role" "web" 8080)
        exampleCloud).1 =
      .ok { ELBTargetGroupARN := "arn:aws:elasticloadbalancing:targetgroup/svc-tg"
            TaskContainerName := "web", TaskContainerPort := 8080 } ∧
    (∀ e ∈ (exec (prepareELBLoadBalancer (Cloud.command noPortConfig exampleCore) "role" "web"
        8080) exampleCloud).2.trace, e.isCreateListener = false) ∧
    (exec (prepareELBLoadBalancer (Cloud.command noPortConfig exampleCore) "role" "web" 8080)
        (exec (prepareELBLoadBalancer (Cloud.command noPortConfig exampleCore) "role" "web"
          8080) exampleCloud).2.cloud).1 =
      .error (conflictError (Cloud.command noPortConfig exampleCore)) := by
  decide

end Coldbrew
